import Mathlib

/-!
# ASIO audio backend (src/audio/asio/SDL_asio.c, SDL_asio.h)

A shallow embedding of the ASIO backend adapter and proofs about it.

Conventions of the embedding.

* C `long` and `int` values are mathematical integers (`Int`); both types are 32
  bits wide on the platform of this backend (Windows).  The only arithmetic the
  backend performs on them is `input_channels + channels` and
  `buffer_size * frame size`; a result outside the 32-bit range is a signed
  overflow, which is undefined behaviour.
* Pointers are natural numbers, `0` being `NULL`.  Pointers to structures the
  backend owns (`device->hidden`, `hidden->buffer_info`, `hidden->channel_info`)
  are `Option` values holding the pointee, `none` being `NULL`.
* Host devices (`SDL_AudioDevice *`) are named by their address, a `Nat`.
* The driver, the dynamic loader and the allocator are external.  What they
  answer during one call of an adapter operation is a record (`Env`, `Loader`):
  every operation invokes each driver entry point and performs each allocation
  at most once, so one record of answers covers any behaviour during that call.
  The calls made are appended to `State.trace`, allocations and releases to
  `State.heap`.
* Undefined behaviour (a call through a null function pointer, an access outside
  an array, `memset` on `NULL`, a signed overflow) is the result `none`.
-/

set_option linter.unusedVariables false

namespace SDLAsio

/-! ## Constants of SDL_asio.h -/

/-- ASE_OK, the success sentinel of every driver entry point. -/
def ASE_OK : Int := 0

/-- ASE_NotPresent. -/
def ASE_NotPresent : Int := -1000

/-- ASE_HWMalfunction. -/
def ASE_HWMalfunction : Int := -999

/-- ASE_InvalidParameter. -/
def ASE_InvalidParameter : Int := -998

/-- ASE_InvalidMode. -/
def ASE_InvalidMode : Int := -997

/-- ASE_SPNotAdvancing. -/
def ASE_SPNotAdvancing : Int := -996

/-- ASE_NoClock. -/
def ASE_NoClock : Int := -995

/-- ASE_NoMemory. -/
def ASE_NoMemory : Int := -994

/-- Modelled from the spec: the macro ASIOTrue is used by SDL_asio.c but defined in no
source file; a descriptor "marked input" carries this value (1 in the ASIO ABI). -/
def ASIOTrue : Int := 1

/-- Modelled from the spec: the macro ASIOFalse is used by SDL_asio.c but defined in no
source file; a descriptor "marked output" carries this value (0 in the ASIO ABI). -/
def ASIOFalse : Int := 0

/-! ## Data model -/

/-- The struct ASIODriverInfo. -/
structure ASIODriverInfo where
  asioVersion : Int
  driverVersion : Int
  name : List Nat
  errorMessage : List Nat
  sysRef : Nat
deriving DecidableEq, Repr

/-- The struct ASIOBufferInfo: direction, channel number, the two half-buffer pointers. -/
structure ASIOBufferInfo where
  isInput : Int
  channelNum : Int
  buffers : Nat × Nat
deriving DecidableEq, Repr

/-- The struct ASIOChannelInfo. -/
structure ASIOChannelInfo where
  channel : Int
  isInput : Int
  isActive : Int
  channelGroup : Int
  type : Int
  name : List Nat
deriving DecidableEq, Repr

/-- The four callback functions of SDL_asio.c a callback slot can point to. -/
inductive CallbackFn where
  | asio_buffer_switch
  | asio_sample_rate_changed
  | asio_message
  | asio_buffer_switch_time_info
deriving DecidableEq, Repr

/-- The struct ASIOCallbacks; `none` is a null function pointer. -/
structure ASIOCallbacks where
  bufferSwitch : Option CallbackFn
  sampleRateDidChange : Option CallbackFn
  asioMessage : Option CallbackFn
  bufferSwitchTimeInfo : Option CallbackFn
deriving DecidableEq, Repr

/-- The struct SDL_PrivateAudioData. -/
structure SDL_PrivateAudioData where
  driver_info : ASIODriverInfo
  buffer_info : Option (List ASIOBufferInfo)
  channel_info : Option (List ASIOChannelInfo)
  input_channels : Int
  output_channels : Int
  buffer_size : Int
  sample_rate : Int
  callbacks : ASIOCallbacks
  driver_loaded : Bool
  buffers_created : Bool
  driver_started : Bool
  current_buffer : Nat
  current_buffer_size : Int
  sdl_device : Option Nat
deriving DecidableEq, Repr

/-- Modelled from the spec: SDL_AudioSpec is declared outside the source files; the host
device spec holds the frame format, the channel count and the sample rate. -/
structure SDL_AudioSpec where
  format : Nat
  channels : Int
  freq : Int
deriving DecidableEq, Repr

/-- Modelled from the spec: SDL_AudioDevice is declared outside the source files; the
backend uses its spec, its frames-per-period `sample_frames` and its `hidden` slot. -/
structure SDL_AudioDevice where
  spec : SDL_AudioSpec
  sample_frames : Int
  hidden : Option SDL_PrivateAudioData
deriving DecidableEq, Repr

/-- Modelled from the spec: the macro SDL_AUDIO_FRAMESIZE is defined outside the source
files; it is the frame size in bytes, bytes per sample (the low byte of the format
code holds the bit size) times the channel count, 4 for 16-bit stereo. -/
def SDL_AUDIO_FRAMESIZE (spec : SDL_AudioSpec) : Int :=
  ((spec.format % 256 / 8 : Nat) : Int) * spec.channels

/-- The error text recorded by SDL_SetError, with the numeric code where the text has one. -/
inductive SDLError where
  | load_library
  | load_functions
  | init_driver (code : Int)
  | get_channel_count (code : Int)
  | get_buffer_size (code : Int)
  | create_buffers (code : Int)
  | start_driver (code : Int)
deriving DecidableEq, Repr

/-- A call into the driver or the dynamic loader, with its arguments. -/
inductive Event where
  | loadLibrary (name : String)
  | freeLibrary (handle : Nat)
  | getProcAddress (handle : Nat) (name : String)
  | init
  | exit
  | start
  | stop
  | getChannels
  | getBufferSize
  | setSampleRate (rate : Int)
  | getSampleRate
  | createBuffers (infos : List ASIOBufferInfo) (numChannels : Int) (bufferSize : Int)
      (callbacks : ASIOCallbacks)
  | disposeBuffers
deriving DecidableEq, Repr

/-- The three blocks OpenDevice allocates for a device. -/
inductive Block where
  | hidden
  | buffer_info
  | channel_info
deriving DecidableEq, Repr

/-- A successful SDL_calloc or an SDL_free, for a device. -/
inductive HeapEvent where
  | calloc (device : Nat) (block : Block)
  | free (device : Nat) (block : Block)
deriving DecidableEq, Repr

/-- The process-wide state of the backend together with the host devices, the byte
memory the driver buffers live in, and the logs of external calls. -/
structure State where
  asio_dll : Nat
  pASIOInit : Nat
  pASIOExit : Nat
  pASIOStart : Nat
  pASIOStop : Nat
  pASIOGetChannels : Nat
  pASIOGetBufferSize : Nat
  pASIOCanSampleRate : Nat
  pASIOGetSampleRate : Nat
  pASIOSetSampleRate : Nat
  pASIOGetClockSources : Nat
  pASIOSetClockSource : Nat
  pASIOGetSamplePosition : Nat
  pASIOGetChannelInfo : Nat
  pASIOCreateBuffers : Nat
  pASIODisposeBuffers : Nat
  pASIOControlPanel : Nat
  pASIOFuture : Nat
  pASIOOutputReady : Nat
  current_asio_device : Option Nat
  devices : Nat → SDL_AudioDevice
  mem : Nat → Nat
  error : Option SDLError
  trace : List Event
  heap : List HeapEvent

/-- The answers of the driver and of the allocator during one call of an operation:
whether each SDL_calloc succeeds, the return code of each driver entry point together
with the values it stores through its pointer arguments, and `buffers k j`, the pointer
create-buffers stores into slot `j` of descriptor `k`. -/
structure Env where
  calloc_hidden : Bool
  calloc_buffer_info : Bool
  calloc_channel_info : Bool
  init_result : Int
  channels_result : Int
  input_channels : Int
  output_channels : Int
  buffer_size_result : Int
  min_size : Int
  max_size : Int
  preferred_size : Int
  granularity : Int
  set_rate_result : Int
  get_rate_result : Int
  current_rate : Int
  create_result : Int
  buffers : Nat → Nat → Nat
  start_result : Int

/-- The answers of the dynamic loader: LoadLibraryA by file name, GetProcAddress by
handle and symbol name; `0` is `NULL`. -/
structure Loader where
  loadLibrary : String → Nat
  getProcAddress : Nat → String → Nat

/-! ## Small helpers for state updates and array accesses -/

/-- Record a call into the driver or loader. -/
def State.call (s : State) (e : Event) : State :=
  { s with trace := s.trace ++ [e] }

/-- Record an allocation or a release. -/
def State.log (s : State) (e : HeapEvent) : State :=
  { s with heap := s.heap ++ [e] }

/-- Store through a device pointer. -/
def State.setDevice (s : State) (device : Nat) (dev : SDL_AudioDevice) : State :=
  { s with devices := Function.update s.devices device dev }

/-- The assignment `device->hidden = h`. -/
def State.setHidden (s : State) (device : Nat) (h : Option SDL_PrivateAudioData) : State :=
  s.setDevice device { s.devices device with hidden := h }

/-- The values of a 32-bit signed integer (`long` and `int` on Windows). -/
def inLong (x : Int) : Prop :=
  -2147483648 ≤ x ∧ x ≤ 2147483647

instance (x : Int) : Decidable (inLong x) := by
  unfold inLong
  exact inferInstance

/-- The result of a signed 32-bit computation whose mathematical value is `x`: the value
itself when it is representable, undefined behaviour otherwise. -/
def checkedLong (x : Int) : Option Int :=
  if inLong x then some x else none

/-- Read `xs[i]`; `none` outside the array. -/
def readAt {α : Type} (xs : List α) (i : Int) : Option α :=
  if 0 ≤ i then xs[i.toNat]? else none

/-- Write `xs[i] = v`; `none` outside the array. -/
def writeAt {α : Type} (xs : List α) (i : Int) (v : α) : Option (List α) :=
  if 0 ≤ i ∧ i.toNat < xs.length then some (xs.set i.toNat v) else none

/-- Read `b.buffers[i]`. -/
def ASIOBufferInfo.getBuffer (b : ASIOBufferInfo) (i : Int) : Option Nat :=
  if i = 0 then some b.buffers.1 else if i = 1 then some b.buffers.2 else none

/-- Write `b.buffers[i] = p`. -/
def ASIOBufferInfo.setBuffer (b : ASIOBufferInfo) (i : Int) (p : Nat) : Option ASIOBufferInfo :=
  if i = 0 then some { b with buffers := (p, b.buffers.2) }
  else if i = 1 then some { b with buffers := (b.buffers.1, p) }
  else none

/-- The call `SDL_memset(dst, c, len)` on the byte memory, `len` being an `int` converted
to `size_t`: a negative length becomes a huge one and a null destination cannot be
written. -/
def SDL_memset (mem : Nat → Nat) (dst : Nat) (c : Nat) (len : Int) : Option (Nat → Nat) :=
  if len < 0 then none
  else if len = 0 then some mem
  else if dst = 0 then none
  else some (fun a => if dst ≤ a ∧ a < dst + len.toNat then c % 256 else mem a)

/-- A zero-filled ASIODriverInfo. -/
def ASIODriverInfo.zero : ASIODriverInfo :=
  { asioVersion := 0, driverVersion := 0, name := List.replicate 32 0,
    errorMessage := List.replicate 124 0, sysRef := 0 }

/-- A zero-filled ASIOBufferInfo. -/
def ASIOBufferInfo.zero : ASIOBufferInfo :=
  { isInput := 0, channelNum := 0, buffers := (0, 0) }

/-- A zero-filled ASIOChannelInfo. -/
def ASIOChannelInfo.zero : ASIOChannelInfo :=
  { channel := 0, isInput := 0, isActive := 0, channelGroup := 0, type := 0,
    name := List.replicate 32 0 }

/-- A zero-filled SDL_PrivateAudioData, as SDL_calloc returns it. -/
def SDL_PrivateAudioData.zero : SDL_PrivateAudioData :=
  { driver_info := ASIODriverInfo.zero, buffer_info := none, channel_info := none,
    input_channels := 0, output_channels := 0, buffer_size := 0, sample_rate := 0,
    callbacks := { bufferSwitch := none, sampleRateDidChange := none, asioMessage := none,
                   bufferSwitchTimeInfo := none },
    driver_loaded := false, buffers_created := false, driver_started := false,
    current_buffer := 0, current_buffer_size := 0, sdl_device := none }

/-! ## Dynamic loader (SDL_asio.c, lines 58-133) -/

/-- ASIO_UnloadDriver: release the library if present and reset every function pointer. -/
def ASIO_UnloadDriver (s : State) : State :=
  let s := if s.asio_dll ≠ 0 then { s.call (Event.freeLibrary s.asio_dll) with asio_dll := 0 } else s
  { s with
    pASIOInit := 0, pASIOExit := 0, pASIOStart := 0, pASIOStop := 0,
    pASIOGetChannels := 0, pASIOGetBufferSize := 0, pASIOCanSampleRate := 0,
    pASIOGetSampleRate := 0, pASIOSetSampleRate := 0, pASIOGetClockSources := 0,
    pASIOSetClockSource := 0, pASIOGetSamplePosition := 0, pASIOGetChannelInfo := 0,
    pASIOCreateBuffers := 0, pASIODisposeBuffers := 0, pASIOControlPanel := 0,
    pASIOFuture := 0, pASIOOutputReady := 0 }

/-- The symbol names ASIO_LoadDriver resolves, in the order of its GetProcAddress calls. -/
def resolvedSymbols : List String :=
  ["ASIOInit", "ASIOExit", "ASIOStart", "ASIOStop", "ASIOGetChannels", "ASIOGetBufferSize",
   "ASIOCanSampleRate", "ASIOGetSampleRate", "ASIOSetSampleRate", "ASIOGetChannelInfo",
   "ASIOCreateBuffers", "ASIODisposeBuffers", "ASIOControlPanel", "ASIOFuture",
   "ASIOOutputReady"]

/-- ASIO_LoadDriver: the returned `bool` and the state on return.  Three of the entry
points (get-clock-sources, set-clock-source, get-sample-position) have no GetProcAddress
call and keep their value. -/
def ASIO_LoadDriver (ld : Loader) (s : State) : Bool × State :=
  if s.asio_dll ≠ 0 then (true, s)
  else
    let s : State :=
      { s.call (Event.loadLibrary "asio.dll") with asio_dll := ld.loadLibrary "asio.dll" }
    let s : State :=
      if s.asio_dll = 0 then
        { s.call (Event.loadLibrary "asiodrvr.dll") with asio_dll := ld.loadLibrary "asiodrvr.dll" }
      else s
    if s.asio_dll = 0 then
      (false, { s with error := some SDLError.load_library })
    else
      let h := s.asio_dll
      let s : State := { s with
        trace := s.trace ++ resolvedSymbols.map (Event.getProcAddress h),
        pASIOInit := ld.getProcAddress h "ASIOInit",
        pASIOExit := ld.getProcAddress h "ASIOExit",
        pASIOStart := ld.getProcAddress h "ASIOStart",
        pASIOStop := ld.getProcAddress h "ASIOStop",
        pASIOGetChannels := ld.getProcAddress h "ASIOGetChannels",
        pASIOGetBufferSize := ld.getProcAddress h "ASIOGetBufferSize",
        pASIOCanSampleRate := ld.getProcAddress h "ASIOCanSampleRate",
        pASIOGetSampleRate := ld.getProcAddress h "ASIOGetSampleRate",
        pASIOSetSampleRate := ld.getProcAddress h "ASIOSetSampleRate",
        pASIOGetChannelInfo := ld.getProcAddress h "ASIOGetChannelInfo",
        pASIOCreateBuffers := ld.getProcAddress h "ASIOCreateBuffers",
        pASIODisposeBuffers := ld.getProcAddress h "ASIODisposeBuffers",
        pASIOControlPanel := ld.getProcAddress h "ASIOControlPanel",
        pASIOFuture := ld.getProcAddress h "ASIOFuture",
        pASIOOutputReady := ld.getProcAddress h "ASIOOutputReady" }
      if s.pASIOInit = 0 ∨ s.pASIOExit = 0 ∨ s.pASIOStart = 0 ∨ s.pASIOStop = 0 ∨
          s.pASIOGetChannels = 0 ∨ s.pASIOGetBufferSize = 0 ∨ s.pASIOCreateBuffers = 0 ∨
          s.pASIODisposeBuffers = 0 then
        (false, ASIO_UnloadDriver { s with error := some SDLError.load_functions })
      else
        (true, s)

/-! ## Driver session (lines 135-156) -/

/-- ASIO_InitializeDriver. -/
def ASIO_InitializeDriver (env : Env) (s : State) : Bool × State :=
  if s.asio_dll = 0 ∨ s.pASIOInit = 0 then (false, s)
  else
    let s := s.call Event.init
    if env.init_result ≠ ASE_OK then
      (false, { s with error := some (SDLError.init_driver env.init_result) })
    else (true, s)

/-- ASIO_ShutdownDriver. -/
def ASIO_ShutdownDriver (s : State) : State :=
  if s.pASIOExit ≠ 0 then s.call Event.exit else s

/-! ## Callbacks (lines 159-229) -/

/-- The callback asio_buffer_switch; `none` is undefined behaviour (a null or out-of-range
descriptor access, an overflowing byte size, `memset` on a null pointer). -/
def asio_buffer_switch (s : State) (doubleBufferIndex : Int) (directProcess : Int) :
    Option State :=
  match s.current_asio_device with
  | none => some s
  | some cur =>
    let dev := s.devices cur
    match dev.hidden with
    | none => some s
    | some hidden =>
      if hidden.output_channels ≥ dev.spec.channels then do
        let arr ← hidden.buffer_info
        let bi ← readAt arr hidden.input_channels
        let buffer ← bi.getBuffer doubleBufferIndex
        let size ← checkedLong (hidden.buffer_size * SDL_AUDIO_FRAMESIZE dev.spec)
        let hidden : SDL_PrivateAudioData := { hidden with
          current_buffer := buffer,
          current_buffer_size := size }
        let mem ← SDL_memset s.mem buffer 0 hidden.current_buffer_size
        let s : State := { s with mem := mem }
        if dev.spec.channels = 2 ∧ hidden.output_channels ≥ 2 then do
          let bi1 ← readAt arr (hidden.input_channels + 1)
          let bi1 ← bi1.setBuffer doubleBufferIndex
            (Int.toNat (Int.ofNat buffer + Int.tdiv size 2))
          let arr ← writeAt arr (hidden.input_channels + 1) bi1
          some (s.setHidden cur (some { hidden with buffer_info := some arr }))
        else
          some (s.setHidden cur (some hidden))
      else some s

/-- The callback asio_sample_rate_changed: nothing is done. -/
def asio_sample_rate_changed (s : State) (sRate : Int) : State :=
  s

/-- The callback asio_message. -/
def asio_message (selector : Int) (value : Int) (message : Nat) (opt : Nat) : Int :=
  if selector = 1 then 0
  else if selector = 2 then 2
  else if selector = 3 then 0
  else if selector = 4 then 0
  else if selector = 5 then 0
  else if selector = 6 then 0
  else 0

/-- The callback asio_buffer_switch_time_info. -/
def asio_buffer_switch_time_info (s : State) (params : Nat) (doubleBufferIndex : Int)
    (directProcess : Int) : Option State :=
  asio_buffer_switch s doubleBufferIndex directProcess

/-! ## Host adapter (lines 233-442) -/

/-- Lines 276-283 of ASIO_OpenDevice: the preferred size, raised to 64 and lowered to 4096. -/
def chooseBufferSize (preferred_size : Int) : Int :=
  let buffer_size := preferred_size
  let buffer_size := if buffer_size < 64 then 64 else buffer_size
  if buffer_size > 4096 then 4096 else buffer_size

/-- Lines 285-295 of ASIO_OpenDevice: the sample-rate negotiation, giving the new
`device->spec.freq` and the driver calls made. -/
def negotiateSampleRate (env : Env) (s : State) (freq : Int) : Int × List Event :=
  if s.pASIOSetSampleRate ≠ 0 then
    if env.set_rate_result ≠ ASE_OK then
      if s.pASIOGetSampleRate ≠ 0 then
        if env.get_rate_result = ASE_OK then
          (env.current_rate, [Event.setSampleRate freq, Event.getSampleRate])
        else (freq, [Event.setSampleRate freq, Event.getSampleRate])
      else (freq, [Event.setSampleRate freq])
    else (freq, [Event.setSampleRate freq])
  else (freq, [])

/-- Lines 297-303 of ASIO_OpenDevice: the channel count, limited to stereo and to the
driver's output channels. -/
def limitChannels (channels : Int) (output_channels : Int) : Int :=
  let channels := if channels > 2 then 2 else channels
  if channels > output_channels then output_channels else channels

/-- Lines 322-328 of ASIO_OpenDevice: the loop over the input channels. -/
def setupInputChannels (input_channels : Int) (buffer_info : List ASIOBufferInfo) :
    Option (List ASIOBufferInfo) :=
  (List.range input_channels.toNat).foldlM
    (fun arr (i : Nat) => writeAt arr (Int.ofNat i)
      { isInput := ASIOTrue, channelNum := Int.ofNat i, buffers := (0, 0) })
    buffer_info

/-- Lines 330-336 of ASIO_OpenDevice: the loop over the output channels. -/
def setupOutputChannels (input_channels : Int) (channels : Int)
    (buffer_info : List ASIOBufferInfo) : Option (List ASIOBufferInfo) :=
  (List.range channels.toNat).foldlM
    (fun arr (i : Nat) => writeAt arr (input_channels + Int.ofNat i)
      { isInput := ASIOFalse, channelNum := Int.ofNat i, buffers := (0, 0) })
    buffer_info

/-- The callback vector installed at lines 338-342. -/
def installedCallbacks : ASIOCallbacks :=
  { bufferSwitch := some CallbackFn.asio_buffer_switch,
    sampleRateDidChange := some CallbackFn.asio_sample_rate_changed,
    asioMessage := some CallbackFn.asio_message,
    bufferSwitchTimeInfo := some CallbackFn.asio_buffer_switch_time_info }

/-- What the driver's create-buffers leaves in the descriptor array: it fills the two
buffer pointers of every descriptor. -/
def driverFill (buffers : Nat → Nat → Nat) (infos : List ASIOBufferInfo) : List ASIOBufferInfo :=
  (List.range infos.length).zipWith
    (fun k b => { b with buffers := (buffers k 0, buffers k 1) }) infos

/-- The exit of ASIO_OpenDevice on a failure before the descriptor arrays exist:
`SDL_free(hidden); device->hidden = NULL; return false`. -/
def openFail (s : State) (device : Nat) : Option (Bool × State) :=
  some (false, (s.log (HeapEvent.free device Block.hidden)).setHidden device none)

/-- ASIO_OpenDevice.  The private data is built up in the local `hidden` and stored into
the device when the function returns: `device->hidden` holds the same pointer from line
245 on, and nothing reads it before the return.  The result is the returned `bool` and the
state on return, or `none` for undefined behaviour. -/
def ASIO_OpenDevice (env : Env) (s : State) (device : Nat) : Option (Bool × State) :=
  -- lines 241-246: allocate the private data and attach it to the device
  if env.calloc_hidden = false then some (false, s) else
  let s := s.log (HeapEvent.calloc device Block.hidden)
  let hidden : SDL_PrivateAudioData := { SDL_PrivateAudioData.zero with sdl_device := some device }
  let s := s.setHidden device (some hidden)
  -- lines 249-253: initialise the driver
  match ASIO_InitializeDriver env s with
  | (false, s) => openFail s device
  | (true, s) =>
  -- lines 256-265: channel counts
  if s.pASIOGetChannels = 0 then none else
  let s := s.call Event.getChannels
  if env.channels_result ≠ ASE_OK then
    openFail { s with error := some (SDLError.get_channel_count env.channels_result) } device
  else
  let hidden := { hidden with
    input_channels := env.input_channels, output_channels := env.output_channels }
  -- lines 268-274: buffer sizes
  if s.pASIOGetBufferSize = 0 then none else
  let s := s.call Event.getBufferSize
  if env.buffer_size_result ≠ ASE_OK then
    openFail { s with error := some (SDLError.get_buffer_size env.buffer_size_result) } device
  else
  -- lines 277-283: preferred size, kept within 64 and 4096
  let hidden := { hidden with buffer_size := chooseBufferSize env.preferred_size }
  -- lines 286-295: sample rate
  let spec := (s.devices device).spec
  let rate := negotiateSampleRate env s spec.freq
  let s := { s with trace := s.trace ++ rate.2 }
  let spec := { spec with freq := rate.1 }
  -- lines 298-303: channel count
  let spec := { spec with channels := limitChannels spec.channels env.output_channels }
  let s := s.setDevice device { s.devices device with spec := spec }
  -- lines 306-320: the two arrays; the sum is a signed addition
  let total_channels := hidden.input_channels + spec.channels
  if ¬ inLong total_channels then none else
  if env.calloc_buffer_info = false then openFail s device else
  let s := s.log (HeapEvent.calloc device Block.buffer_info)
  let buffer_info := List.replicate total_channels.toNat ASIOBufferInfo.zero
  if env.calloc_channel_info = false then
    openFail (s.log (HeapEvent.free device Block.buffer_info)) device
  else
  let s := s.log (HeapEvent.calloc device Block.channel_info)
  let channel_info := List.replicate total_channels.toNat ASIOChannelInfo.zero
  -- lines 323-336: the descriptors
  match setupInputChannels hidden.input_channels buffer_info with
  | none => none
  | some buffer_info =>
  match setupOutputChannels hidden.input_channels spec.channels buffer_info with
  | none => none
  | some buffer_info =>
  -- lines 339-342: the callbacks
  let hidden := { hidden with callbacks := installedCallbacks }
  -- lines 345-353: create the driver buffers
  if s.pASIOCreateBuffers = 0 then none else
  let s := s.call
    (Event.createBuffers buffer_info total_channels hidden.buffer_size hidden.callbacks)
  let buffer_info := driverFill env.buffers buffer_info
  if env.create_result ≠ ASE_OK then
    let s := { s with error := some (SDLError.create_buffers env.create_result) }
    let s := s.log (HeapEvent.free device Block.channel_info)
    let s := s.log (HeapEvent.free device Block.buffer_info)
    openFail s device
  else
  -- lines 355-359: publish
  let hidden := { hidden with
    buffer_info := some buffer_info, channel_info := some channel_info,
    buffers_created := true }
  let s := s.setDevice device
    { s.devices device with hidden := some hidden, sample_frames := hidden.buffer_size }
  some (true, { s with current_asio_device := some device })

/-! ## ASIO_OpenDevice cut into its consecutive blocks

The same statements as in `ASIO_OpenDevice`, one definition per block of the
function, each block ending in the next one.  `ASIO_OpenDevice_eq_blocks` below shows
that the chain is the function itself. -/

/-- Lines 344-359: create the driver buffers and publish the device. -/
def openCreateBuffers (env : Env) (s : State) (device : Nat) (hidden : SDL_PrivateAudioData)
    (total_channels : Int) (channel_info : List ASIOChannelInfo)
    (buffer_info : List ASIOBufferInfo) : Option (Bool × State) :=
  let hidden := { hidden with callbacks := installedCallbacks }
  if s.pASIOCreateBuffers = 0 then none else
  let s := s.call
    (Event.createBuffers buffer_info total_channels hidden.buffer_size hidden.callbacks)
  let buffer_info := driverFill env.buffers buffer_info
  if env.create_result ≠ ASE_OK then
    let s := { s with error := some (SDLError.create_buffers env.create_result) }
    let s := s.log (HeapEvent.free device Block.channel_info)
    let s := s.log (HeapEvent.free device Block.buffer_info)
    openFail s device
  else
  let hidden := { hidden with
    buffer_info := some buffer_info, channel_info := some channel_info,
    buffers_created := true }
  let s := s.setDevice device
    { s.devices device with hidden := some hidden, sample_frames := hidden.buffer_size }
  some (true, { s with current_asio_device := some device })

/-- Lines 305-336: allocate the two arrays and fill in the descriptors. -/
def openDescriptors (env : Env) (s : State) (device : Nat) (hidden : SDL_PrivateAudioData)
    (channels : Int) : Option (Bool × State) :=
  let total_channels := hidden.input_channels + channels
  if ¬ inLong total_channels then none else
  if env.calloc_buffer_info = false then openFail s device else
  let s := s.log (HeapEvent.calloc device Block.buffer_info)
  let buffer_info := List.replicate total_channels.toNat ASIOBufferInfo.zero
  if env.calloc_channel_info = false then
    openFail (s.log (HeapEvent.free device Block.buffer_info)) device
  else
  let s := s.log (HeapEvent.calloc device Block.channel_info)
  let channel_info := List.replicate total_channels.toNat ASIOChannelInfo.zero
  match setupInputChannels hidden.input_channels buffer_info with
  | none => none
  | some buffer_info =>
  match setupOutputChannels hidden.input_channels channels buffer_info with
  | none => none
  | some buffer_info =>
  openCreateBuffers env s device hidden total_channels channel_info buffer_info

/-- Lines 276-303: buffer size, sample rate and channel count. -/
def openNegotiate (env : Env) (s : State) (device : Nat) (hidden : SDL_PrivateAudioData) :
    Option (Bool × State) :=
  let hidden := { hidden with buffer_size := chooseBufferSize env.preferred_size }
  let spec := (s.devices device).spec
  let rate := negotiateSampleRate env s spec.freq
  let s := { s with trace := s.trace ++ rate.2 }
  let spec := { spec with freq := rate.1 }
  let spec := { spec with channels := limitChannels spec.channels env.output_channels }
  let s := s.setDevice device { s.devices device with spec := spec }
  openDescriptors env s device hidden spec.channels

/-- Lines 255-274: query the channel counts and the buffer sizes. -/
def openQuery (env : Env) (s : State) (device : Nat) (hidden : SDL_PrivateAudioData) :
    Option (Bool × State) :=
  if s.pASIOGetChannels = 0 then none else
  let s := s.call Event.getChannels
  if env.channels_result ≠ ASE_OK then
    openFail { s with error := some (SDLError.get_channel_count env.channels_result) } device
  else
  let hidden := { hidden with
    input_channels := env.input_channels, output_channels := env.output_channels }
  if s.pASIOGetBufferSize = 0 then none else
  let s := s.call Event.getBufferSize
  if env.buffer_size_result ≠ ASE_OK then
    openFail { s with error := some (SDLError.get_buffer_size env.buffer_size_result) } device
  else
  openNegotiate env s device hidden

/-- Lines 240-253: allocate the private data and initialise the driver. -/
def openBlocks (env : Env) (s : State) (device : Nat) : Option (Bool × State) :=
  if env.calloc_hidden = false then some (false, s) else
  let s := s.log (HeapEvent.calloc device Block.hidden)
  let hidden : SDL_PrivateAudioData := { SDL_PrivateAudioData.zero with sdl_device := some device }
  let s := s.setHidden device (some hidden)
  match ASIO_InitializeDriver env s with
  | (false, s) => openFail s device
  | (true, s) => openQuery env s device hidden

/-! ## The states along the path of ASIO_OpenDevice -/

/-- The private data as it stands after line 246. -/
def freshHidden (device : Nat) : SDL_PrivateAudioData :=
  { SDL_PrivateAudioData.zero with sdl_device := some device }

/-- The state once the private data is allocated and attached (after line 246). -/
def openAttached (s : State) (device : Nat) : State :=
  (s.log (HeapEvent.calloc device Block.hidden)).setHidden device (some (freshHidden device))

/-- The state once the three queries init, get-channels and get-buffer-size are made. -/
def openQueried (s : State) (device : Nat) : State :=
  (((openAttached s device).call Event.init).call Event.getChannels).call Event.getBufferSize

/-- The host spec after lines 285-303: negotiated rate and limited channel count. -/
def negotiatedSpec (env : Env) (s : State) (device : Nat) : SDL_AudioSpec :=
  { format := (s.devices device).spec.format,
    channels := limitChannels (s.devices device).spec.channels env.output_channels,
    freq := (negotiateSampleRate env s (s.devices device).spec.freq).1 }

/-- The state after the negotiation of lines 276-303. -/
def openNegotiated (env : Env) (s : State) (device : Nat) : State :=
  let q := openQueried s device
  ({ q with trace := q.trace ++ (negotiateSampleRate env s (s.devices device).spec.freq).2 } :
    State).setDevice device
      { q.devices device with spec := negotiatedSpec env s device }

/-- The number of descriptors, `total_channels` of line 306. -/
def totalChannels (env : Env) (s : State) (device : Nat) : Int :=
  env.input_channels + limitChannels (s.devices device).spec.channels env.output_channels

/-- The private data handed to create-buffers. -/
def negotiatedHidden (env : Env) (device : Nat) : SDL_PrivateAudioData :=
  { freshHidden device with
    input_channels := env.input_channels, output_channels := env.output_channels,
    buffer_size := chooseBufferSize env.preferred_size }

/-- The state left by `SDL_free(hidden); device->hidden = NULL`. -/
def released (s : State) (device : Nat) : State :=
  (s.log (HeapEvent.free device Block.hidden)).setHidden device none

/-- The state once both descriptor arrays are allocated (after line 314). -/
def openAllocated (env : Env) (s : State) (device : Nat) : State :=
  ((openNegotiated env s device).log (HeapEvent.calloc device Block.buffer_info)).log
    (HeapEvent.calloc device Block.channel_info)

/-- The state returned when create-buffers, called in state `s` on the descriptors
`infos`, fails (lines 345-352). -/
def createFailedState (env : Env) (s : State) (device : Nat) (infos : List ASIOBufferInfo)
    (total_channels : Int) (buffer_size : Int) : State :=
  released
    ((({ s.call (Event.createBuffers infos total_channels buffer_size installedCallbacks) with
          error := some (SDLError.create_buffers env.create_result) } : State).log
        (HeapEvent.free device Block.channel_info)).log
      (HeapEvent.free device Block.buffer_info)) device

/-- The state returned when create-buffers, called in state `s` on the descriptors
`infos`, succeeds (lines 345, 355-357). -/
def publishedState (env : Env) (s : State) (device : Nat) (hidden : SDL_PrivateAudioData)
    (total_channels : Int) (channel_info : List ASIOChannelInfo)
    (infos : List ASIOBufferInfo) : State :=
  { (s.call (Event.createBuffers infos total_channels hidden.buffer_size
        installedCallbacks)).setDevice device
      { s.devices device with
        hidden := some { hidden with
          callbacks := installedCallbacks,
          buffer_info := some (driverFill env.buffers infos),
          channel_info := some channel_info,
          buffers_created := true },
        sample_frames := hidden.buffer_size } with
    current_asio_device := some device }

/-- The state ASIO_OpenDevice returns with `true`, `infos` being the descriptors handed
to create-buffers. -/
def openedState (env : Env) (s : State) (device : Nat) (infos : List ASIOBufferInfo) : State :=
  publishedState env (openAllocated env s device) device (negotiatedHidden env device)
    (totalChannels env s device)
    (List.replicate (totalChannels env s device).toNat ASIOChannelInfo.zero) infos

/-- The descriptor the first loop writes at index `i` (lines 324-327). -/
def inputDescriptor (i : Nat) : ASIOBufferInfo :=
  { isInput := ASIOTrue, channelNum := Int.ofNat i, buffers := (0, 0) }

/-- The descriptor the second loop writes at index `input_channels + i` (lines 332-335). -/
def outputDescriptor (i : Nat) : ASIOBufferInfo :=
  { isInput := ASIOFalse, channelNum := Int.ofNat i, buffers := (0, 0) }

/-- The descriptors handed to create-buffers: the zero-filled array after both loops. -/
def preparedDescriptors (env : Env) (s : State) (device : Nat) : Option (List ASIOBufferInfo) :=
  (setupInputChannels env.input_channels
    (List.replicate (totalChannels env s device).toNat ASIOBufferInfo.zero)).bind
    (setupOutputChannels env.input_channels
      (limitChannels (s.devices device).spec.channels env.output_channels))

/-- The ways ASIO_OpenDevice returns. -/
inductive OpenExit where
  | no_memory
  | init_unavailable
  | init_failed
  | channels_failed
  | buffer_size_failed
  | no_memory_buffer_info
  | no_memory_channel_info
  | create_failed
  | opened
deriving DecidableEq, Repr

/-- The state ASIO_OpenDevice returns at each exit. -/
def exitState (env : Env) (s : State) (device : Nat) (infos : List ASIOBufferInfo) :
    OpenExit → State
  | OpenExit.no_memory => s
  | OpenExit.init_unavailable => released (openAttached s device) device
  | OpenExit.init_failed =>
      released { (openAttached s device).call Event.init with
        error := some (SDLError.init_driver env.init_result) } device
  | OpenExit.channels_failed =>
      released { ((openAttached s device).call Event.init).call Event.getChannels with
        error := some (SDLError.get_channel_count env.channels_result) } device
  | OpenExit.buffer_size_failed =>
      released { openQueried s device with
        error := some (SDLError.get_buffer_size env.buffer_size_result) } device
  | OpenExit.no_memory_buffer_info => released (openNegotiated env s device) device
  | OpenExit.no_memory_channel_info =>
      released
        (((openNegotiated env s device).log (HeapEvent.calloc device Block.buffer_info)).log
          (HeapEvent.free device Block.buffer_info)) device
  | OpenExit.create_failed =>
      createFailedState env (openAllocated env s device) device infos
        (totalChannels env s device) (chooseBufferSize env.preferred_size)
  | OpenExit.opened => openedState env s device infos

/-- The condition under which ASIO_OpenDevice takes each exit. -/
def exitTaken (env : Env) (s : State) (device : Nat) (infos : List ASIOBufferInfo) :
    OpenExit → Prop
  | OpenExit.no_memory => env.calloc_hidden = false
  | OpenExit.init_unavailable =>
      env.calloc_hidden = true ∧ (s.asio_dll = 0 ∨ s.pASIOInit = 0)
  | OpenExit.init_failed =>
      env.calloc_hidden = true ∧ s.asio_dll ≠ 0 ∧ s.pASIOInit ≠ 0 ∧ env.init_result ≠ 0
  | OpenExit.channels_failed =>
      env.calloc_hidden = true ∧ s.asio_dll ≠ 0 ∧ s.pASIOInit ≠ 0 ∧ env.init_result = 0 ∧
      s.pASIOGetChannels ≠ 0 ∧ env.channels_result ≠ 0
  | OpenExit.buffer_size_failed =>
      env.calloc_hidden = true ∧ s.asio_dll ≠ 0 ∧ s.pASIOInit ≠ 0 ∧ env.init_result = 0 ∧
      s.pASIOGetChannels ≠ 0 ∧ env.channels_result = 0 ∧
      s.pASIOGetBufferSize ≠ 0 ∧ env.buffer_size_result ≠ 0
  | OpenExit.no_memory_buffer_info =>
      env.calloc_hidden = true ∧ s.asio_dll ≠ 0 ∧ s.pASIOInit ≠ 0 ∧ env.init_result = 0 ∧
      s.pASIOGetChannels ≠ 0 ∧ env.channels_result = 0 ∧
      s.pASIOGetBufferSize ≠ 0 ∧ env.buffer_size_result = 0 ∧
      inLong (totalChannels env s device) ∧
      env.calloc_buffer_info = false
  | OpenExit.no_memory_channel_info =>
      env.calloc_hidden = true ∧ s.asio_dll ≠ 0 ∧ s.pASIOInit ≠ 0 ∧ env.init_result = 0 ∧
      s.pASIOGetChannels ≠ 0 ∧ env.channels_result = 0 ∧
      s.pASIOGetBufferSize ≠ 0 ∧ env.buffer_size_result = 0 ∧
      inLong (totalChannels env s device) ∧
      env.calloc_buffer_info = true ∧ env.calloc_channel_info = false
  | OpenExit.create_failed =>
      env.calloc_hidden = true ∧ s.asio_dll ≠ 0 ∧ s.pASIOInit ≠ 0 ∧ env.init_result = 0 ∧
      s.pASIOGetChannels ≠ 0 ∧ env.channels_result = 0 ∧
      s.pASIOGetBufferSize ≠ 0 ∧ env.buffer_size_result = 0 ∧
      inLong (totalChannels env s device) ∧
      env.calloc_buffer_info = true ∧ env.calloc_channel_info = true ∧
      preparedDescriptors env s device = some infos ∧
      s.pASIOCreateBuffers ≠ 0 ∧ env.create_result ≠ 0
  | OpenExit.opened =>
      env.calloc_hidden = true ∧ s.asio_dll ≠ 0 ∧ s.pASIOInit ≠ 0 ∧ env.init_result = 0 ∧
      s.pASIOGetChannels ≠ 0 ∧ env.channels_result = 0 ∧
      s.pASIOGetBufferSize ≠ 0 ∧ env.buffer_size_result = 0 ∧
      inLong (totalChannels env s device) ∧
      env.calloc_buffer_info = true ∧ env.calloc_channel_info = true ∧
      preparedDescriptors env s device = some infos ∧
      s.pASIOCreateBuffers ≠ 0 ∧ env.create_result = 0

/-- ASIO_CloseDevice: the state on return. -/
def ASIO_CloseDevice (s : State) (device : Nat) : State :=
  match (s.devices device).hidden with
  | none => s
  | some hidden =>
    let s := if hidden.driver_started = true ∧ s.pASIOStop ≠ 0 then s.call Event.stop else s
    let s :=
      if hidden.buffers_created = true ∧ s.pASIODisposeBuffers ≠ 0 then
        s.call Event.disposeBuffers
      else s
    let s :=
      if hidden.channel_info.isSome then s.log (HeapEvent.free device Block.channel_info) else s
    let s :=
      if hidden.buffer_info.isSome then s.log (HeapEvent.free device Block.buffer_info) else s
    let s := s.log (HeapEvent.free device Block.hidden)
    let s := s.setHidden device none
    if s.current_asio_device = some device then { s with current_asio_device := none } else s

/-- ASIO_GetDeviceBuf: the returned pointer and the value stored in `*buffer_size`. -/
def ASIO_GetDeviceBuf (s : State) (device : Nat) : (Nat × Int) × State :=
  match (s.devices device).hidden with
  | none => ((0, 0), s)
  | some hidden =>
    if hidden.current_buffer = 0 then ((0, 0), s)
    else ((hidden.current_buffer, hidden.current_buffer_size), s)

/-- ASIO_PlayDevice: the returned `bool` and the state on return. -/
def ASIO_PlayDevice (env : Env) (s : State) (device : Nat) (buffer : Nat) (buffer_size : Int) :
    Bool × State :=
  match (s.devices device).hidden with
  | none => (false, s)
  | some hidden =>
    if hidden.driver_started = false ∧ s.pASIOStart ≠ 0 then
      let s := s.call Event.start
      if env.start_result ≠ ASE_OK then
        (false, { s with error := some (SDLError.start_driver env.start_result) })
      else
        (true, s.setHidden device (some { hidden with driver_started := true }))
    else (true, s)

/-- ASIO_Deinitialize. -/
def ASIO_Deinitialize (s : State) : State :=
  ASIO_UnloadDriver (ASIO_ShutdownDriver s)

/-! ## Concrete drivers and states used to exercise the model -/

/-- A host device with the given spec, not open. -/
def closedDevice (format : Nat) (channels : Int) (freq : Int) : SDL_AudioDevice :=
  { spec := { format := format, channels := channels, freq := freq },
    sample_frames := 0, hidden := none }

/-- The state after a successful load of a complete driver library: handle and all
resolved slots non-null, no device open, every host device 16-bit stereo at 48000 Hz
(format code 0x8010). -/
def loadedState : State :=
  { asio_dll := 1, pASIOInit := 101, pASIOExit := 102, pASIOStart := 103, pASIOStop := 104,
    pASIOGetChannels := 105, pASIOGetBufferSize := 106, pASIOCanSampleRate := 107,
    pASIOGetSampleRate := 108, pASIOSetSampleRate := 109, pASIOGetClockSources := 0,
    pASIOSetClockSource := 0, pASIOGetSamplePosition := 0, pASIOGetChannelInfo := 113,
    pASIOCreateBuffers := 114, pASIODisposeBuffers := 115, pASIOControlPanel := 116,
    pASIOFuture := 117, pASIOOutputReady := 118,
    current_asio_device := none,
    devices := fun _ => closedDevice 32784 2 48000,
    mem := fun _ => 255,
    error := none, trace := [], heap := [] }

/-- The fake driver of the end-to-end scenario: no inputs, two outputs, preferred size
256, every entry point succeeds, create-buffers hands out non-null buffers. -/
def fakeDriver : Env :=
  { calloc_hidden := true, calloc_buffer_info := true, calloc_channel_info := true,
    init_result := 0, channels_result := 0, input_channels := 0, output_channels := 2,
    buffer_size_result := 0, min_size := 64, max_size := 4096, preferred_size := 256,
    granularity := 0, set_rate_result := 0, get_rate_result := 0, current_rate := 48000,
    create_result := 0, buffers := fun k j => 65536 * (2 * k + j + 1), start_result := 0 }

/-- The private data of a successfully opened device, `infos` being the descriptors
handed to create-buffers. -/
def openedHidden (env : Env) (s : State) (device : Nat) (infos : List ASIOBufferInfo) :
    SDL_PrivateAudioData :=
  { negotiatedHidden env device with
    callbacks := installedCallbacks,
    buffer_info := some (driverFill env.buffers infos),
    channel_info := some (List.replicate (totalChannels env s device).toNat ASIOChannelInfo.zero),
    buffers_created := true }

/-- The driver calls of a successful ASIO_OpenDevice, in order. -/
def openCalls (env : Env) (s : State) (device : Nat) (infos : List ASIOBufferInfo) : List Event :=
  [Event.init, Event.getChannels, Event.getBufferSize] ++
    (negotiateSampleRate env s (s.devices device).spec.freq).2 ++
    [Event.createBuffers infos (totalChannels env s device)
      (chooseBufferSize env.preferred_size) installedCallbacks]

/-- The spec's clamp(x, lo, hi). -/
def clamp (x lo hi : Int) : Int :=
  max lo (min x hi)

/-- The descriptors the backend hands to the fake driver: two outputs, no input. -/
def fakeInfos : List ASIOBufferInfo :=
  [outputDescriptor 0, outputDescriptor 1]

/-- The state after `ASIO_OpenDevice` of device 7 on `loadedState` with the driver `env`,
for drivers reporting no input and two outputs. -/
def fakeOpened (env : Env) : State :=
  openedState env loadedState 7 fakeInfos

/-- A driver that refuses the requested rate, reports 44100 instead, and then fails
create-buffers with ASE_NoMemory. -/
def overrideThenFail : Env :=
  { fakeDriver with
    set_rate_result := ASE_InvalidParameter, current_rate := 44100,
    create_result := ASE_NoMemory }

/-- The fake driver with create-buffers failing with ASE_NoMemory. -/
def noMemoryDriver : Env :=
  { fakeDriver with create_result := ASE_NoMemory }

/-- The state after opening device 7 on the fake driver and one ASIO_PlayDevice: the
device is open, its buffers are created and the driver is started. -/
def fakeStarted : State :=
  (ASIO_PlayDevice fakeDriver (fakeOpened fakeDriver) 7 0 0).2

/-- The fake driver reporting no output channel. -/
def noOutputDriver : Env :=
  { fakeDriver with output_channels := 0 }

/-- The fake driver reporting a single output channel. -/
def monoDriver : Env :=
  { fakeDriver with output_channels := 1 }

/-- A sequence of ASIO_PlayDevice calls on one device; each call comes with the driver's
answers during that call and with its buffer arguments.  The results are returned in call
order together with the final state. -/
def playAll (s : State) (device : Nat) : List (Env × Nat × Int) → List Bool × State
  | [] => ([], s)
  | call :: rest =>
    let r := ASIO_PlayDevice call.1 s device call.2.1 call.2.2
    let rs := playAll r.2 device rest
    (r.1 :: rs.1, rs.2)

/-- The fake driver refusing the requested rate and reporting 44100 as its current rate. -/
def rateOverrideDriver : Env :=
  { fakeDriver with set_rate_result := ASE_InvalidParameter, current_rate := 44100 }

/-! ## The entry table and the loader, as the data model names them -/

/-- The 18 entry-table slots of a state, in the order of the data model: init, exit,
start, stop, get-channels, get-buffer-size, can-sample-rate, get-sample-rate,
set-sample-rate, get-clock-sources, set-clock-source, get-sample-position,
get-channel-info, create-buffers, dispose-buffers, control-panel, future, output-ready. -/
def entryTable (s : State) : List Nat :=
  [s.pASIOInit, s.pASIOExit, s.pASIOStart, s.pASIOStop, s.pASIOGetChannels,
   s.pASIOGetBufferSize, s.pASIOCanSampleRate, s.pASIOGetSampleRate, s.pASIOSetSampleRate,
   s.pASIOGetClockSources, s.pASIOSetClockSource, s.pASIOGetSamplePosition,
   s.pASIOGetChannelInfo, s.pASIOCreateBuffers, s.pASIODisposeBuffers, s.pASIOControlPanel,
   s.pASIOFuture, s.pASIOOutputReady]

/-- The exported symbol of each of the 18 entry points, in the order of `entryTable`; the
three names ASIO_LoadDriver never asks for are those of their typedefs in SDL_asio.h. -/
def entrySymbols : List String :=
  ["ASIOInit", "ASIOExit", "ASIOStart", "ASIOStop", "ASIOGetChannels", "ASIOGetBufferSize",
   "ASIOCanSampleRate", "ASIOGetSampleRate", "ASIOSetSampleRate", "ASIOGetClockSources",
   "ASIOSetClockSource", "ASIOGetSamplePosition", "ASIOGetChannelInfo", "ASIOCreateBuffers",
   "ASIODisposeBuffers", "ASIOControlPanel", "ASIOFuture", "ASIOOutputReady"]

/-- The eight symbols checked at lines 96-98. -/
def requiredSymbols : List String :=
  ["ASIOInit", "ASIOExit", "ASIOStart", "ASIOStop", "ASIOGetChannels", "ASIOGetBufferSize",
   "ASIOCreateBuffers", "ASIODisposeBuffers"]

/-- The unloaded state of the loader: no library handle and every slot null, as the static
initialisers (lines 30-49) and ASIO_UnloadDriver leave it. -/
def Unloaded (s : State) : Prop :=
  s.asio_dll = 0 ∧ entryTable s = List.replicate 18 0

instance (s : State) : Decidable (Unloaded s) := by
  unfold Unloaded
  exact inferInstance

/-- The handle of the first candidate library that opens, asio.dll before asiodrvr.dll;
null when neither opens. -/
def openedLibrary (ld : Loader) : Nat :=
  if ld.loadLibrary "asio.dll" ≠ 0 then ld.loadLibrary "asio.dll"
  else ld.loadLibrary "asiodrvr.dll"

/-- The state at program start: nothing loaded, no current device, no device open, the
host devices 16-bit stereo at 48000 Hz. -/
def startState : State :=
  { asio_dll := 0, pASIOInit := 0, pASIOExit := 0, pASIOStart := 0, pASIOStop := 0,
    pASIOGetChannels := 0, pASIOGetBufferSize := 0, pASIOCanSampleRate := 0,
    pASIOGetSampleRate := 0, pASIOSetSampleRate := 0, pASIOGetClockSources := 0,
    pASIOSetClockSource := 0, pASIOGetSamplePosition := 0, pASIOGetChannelInfo := 0,
    pASIOCreateBuffers := 0, pASIODisposeBuffers := 0, pASIOControlPanel := 0,
    pASIOFuture := 0, pASIOOutputReady := 0,
    current_asio_device := none,
    devices := fun _ => closedDevice 32784 2 48000,
    mem := fun _ => 255,
    error := none, trace := [], heap := [] }

/-- A loader whose first candidate opens (handle 1) and whose library exports every
symbol asked for, at address 4096. -/
def fullLoader : Loader :=
  { loadLibrary := fun _ => 1, getProcAddress := fun _ _ => 4096 }

/-- A loader whose library opens but exports no ASIOStop. -/
def noStopLoader : Loader :=
  { loadLibrary := fun _ => 1,
    getProcAddress := fun _ name => if name = "ASIOStop" then 0 else 4096 }

/-- The entry table ASIO_LoadDriver leaves when it succeeds on the library with handle
`h`, starting from the state `s`: fifteen slots hold what GetProcAddress returns, the
three slots without a GetProcAddress call keep the value they have in `s`. -/
def resolvedTable (ld : Loader) (h : Nat) (s : State) : List Nat :=
  [ld.getProcAddress h "ASIOInit", ld.getProcAddress h "ASIOExit",
   ld.getProcAddress h "ASIOStart", ld.getProcAddress h "ASIOStop",
   ld.getProcAddress h "ASIOGetChannels", ld.getProcAddress h "ASIOGetBufferSize",
   ld.getProcAddress h "ASIOCanSampleRate", ld.getProcAddress h "ASIOGetSampleRate",
   ld.getProcAddress h "ASIOSetSampleRate",
   s.pASIOGetClockSources, s.pASIOSetClockSource, s.pASIOGetSamplePosition,
   ld.getProcAddress h "ASIOGetChannelInfo", ld.getProcAddress h "ASIOCreateBuffers",
   ld.getProcAddress h "ASIODisposeBuffers", ld.getProcAddress h "ASIOControlPanel",
   ld.getProcAddress h "ASIOFuture", ld.getProcAddress h "ASIOOutputReady"]

/-- The fake driver reporting a preferred buffer size of 32 frames, below the backend's
minimum of 64. -/
def smallPreferredDriver : Env :=
  { fakeDriver with preferred_size := 32 }

/-- The fake driver reporting one input channel next to its two outputs. -/
def duplexDriver : Env :=
  { fakeDriver with input_channels := 1 }

/-- The descriptors the backend hands to the duplex driver: one input, two outputs. -/
def duplexInfos : List ASIOBufferInfo :=
  [inputDescriptor 0, outputDescriptor 0, outputDescriptor 1]

/-- The descriptor-array indices asio_buffer_switch accesses in state `s`, in program
order: `buffer_info[input_channels]` under the guard of line 168 (line 171), then
`buffer_info[input_channels + 1]` in the stereo branch (lines 180-183). -/
def bufferSwitchAccesses (s : State) : List Int :=
  match s.current_asio_device with
  | none => []
  | some cur =>
    let dev := s.devices cur
    match dev.hidden with
    | none => []
    | some hidden =>
      if hidden.output_channels ≥ dev.spec.channels then
        hidden.input_channels ::
          (if dev.spec.channels = 2 ∧ hidden.output_channels ≥ 2 then
            [hidden.input_channels + 1]
          else [])
      else []

/-- An input-only driver: two input channels, no output channel. -/
def inputOnlyDriver : Env :=
  { fakeDriver with input_channels := 2, output_channels := 0 }

/-- The state after `ASIO_OpenDevice` of device 7 on `loadedState` with the input-only
driver: the descriptor array holds the two input descriptors. -/
def inputOnlyOpened : State :=
  openedState inputOnlyDriver loadedState 7 [inputDescriptor 0, inputDescriptor 1]

/-! ## Reachable states -/

/-- Modelled from the spec: the order in which the host (SDL's audio core, the caller of
this backend, which is not among the sources) calls the backend.  The host calls
OpenDevice only on a device that is not open (every successful OpenDevice is followed by
a CloseDevice before the next OpenDevice), so the open step requires the device's hidden
slot to be empty at the call.

The reachable states: at the start no device is open, CurrentDevice is null and every
hidden slot is empty (the entry table may or may not be loaded).  From there any of the
backend's operations and callbacks, each one the embedding of its source function, may
run in any order and with any driver answers; a callback step is one with a defined
result. -/
inductive Reachable : State → Prop
  | initial (s : State) (hcur : s.current_asio_device = none)
      (hclosed : ∀ d, (s.devices d).hidden = none) : Reachable s
  | loadDriver (ld : Loader) (s : State) (hr : Reachable s) :
      Reachable (ASIO_LoadDriver ld s).2
  | unloadDriver (s : State) (hr : Reachable s) : Reachable (ASIO_UnloadDriver s)
  | initializeDriver (env : Env) (s : State) (hr : Reachable s) :
      Reachable (ASIO_InitializeDriver env s).2
  | shutdownDriver (s : State) (hr : Reachable s) : Reachable (ASIO_ShutdownDriver s)
  | deinitialize (s : State) (hr : Reachable s) : Reachable ( ASIO_Deinitialize s)
  | openDevice (env : Env) (s : State) (device : Nat) (r : Bool) (s' : State)
      (hr : Reachable s) (hclosed : (s.devices device).hidden = none)
      (hopen : ASIO_OpenDevice env s device = some (r, s')) : Reachable s'
  | closeDevice (s : State) (device : Nat) (hr : Reachable s) :
      Reachable (ASIO_CloseDevice s device)
  | getDeviceBuf (s : State) (device : Nat) (hr : Reachable s) :
      Reachable (ASIO_GetDeviceBuf s device).2
  | playDevice (env : Env) (s : State) (device : Nat) (buffer : Nat) (buffer_size : Int)
      (hr : Reachable s) : Reachable (ASIO_PlayDevice env s device buffer buffer_size).2
  | bufferSwitch (s : State) (doubleBufferIndex directProcess : Int) (s' : State)
      (hr : Reachable s)
      (hcb : asio_buffer_switch s doubleBufferIndex directProcess = some s') : Reachable s'
  | bufferSwitchTimeInfo (s : State) (params : Nat) (doubleBufferIndex directProcess : Int)
      (s' : State) (hr : Reachable s)
      (hcb : asio_buffer_switch_time_info s params doubleBufferIndex directProcess = some s') :
      Reachable s'
  | sampleRateChanged (s : State) (sRate : Int) (hr : Reachable s) :
      Reachable (asio_sample_rate_changed s sRate)

/-- The state after a second ASIO_OpenDevice on the already open device 7, whose
create-buffers fails: outside the host's protocol. -/
def failedReopen : State :=
  exitState noMemoryDriver (fakeOpened fakeDriver) 7 fakeInfos OpenExit.create_failed

/-- The state after the open, one play and bufferSwitch(0) on the fake driver. -/
def fakeSwitched : State :=
  (asio_buffer_switch fakeStarted 0 0).getD fakeStarted

/-! ## Interleavings of the host's calls and the buffer-switch callback -/

/-- One step of an interleaving: a call of ASIO_OpenDevice, ASIO_PlayDevice,
ASIO_GetDeviceBuf or ASIO_CloseDevice by the host, with the driver's answers during the
call, or an invocation of asio_buffer_switch by the driver. -/
inductive Op where
  | openDevice (env : Env) (device : Nat)
  | playDevice (env : Env) (device : Nat) (buffer : Nat) (buffer_size : Int)
  | getDeviceBuf (device : Nat)
  | bufferSwitch (doubleBufferIndex : Int) (directProcess : Int)
  | closeDevice (device : Nat)

/-- The state after one step; `none` when the step has undefined behaviour. -/
def step (s : State) : Op → Option State
  | Op.openDevice env device => (ASIO_OpenDevice env s device).map fun r => r.2
  | Op.playDevice env device buffer buffer_size =>
      some (ASIO_PlayDevice env s device buffer buffer_size).2
  | Op.getDeviceBuf device => some (ASIO_GetDeviceBuf s device).2
  | Op.bufferSwitch doubleBufferIndex directProcess =>
      asio_buffer_switch s doubleBufferIndex directProcess
  | Op.closeDevice device => some (ASIO_CloseDevice s device)

/-- The history kept next to the state: for each device, whether the driver's start has
returned success for it since it was opened.  It is read off what the driver sees and
answers, not off the instance's flags: a step in which ASIO_OpenDevice of the device
returns true clears the entry, and an ASIO_PlayDevice on the device during which start is
called (the call is the step's addition to the trace) and answers ASE_OK sets it. -/
def startSucceeded (started : Nat → Bool) (s : State) : Op → Nat → Bool
  | Op.openDevice env device =>
      if (ASIO_OpenDevice env s device).map (fun r => r.1) = some true then
        Function.update started device false
      else started
  | Op.playDevice env device buffer buffer_size =>
      if (ASIO_PlayDevice env s device buffer buffer_size).2.trace = s.trace ++ [Event.start] ∧
          env.start_result = ASE_OK then
        Function.update started device true
      else started
  | Op.getDeviceBuf _ => started
  | Op.bufferSwitch _ _ => started
  | Op.closeDevice _ => started

/-- An interleaving run from state `s` with history `started`: the state and the
history after the last step, `none` when a step has undefined behaviour. -/
def run (s : State) (started : Nat → Bool) : List Op → Option (State × (Nat → Bool))
  | [] => some (s, started)
  | op :: ops =>
    match step s op with
    | none => none
    | some s' => run s' (startSucceeded started s op) ops

/-- The lifecycle invariant of a state and its history: every device with an instance
has buffers_created set and both descriptor arrays allocated, and has driver_started set
only if start has returned success for it since it was opened. -/
def Lifecycle (s : State) (started : Nat → Bool) : Prop :=
  ∀ d h, (s.devices d).hidden = some h →
    h.buffers_created = true ∧ h.buffer_info.isSome = true ∧ h.channel_info.isSome = true ∧
    (h.driver_started = true → started d = true)

/-- The three states of the specification's state machine per device. -/
inductive Phase where
  | closed
  | open_stopped
  | open_started
deriving DecidableEq, Repr

/-- A device is in a state of the state machine: CLOSED with an empty hidden slot;
OPEN, stopped with an instance whose buffers are created, both descriptor arrays
allocated and driver_started false; OPEN, started likewise with driver_started true and
a successful start in the device's history. -/
def inPhase (dev : SDL_AudioDevice) (startOk : Bool) : Phase → Prop
  | Phase.closed => dev.hidden = none
  | Phase.open_stopped =>
      match dev.hidden with
      | none => False
      | some h =>
        h.buffers_created = true ∧ h.buffer_info.isSome = true ∧
        h.channel_info.isSome = true ∧ h.driver_started = false
  | Phase.open_started =>
      match dev.hidden with
      | none => False
      | some h =>
        h.buffers_created = true ∧ h.buffer_info.isSome = true ∧
        h.channel_info.isSome = true ∧ h.driver_started = true ∧ startOk = true

instance (dev : SDL_AudioDevice) (startOk : Bool) (p : Phase) :
    Decidable (inPhase dev startOk p) :=
  match p, h : dev.hidden with
  | Phase.closed, _ => inferInstanceAs (Decidable (dev.hidden = none))
  | Phase.open_stopped, none => isFalse (by simp [inPhase, h])
  | Phase.open_stopped, some x =>
      decidable_of_iff (x.buffers_created = true ∧ x.buffer_info.isSome = true ∧
        x.channel_info.isSome = true ∧ x.driver_started = false) (by simp [inPhase, h])
  | Phase.open_started, none => isFalse (by simp [inPhase, h])
  | Phase.open_started, some x =>
      decidable_of_iff (x.buffers_created = true ∧ x.buffer_info.isSome = true ∧
        x.channel_info.isSome = true ∧ x.driver_started = true ∧ startOk = true)
        (by simp [inPhase, h])

/-- The interleaving of the witness: open device 7, play, buffer switch, read the buffer,
play again, with the fake driver answering every call. -/
def lifecycleOps : List Op :=
  [Op.openDevice fakeDriver 7, Op.playDevice fakeDriver 7 0 0, Op.bufferSwitch 0 0,
   Op.getDeviceBuf 7, Op.playDevice fakeDriver 7 0 0]

/-- The state and history the witness interleaving ends in. -/
def lifecycleEnd : State × (Nat → Bool) :=
  (run loadedState (fun _ => false) lifecycleOps).getD (loadedState, fun _ => false)

/-- The fake driver with start failing (ASE_HWMalfunction). -/
def startFailsDriver : Env :=
  { fakeDriver with start_result := ASE_HWMalfunction }

/-- An interleaving in which the driver's start fails: open device 7, then play. -/
def failedStartOps : List Op :=
  [Op.openDevice fakeDriver 7, Op.playDevice startFailsDriver 7 0 0]

/-- The state and history the interleaving with the failing start ends in. -/
def failedStartEnd : State × (Nat → Bool) :=
  (run loadedState (fun _ => false) failedStartOps).getD (loadedState, fun _ => false)

/-- The state after `ASIO_OpenDevice` of device 7 on `loadedState` with the driver that
reports no input and no output channel: the descriptor array is empty. -/
def noOutputOpened : State :=
  openedState noOutputDriver loadedState 7 []

/-- The state after `ASIO_OpenDevice` of device 7 on `loadedState` with the single-output
driver: one output descriptor, and the spec's channel count lowered from 2 to 1. -/
def monoOpened : State :=
  openedState monoDriver loadedState 7 [outputDescriptor 0]

/-! # Theorems -/

/-! ## ASIO_OpenDevice, block by block -/

theorem ASIO_OpenDevice_eq_blocks (env : Env) (s : State) (device : Nat) :
    ASIO_OpenDevice env s device = openBlocks env s device := rfl

theorem negotiateSampleRate_congr (env : Env) (s t : State) (freq : Int)
    (h1 : t.pASIOSetSampleRate = s.pASIOSetSampleRate)
    (h2 : t.pASIOGetSampleRate = s.pASIOGetSampleRate) :
    negotiateSampleRate env t freq = negotiateSampleRate env s freq := by
  unfold negotiateSampleRate
  rw [h1, h2]

theorem openCreateBuffers_cases (env : Env) (s : State) (device : Nat)
    (hidden : SDL_PrivateAudioData) (total : Int) (ci : List ASIOChannelInfo)
    (bi : List ASIOBufferInfo) (r : Bool) (s' : State)
    (h : openCreateBuffers env s device hidden total ci bi = some (r, s')) :
    s.pASIOCreateBuffers ≠ 0 ∧
    ((r = false ∧ env.create_result ≠ 0 ∧
        s' = createFailedState env s device bi total hidden.buffer_size) ∨
     (r = true ∧ env.create_result = 0 ∧
        s' = publishedState env s device hidden total ci bi)) := by
  unfold openCreateBuffers at h
  simp only [openFail, ASE_OK] at h
  split at h
  · simp at h
  · rename_i hp
    refine ⟨hp, ?_⟩
    split at h
    · rename_i hc
      simp only [Option.some.injEq, Prod.mk.injEq] at h
      exact Or.inl ⟨h.1.symm, hc, h.2.symm⟩
    · rename_i hc
      simp only [Option.some.injEq, Prod.mk.injEq] at h
      exact Or.inr ⟨h.1.symm, by simpa using hc, h.2.symm⟩

theorem openDescriptors_cases (env : Env) (s : State) (device : Nat)
    (hidden : SDL_PrivateAudioData) (channels : Int) (r : Bool) (s' : State)
    (h : openDescriptors env s device hidden channels = some (r, s')) :
    inLong (hidden.input_channels + channels) ∧
    ((env.calloc_buffer_info = false ∧ r = false ∧ s' = released s device) ∨
    (env.calloc_buffer_info = true ∧ env.calloc_channel_info = false ∧ r = false ∧
      s' = released ((s.log (HeapEvent.calloc device Block.buffer_info)).log
              (HeapEvent.free device Block.buffer_info)) device) ∨
    (env.calloc_buffer_info = true ∧ env.calloc_channel_info = true ∧
      ∃ infos,
        (setupInputChannels hidden.input_channels
          (List.replicate (hidden.input_channels + channels).toNat ASIOBufferInfo.zero)).bind
          (setupOutputChannels hidden.input_channels channels) = some infos ∧
        openCreateBuffers env
          ((s.log (HeapEvent.calloc device Block.buffer_info)).log
            (HeapEvent.calloc device Block.channel_info)) device hidden
          (hidden.input_channels + channels)
          (List.replicate (hidden.input_channels + channels).toNat ASIOChannelInfo.zero)
          infos = some (r, s'))) := by
  unfold openDescriptors at h
  simp only [openFail] at h
  split at h
  · simp at h
  rename_i hrange
  refine ⟨by simpa using hrange, ?_⟩
  split at h
  · rename_i h1
    simp only [Option.some.injEq, Prod.mk.injEq] at h
    exact Or.inl ⟨h1, h.1.symm, h.2.symm⟩
  · rename_i h1
    split at h
    · rename_i h2
      simp only [Option.some.injEq, Prod.mk.injEq] at h
      exact Or.inr (Or.inl ⟨by simpa using h1, h2, h.1.symm, h.2.symm⟩)
    · rename_i h2
      split at h
      · simp at h
      · rename_i a0 ha0
        split at h
        · simp at h
        · rename_i a1 ha1
          refine Or.inr (Or.inr ⟨by simpa using h1, by simpa using h2, a1, ?_, h⟩)
          rw [ha0]
          exact ha1


theorem openQuery_cases (env : Env) (s : State) (device : Nat)
    (hidden : SDL_PrivateAudioData) (r : Bool) (s' : State)
    (h : openQuery env s device hidden = some (r, s')) :
    s.pASIOGetChannels ≠ 0 ∧
    ((env.channels_result ≠ 0 ∧ r = false ∧
        s' = released { s.call Event.getChannels with
          error := some (SDLError.get_channel_count env.channels_result) } device) ∨
     (env.channels_result = 0 ∧ s.pASIOGetBufferSize ≠ 0 ∧
       ((env.buffer_size_result ≠ 0 ∧ r = false ∧
          s' = released { (s.call Event.getChannels).call Event.getBufferSize with
            error := some (SDLError.get_buffer_size env.buffer_size_result) } device) ∨
        (env.buffer_size_result = 0 ∧
          openNegotiate env ((s.call Event.getChannels).call Event.getBufferSize) device
            { hidden with input_channels := env.input_channels,
                          output_channels := env.output_channels } = some (r, s'))))) := by
  unfold openQuery at h
  simp only [openFail, ASE_OK] at h
  split at h
  · simp at h
  · rename_i hp
    refine ⟨hp, ?_⟩
    split at h
    · rename_i hc
      simp only [Option.some.injEq, Prod.mk.injEq] at h
      exact Or.inl ⟨hc, h.1.symm, h.2.symm⟩
    · rename_i hc
      split at h
      · simp at h
      · rename_i hp2
        have hp2' : s.pASIOGetBufferSize ≠ 0 := by simpa [State.call] using hp2
        refine Or.inr ⟨by simpa using hc, hp2', ?_⟩
        split at h
        · rename_i hb
          simp only [Option.some.injEq, Prod.mk.injEq] at h
          exact Or.inl ⟨hb, h.1.symm, h.2.symm⟩
        · rename_i hb
          exact Or.inr ⟨by simpa using hb, h⟩

theorem openBlocks_cases (env : Env) (s : State) (device : Nat) (r : Bool) (s' : State)
    (h : openBlocks env s device = some (r, s')) :
    (env.calloc_hidden = false ∧ r = false ∧ s' = s) ∨
    (env.calloc_hidden = true ∧
      (((s.asio_dll = 0 ∨ s.pASIOInit = 0) ∧ r = false ∧
          s' = released (openAttached s device) device) ∨
       (s.asio_dll ≠ 0 ∧ s.pASIOInit ≠ 0 ∧
         ((env.init_result ≠ 0 ∧ r = false ∧
            s' = released { (openAttached s device).call Event.init with
              error := some (SDLError.init_driver env.init_result) } device) ∨
          (env.init_result = 0 ∧
            openQuery env ((openAttached s device).call Event.init) device
              (freshHidden device) = some (r, s')))))) := by
  unfold openBlocks at h
  split at h
  · rename_i h0
    simp only [Option.some.injEq, Prod.mk.injEq] at h
    exact Or.inl ⟨h0, h.1.symm, h.2.symm⟩
  · rename_i h0
    refine Or.inr ⟨by simpa using h0, ?_⟩
    by_cases hl : s.asio_dll = 0 ∨ s.pASIOInit = 0
    · have hi : ASIO_InitializeDriver env (openAttached s device)
          = (false, openAttached s device) := by
        unfold ASIO_InitializeDriver
        have : (openAttached s device).asio_dll = 0 ∨ (openAttached s device).pASIOInit = 0 := by
          simpa [openAttached, State.log, State.setHidden, State.setDevice] using hl
        rw [if_pos this]
      replace h : (match ASIO_InitializeDriver env (openAttached s device) with
          | (false, s) => openFail s device
          | (true, s) => openQuery env s device (freshHidden device)) = some (r, s') := h
      rw [hi] at h
      simp only [openFail, Option.some.injEq, Prod.mk.injEq] at h
      exact Or.inl ⟨hl, h.1.symm, h.2.symm⟩
    · have hl' : ¬ ((openAttached s device).asio_dll = 0 ∨ (openAttached s device).pASIOInit = 0) := by
        simpa [openAttached, State.log, State.setHidden, State.setDevice] using hl
      have hl2 : s.asio_dll ≠ 0 ∧ s.pASIOInit ≠ 0 := by
        constructor
        · intro h1; exact hl (Or.inl h1)
        · intro h1; exact hl (Or.inr h1)
      refine Or.inr ⟨hl2.1, hl2.2, ?_⟩
      replace h : (match ASIO_InitializeDriver env (openAttached s device) with
          | (false, s) => openFail s device
          | (true, s) => openQuery env s device (freshHidden device)) = some (r, s') := h
      by_cases hr : env.init_result ≠ 0
      · have hi : ASIO_InitializeDriver env (openAttached s device)
            = (false, { (openAttached s device).call Event.init with
                error := some (SDLError.init_driver env.init_result) }) := by
          unfold ASIO_InitializeDriver
          rw [if_neg hl']
          simp only [ASE_OK]
          rw [if_pos hr]
        rw [hi] at h
        simp only [openFail, Option.some.injEq, Prod.mk.injEq] at h
        exact Or.inl ⟨hr, h.1.symm, h.2.symm⟩
      · have hi : ASIO_InitializeDriver env (openAttached s device)
            = (true, (openAttached s device).call Event.init) := by
          unfold ASIO_InitializeDriver
          rw [if_neg hl']
          simp only [ASE_OK]
          rw [if_neg hr]
        rw [hi] at h
        exact Or.inr ⟨by simpa using hr, h⟩


theorem openQueried_spec (s : State) (device : Nat) :
    ((openQueried s device).devices device).spec = (s.devices device).spec := by
  simp [openQueried, openAttached, State.call, State.log, State.setHidden, State.setDevice]

theorem openNegotiate_eq (env : Env) (s : State) (device : Nat) :
    openNegotiate env (openQueried s device) device
      { freshHidden device with input_channels := env.input_channels,
                                output_channels := env.output_channels }
    = openDescriptors env (openNegotiated env s device) device (negotiatedHidden env device)
        (limitChannels (s.devices device).spec.channels env.output_channels) := by
  have hn : negotiateSampleRate env (openQueried s device) (s.devices device).spec.freq
      = negotiateSampleRate env s (s.devices device).spec.freq :=
    negotiateSampleRate_congr env s (openQueried s device) _
      (by simp [openQueried, openAttached, State.call, State.log, State.setHidden, State.setDevice])
      (by simp [openQueried, openAttached, State.call, State.log, State.setHidden, State.setDevice])
  unfold openNegotiate
  simp only [openQueried_spec, hn]
  rfl

/-- Every return of ASIO_OpenDevice is one of the nine exits, with the state of that exit. -/
theorem open_exit (env : Env) (s : State) (device : Nat) (r : Bool) (s' : State)
    (h : ASIO_OpenDevice env s device = some (r, s')) :
    ∃ infos e, exitTaken env s device infos e ∧ s' = exitState env s device infos e ∧
      r = decide (e = OpenExit.opened) := by
  rw [ASIO_OpenDevice_eq_blocks] at h
  rcases openBlocks_cases env s device r s' h with ⟨h0, hr, hs⟩ | ⟨h0, hinit⟩
  · exact ⟨[], OpenExit.no_memory, h0, hs, by simp [hr]⟩
  rcases hinit with ⟨hl, hr, hs⟩ | ⟨hd, hp, hinit⟩
  · exact ⟨[], OpenExit.init_unavailable, ⟨h0, hl⟩, hs, by simp [hr]⟩
  rcases hinit with ⟨hi, hr, hs⟩ | ⟨hi, hq⟩
  · exact ⟨[], OpenExit.init_failed, ⟨h0, hd, hp, hi⟩, hs, by simp [hr]⟩
  obtain ⟨hgc, hq⟩ := openQuery_cases env _ device _ r s' hq
  replace hgc : s.pASIOGetChannels ≠ 0 := by
    simpa [openAttached, State.call, State.log, State.setHidden, State.setDevice] using hgc
  rcases hq with ⟨hc, hr, hs⟩ | ⟨hc, hgb, hq⟩
  · exact ⟨[], OpenExit.channels_failed, ⟨h0, hd, hp, hi, hgc, hc⟩, hs, by simp [hr]⟩
  replace hgb : s.pASIOGetBufferSize ≠ 0 := by
    simpa [openAttached, State.call, State.log, State.setHidden, State.setDevice] using hgb
  rcases hq with ⟨hb, hr, hs⟩ | ⟨hb, hq⟩
  · exact ⟨[], OpenExit.buffer_size_failed, ⟨h0, hd, hp, hi, hgc, hc, hgb, hb⟩, hs, by simp [hr]⟩
  replace hq : openNegotiate env (openQueried s device) device
      { freshHidden device with input_channels := env.input_channels,
                                output_channels := env.output_channels } = some (r, s') := hq
  rw [openNegotiate_eq] at hq
  obtain ⟨hrange, hq⟩ := openDescriptors_cases env _ device _ _ r s' hq
  replace hrange : inLong (totalChannels env s device) := hrange
  rcases hq with ⟨h1, hr, hs⟩ | ⟨h1, h2, hr, hs⟩ | ⟨h1, h2, infos, hinf, hq⟩
  · exact ⟨[], OpenExit.no_memory_buffer_info,
      ⟨h0, hd, hp, hi, hgc, hc, hgb, hb, hrange, h1⟩, hs, by simp [hr]⟩
  · exact ⟨[], OpenExit.no_memory_channel_info,
      ⟨h0, hd, hp, hi, hgc, hc, hgb, hb, hrange, h1, h2⟩, hs, by simp [hr]⟩
  have hin : (negotiatedHidden env device).input_channels = env.input_channels := rfl
  have hbs : (negotiatedHidden env device).buffer_size = chooseBufferSize env.preferred_size := rfl
  rw [hin] at hinf hq
  replace hinf : preparedDescriptors env s device = some infos := hinf
  replace hq : openCreateBuffers env (openAllocated env s device) device
      (negotiatedHidden env device) (totalChannels env s device)
      (List.replicate (totalChannels env s device).toNat ASIOChannelInfo.zero) infos
      = some (r, s') := hq
  obtain ⟨hcb, hq⟩ := openCreateBuffers_cases env _ device _ _ _ _ r s' hq
  replace hcb : s.pASIOCreateBuffers ≠ 0 := by
    simpa [openAllocated, openNegotiated, openQueried, openAttached, State.call, State.log,
      State.setHidden, State.setDevice] using hcb
  rcases hq with ⟨hr, hc2, hs⟩ | ⟨hr, hc2, hs⟩
  · rw [hbs] at hs
    exact ⟨infos, OpenExit.create_failed,
      ⟨h0, hd, hp, hi, hgc, hc, hgb, hb, hrange, h1, h2, hinf, hcb, hc2⟩, hs, by simp [hr]⟩
  · exact ⟨infos, OpenExit.opened,
      ⟨h0, hd, hp, hi, hgc, hc, hgb, hb, hrange, h1, h2, hinf, hcb, hc2⟩, hs, by simp [hr]⟩


theorem initializeDriver_attached (env : Env) (s : State) (device : Nat)
    (hd : s.asio_dll ≠ 0) (hp : s.pASIOInit ≠ 0) :
    ASIO_InitializeDriver env (openAttached s device) =
      if env.init_result ≠ 0 then
        (false, { (openAttached s device).call Event.init with
                    error := some (SDLError.init_driver env.init_result) })
      else (true, (openAttached s device).call Event.init) := by
  have hl : ¬ ((openAttached s device).asio_dll = 0 ∨ (openAttached s device).pASIOInit = 0) := by
    simp [openAttached, State.log, State.setHidden, State.setDevice, hd, hp]
  unfold ASIO_InitializeDriver
  rw [if_neg hl]
  rfl

theorem openBlocks_pass (env : Env) (s : State) (device : Nat)
    (h0 : env.calloc_hidden = true) (hd : s.asio_dll ≠ 0) (hp : s.pASIOInit ≠ 0)
    (hi : env.init_result = 0) :
    openBlocks env s device
      = openQuery env ((openAttached s device).call Event.init) device (freshHidden device) := by
  have e : openBlocks env s device =
      if env.calloc_hidden = false then some (false, s) else
      match ASIO_InitializeDriver env (openAttached s device) with
      | (false, s) => openFail s device
      | (true, s) => openQuery env s device (freshHidden device) := rfl
  rw [e, initializeDriver_attached env s device hd hp]
  simp [h0, hi]

theorem openQuery_pass (env : Env) (s : State) (device : Nat) (hidden : SDL_PrivateAudioData)
    (hgc : s.pASIOGetChannels ≠ 0) (hc : env.channels_result = 0)
    (hgb : s.pASIOGetBufferSize ≠ 0) (hb : env.buffer_size_result = 0) :
    openQuery env s device hidden
      = openNegotiate env ((s.call Event.getChannels).call Event.getBufferSize) device
          { hidden with input_channels := env.input_channels,
                        output_channels := env.output_channels } := by
  have hgb' : (s.call Event.getChannels).pASIOGetBufferSize ≠ 0 := hgb
  unfold openQuery
  simp only [ASE_OK]
  rw [if_neg hgc, if_neg (by simp [hc]), if_neg hgb', if_neg (by simp [hb])]

theorem open_reaches_negotiation (env : Env) (s : State) (device : Nat)
    (h0 : env.calloc_hidden = true) (hd : s.asio_dll ≠ 0) (hp : s.pASIOInit ≠ 0)
    (hi : env.init_result = 0)
    (hgc : s.pASIOGetChannels ≠ 0) (hc : env.channels_result = 0)
    (hgb : s.pASIOGetBufferSize ≠ 0) (hb : env.buffer_size_result = 0) :
    ASIO_OpenDevice env s device
      = openDescriptors env (openNegotiated env s device) device (negotiatedHidden env device)
          (limitChannels (s.devices device).spec.channels env.output_channels) := by
  rw [ASIO_OpenDevice_eq_blocks, openBlocks_pass env s device h0 hd hp hi,
    openQuery_pass env _ device _ (by simpa [openAttached, State.call, State.log,
      State.setHidden, State.setDevice] using hgc) hc (by simpa [openAttached, State.call,
      State.log, State.setHidden, State.setDevice] using hgb) hb]
  exact openNegotiate_eq env s device

theorem openDescriptors_pass (env : Env) (s : State) (device : Nat)
    (hidden : SDL_PrivateAudioData) (channels : Int) (infos : List ASIOBufferInfo)
    (hrange : inLong (hidden.input_channels + channels))
    (h1 : env.calloc_buffer_info = true) (h2 : env.calloc_channel_info = true)
    (hinf : (setupInputChannels hidden.input_channels
          (List.replicate (hidden.input_channels + channels).toNat ASIOBufferInfo.zero)).bind
          (setupOutputChannels hidden.input_channels channels) = some infos) :
    openDescriptors env s device hidden channels =
      openCreateBuffers env
          ((s.log (HeapEvent.calloc device Block.buffer_info)).log
            (HeapEvent.calloc device Block.channel_info)) device hidden
          (hidden.input_channels + channels)
          (List.replicate (hidden.input_channels + channels).toNat ASIOChannelInfo.zero)
          infos := by
  unfold openDescriptors
  simp only [h1, h2, hrange]
  cases ha : setupInputChannels hidden.input_channels
      (List.replicate (hidden.input_channels + channels).toNat ASIOBufferInfo.zero) with
  | none => rw [ha] at hinf; simp at hinf
  | some a0 =>
    rw [ha] at hinf
    simp only [Option.some_bind] at hinf
    simp [hinf]

theorem open_reaches_create (env : Env) (s : State) (device : Nat) (infos : List ASIOBufferInfo)
    (h0 : env.calloc_hidden = true) (hd : s.asio_dll ≠ 0) (hp : s.pASIOInit ≠ 0)
    (hi : env.init_result = 0)
    (hgc : s.pASIOGetChannels ≠ 0) (hc : env.channels_result = 0)
    (hgb : s.pASIOGetBufferSize ≠ 0) (hb : env.buffer_size_result = 0)
    (hrange : inLong (totalChannels env s device))
    (h1 : env.calloc_buffer_info = true) (h2 : env.calloc_channel_info = true)
    (hinf : preparedDescriptors env s device = some infos) :
    ASIO_OpenDevice env s device
      = openCreateBuffers env (openAllocated env s device) device
          (negotiatedHidden env device) (totalChannels env s device)
          (List.replicate (totalChannels env s device).toNat ASIOChannelInfo.zero) infos := by
  rw [open_reaches_negotiation env s device h0 hd hp hi hgc hc hgb hb]
  exact openDescriptors_pass env _ device (negotiatedHidden env device) _ infos hrange h1 h2
    hinf


theorem openBlocks_unfold (env : Env) (s : State) (device : Nat) :
    openBlocks env s device =
      if env.calloc_hidden = false then some (false, s) else
      match ASIO_InitializeDriver env (openAttached s device) with
      | (false, s) => openFail s device
      | (true, s) => openQuery env s device (freshHidden device) := rfl

/-- Whenever the condition of an exit holds, ASIO_OpenDevice returns through it. -/
theorem open_of_exit (env : Env) (s : State) (device : Nat) (infos : List ASIOBufferInfo)
    (e : OpenExit) (h : exitTaken env s device infos e) :
    ASIO_OpenDevice env s device
      = some (decide (e = OpenExit.opened), exitState env s device infos e) := by
  cases e with
  | no_memory =>
    replace h : env.calloc_hidden = false := h
    rw [ASIO_OpenDevice_eq_blocks, openBlocks_unfold, if_pos h]
    rfl
  | init_unavailable =>
    obtain ⟨h0, hl⟩ := h
    have hl' : (openAttached s device).asio_dll = 0 ∨ (openAttached s device).pASIOInit = 0 := by
      simpa [openAttached, State.log, State.setHidden, State.setDevice] using hl
    have hi : ASIO_InitializeDriver env (openAttached s device)
        = (false, openAttached s device) := by
      unfold ASIO_InitializeDriver
      rw [if_pos hl']
    rw [ASIO_OpenDevice_eq_blocks, openBlocks_unfold, if_neg (by simp [h0]), hi]
    rfl
  | init_failed =>
    obtain ⟨h0, hd, hp, hi⟩ := h
    rw [ASIO_OpenDevice_eq_blocks, openBlocks_unfold, if_neg (by simp [h0]),
      initializeDriver_attached env s device hd hp, if_pos hi]
    rfl
  | channels_failed =>
    obtain ⟨h0, hd, hp, hi, hgc, hc⟩ := h
    rw [ASIO_OpenDevice_eq_blocks, openBlocks_pass env s device h0 hd hp hi]
    have hgc' : ((openAttached s device).call Event.init).pASIOGetChannels ≠ 0 := by
      simpa [openAttached, State.call, State.log, State.setHidden, State.setDevice] using hgc
    unfold openQuery
    simp only [ASE_OK]
    rw [if_neg hgc', if_pos hc]
    rfl
  | buffer_size_failed =>
    obtain ⟨h0, hd, hp, hi, hgc, hc, hgb, hb⟩ := h
    rw [ASIO_OpenDevice_eq_blocks, openBlocks_pass env s device h0 hd hp hi]
    have hgc' : ((openAttached s device).call Event.init).pASIOGetChannels ≠ 0 := by
      simpa [openAttached, State.call, State.log, State.setHidden, State.setDevice] using hgc
    have hgb' : (((openAttached s device).call Event.init).call
        Event.getChannels).pASIOGetBufferSize ≠ 0 := by
      simpa [openAttached, State.call, State.log, State.setHidden, State.setDevice] using hgb
    unfold openQuery
    simp only [ASE_OK]
    rw [if_neg hgc', if_neg (by simp [hc]), if_neg hgb', if_pos hb]
    rfl
  | no_memory_buffer_info =>
    obtain ⟨h0, hd, hp, hi, hgc, hc, hgb, hb, hrange, h1⟩ := h
    replace hrange : inLong ((negotiatedHidden env device).input_channels +
        limitChannels (s.devices device).spec.channels env.output_channels) := hrange
    rw [open_reaches_negotiation env s device h0 hd hp hi hgc hc hgb hb]
    unfold openDescriptors
    simp only [h1, hrange]
    rfl
  | no_memory_channel_info =>
    obtain ⟨h0, hd, hp, hi, hgc, hc, hgb, hb, hrange, h1, h2⟩ := h
    replace hrange : inLong ((negotiatedHidden env device).input_channels +
        limitChannels (s.devices device).spec.channels env.output_channels) := hrange
    rw [open_reaches_negotiation env s device h0 hd hp hi hgc hc hgb hb]
    unfold openDescriptors
    simp only [h1, h2, hrange]
    rfl
  | create_failed =>
    obtain ⟨h0, hd, hp, hi, hgc, hc, hgb, hb, hrange, h1, h2, hinf, hcb, hc2⟩ := h
    rw [open_reaches_create env s device infos h0 hd hp hi hgc hc hgb hb hrange h1 h2 hinf]
    have hcb' : (openAllocated env s device).pASIOCreateBuffers ≠ 0 := by
      simpa [openAllocated, openNegotiated, openQueried, openAttached, State.call, State.log,
        State.setHidden, State.setDevice] using hcb
    unfold openCreateBuffers
    simp only [ASE_OK]
    rw [if_neg hcb', if_pos hc2]
    rfl
  | opened =>
    obtain ⟨h0, hd, hp, hi, hgc, hc, hgb, hb, hrange, h1, h2, hinf, hcb, hc2⟩ := h
    rw [open_reaches_create env s device infos h0 hd hp hi hgc hc hgb hb hrange h1 h2 hinf]
    have hcb' : (openAllocated env s device).pASIOCreateBuffers ≠ 0 := by
      simpa [openAllocated, openNegotiated, openQueried, openAttached, State.call, State.log,
        State.setHidden, State.setDevice] using hcb
    unfold openCreateBuffers
    simp only [ASE_OK]
    rw [if_neg hcb', if_neg (by simp [hc2])]
    rfl

/-! ## The two descriptor loops -/

theorem writeAt_natCast {α : Type} (xs : List α) (n : Nat) (v : α) :
    writeAt xs (n : Int) v = if n < xs.length then some (xs.set n v) else none := by
  simp [writeAt]

theorem readAt_natCast {α : Type} (xs : List α) (n : Nat) :
    readAt xs (n : Int) = xs[n]? := by
  simp [readAt]

/-- A loop writing `f 0, ..., f (k-1)` at the indices `base, ..., base + k - 1`. -/
theorem foldlM_writeAt_range {α : Type} (f : Nat → α) (base k : Nat) (arr : List α)
    (h : base + k ≤ arr.length) :
    (List.range k).foldlM (fun a i => writeAt a ((base + i : Nat) : Int) (f i)) arr
      = some (arr.take base ++ (List.range k).map f ++ arr.drop (base + k)) := by
  induction k with
  | zero => simp
  | succ k ih =>
    have hk : base + k < arr.length := by omega
    rw [List.range_succ, List.foldlM_append, ih (by omega)]
    simp only [Option.some_bind, List.foldlM_cons, List.foldlM_nil, Option.bind_eq_bind]
    rw [writeAt_natCast]
    have hlen : (List.take base arr ++ List.map f (List.range k)).length = base + k := by
      simp; omega
    have hdrop : List.drop (base + k) arr = arr[base + k] :: List.drop (base + k + 1) arr :=
      List.drop_eq_getElem_cons hk
    rw [if_pos (by simp; omega)]
    rw [hdrop, List.set_append_right _ _ (by rw [hlen]), hlen]
    simp [List.map_append, Nat.add_assoc]


theorem setupInputChannels_eq (n : Int) (arr : List ASIOBufferInfo) (h : n.toNat ≤ arr.length) :
    setupInputChannels n arr
      = some ((List.range n.toNat).map inputDescriptor ++ arr.drop n.toNat) := by
  have := foldlM_writeAt_range inputDescriptor 0 n.toNat arr (by omega)
  simpa [setupInputChannels, inputDescriptor] using this

theorem setupOutputChannels_eq (base n : Int) (arr : List ASIOBufferInfo) (hb : 0 ≤ base)
    (h : base.toNat + n.toNat ≤ arr.length) :
    setupOutputChannels base n arr
      = some (arr.take base.toNat ++ (List.range n.toNat).map outputDescriptor
          ++ arr.drop (base.toNat + n.toNat)) := by
  have := foldlM_writeAt_range outputDescriptor base.toNat n.toNat arr h
  have hbase : ((base.toNat : Nat) : Int) = base := Int.toNat_of_nonneg hb
  simpa [setupOutputChannels, outputDescriptor, Nat.cast_add, hbase] using this

/-- With non-negative channel counts both loops stay inside the array and leave the
input descriptors followed by the output descriptors. -/
theorem preparedDescriptors_eq (env : Env) (s : State) (device : Nat)
    (hin : 0 ≤ env.input_channels)
    (hch : 0 ≤ limitChannels (s.devices device).spec.channels env.output_channels) :
    preparedDescriptors env s device
      = some ((List.range env.input_channels.toNat).map inputDescriptor ++
          (List.range (limitChannels (s.devices device).spec.channels
            env.output_channels).toNat).map outputDescriptor) := by
  unfold preparedDescriptors totalChannels
  rw [Int.toNat_add hin hch]
  rw [setupInputChannels_eq _ _ (by simp)]
  simp only [Option.some_bind]
  rw [setupOutputChannels_eq _ _ _ hin (by simp)]
  simp

/-! ## The state after a successful open -/

/-- A successful ASIO_OpenDevice went through the last exit. -/
theorem open_true (env : Env) (s : State) (device : Nat) (s' : State)
    (h : ASIO_OpenDevice env s device = some (true, s')) :
    ∃ infos, exitTaken env s device infos OpenExit.opened ∧
      s' = openedState env s device infos := by
  obtain ⟨infos, e, ht, hs, hr⟩ := open_exit env s device true s' h
  have he : e = OpenExit.opened := by simpa using hr.symm
  subst he
  exact ⟨infos, ht, hs⟩

theorem openedState_current (env : Env) (s : State) (device : Nat)
    (infos : List ASIOBufferInfo) :
    (openedState env s device infos).current_asio_device = some device := by
  simp [openedState, publishedState]

theorem openedState_device (env : Env) (s : State) (device : Nat)
    (infos : List ASIOBufferInfo) :
    (openedState env s device infos).devices device =
      { spec := negotiatedSpec env s device,
        sample_frames := chooseBufferSize env.preferred_size,
        hidden := some (openedHidden env s device infos) } := by
  simp [openedState, publishedState, openAllocated, openNegotiated, openedHidden,
    negotiatedHidden, State.call, State.log, State.setDevice]

theorem openedState_other (env : Env) (s : State) (device : Nat)
    (infos : List ASIOBufferInfo) (d : Nat) (hd : d ≠ device) :
    (openedState env s device infos).devices d = s.devices d := by
  simp [openedState, publishedState, openAllocated, openNegotiated, openQueried, openAttached,
    State.call, State.log, State.setDevice, State.setHidden, Function.update, hd]

theorem openedState_trace (env : Env) (s : State) (device : Nat)
    (infos : List ASIOBufferInfo) :
    (openedState env s device infos).trace = s.trace ++ openCalls env s device infos := by
  simp [openedState, publishedState, openAllocated, openNegotiated, openQueried, openAttached,
    openCalls, negotiatedHidden, State.call, State.log, State.setDevice, State.setHidden]

theorem openedState_heap (env : Env) (s : State) (device : Nat)
    (infos : List ASIOBufferInfo) :
    (openedState env s device infos).heap = s.heap ++
      [HeapEvent.calloc device Block.hidden, HeapEvent.calloc device Block.buffer_info,
       HeapEvent.calloc device Block.channel_info] := by
  simp [openedState, publishedState, openAllocated, openNegotiated, openQueried, openAttached,
    State.call, State.log, State.setDevice, State.setHidden]

theorem openedState_mem (env : Env) (s : State) (device : Nat)
    (infos : List ASIOBufferInfo) :
    (openedState env s device infos).mem = s.mem := by
  simp [openedState, publishedState, openAllocated, openNegotiated, openQueried, openAttached,
    State.call, State.log, State.setDevice, State.setHidden]

theorem openedState_pASIOStart (env : Env) (s : State) (device : Nat)
    (infos : List ASIOBufferInfo) :
    (openedState env s device infos).pASIOStart = s.pASIOStart := by
  simp [openedState, publishedState, openAllocated, openNegotiated, openQueried, openAttached,
    State.call, State.log, State.setDevice, State.setHidden]

theorem chooseBufferSize_eq_clamp (p : Int) : chooseBufferSize p = clamp p 64 4096 := by
  unfold chooseBufferSize clamp
  simp only
  split <;> split <;> omega

theorem limitChannels_eq_min (c o : Int) : limitChannels c o = min (min c o) 2 := by
  unfold limitChannels
  simp only
  split <;> split <;> omega

/-! ## Properties of a successful ASIO_OpenDevice -/

theorem negotiateSampleRate_calls (env : Env) (s : State) (freq : Int) (e : Event)
    (he : e ∈ (negotiateSampleRate env s freq).2) :
    e = Event.setSampleRate freq ∨ e = Event.getSampleRate := by
  unfold negotiateSampleRate at he
  split at he
  · split at he
    · split at he
      · split at he <;> simpa using he
      · simp at he
        exact Or.inl he
    · simp at he
      exact Or.inl he
  · simp at he

/-- C1: whenever ASIO_OpenDevice succeeds, the instance's buffer_size is
clamp(P, 64, 4096) for the driver-reported preferred size P, that is 64 when P < 64,
4096 when P > 4096 and P itself in between, and the host device's sample_frames is the
same value. -/
theorem C1_buffer_size_clamped (env : Env) (s : State) (device : Nat) (s' : State)
    (h : ASIO_OpenDevice env s device = some (true, s')) :
    ∃ hidden, (s'.devices device).hidden = some hidden ∧
      hidden.buffer_size = clamp env.preferred_size 64 4096 ∧
      (env.preferred_size < 64 → hidden.buffer_size = 64) ∧
      (4096 < env.preferred_size → hidden.buffer_size = 4096) ∧
      (64 ≤ env.preferred_size → env.preferred_size ≤ 4096 →
        hidden.buffer_size = env.preferred_size) ∧
      (s'.devices device).sample_frames = hidden.buffer_size := by
  obtain ⟨infos, -, hs⟩ := open_true env s device s' h
  subst hs
  refine ⟨openedHidden env s device infos, ?_, ?_, ?_, ?_, ?_, ?_⟩
  · rw [openedState_device]
  · exact chooseBufferSize_eq_clamp env.preferred_size
  · intro hp
    show chooseBufferSize env.preferred_size = 64
    rw [chooseBufferSize_eq_clamp]; unfold clamp; omega
  · intro hp
    show chooseBufferSize env.preferred_size = 4096
    rw [chooseBufferSize_eq_clamp]; unfold clamp; omega
  · intro h1 h2
    show chooseBufferSize env.preferred_size = env.preferred_size
    rw [chooseBufferSize_eq_clamp]; unfold clamp; omega
  · rw [openedState_device]
    rfl

/-- C1, on the fake driver with preferred sizes 256, 32 and 8192: the buffer sizes are
256, 64 and 4096. -/
theorem C1_buffer_size_clamped_witness :
    (ASIO_OpenDevice fakeDriver loadedState 7 = some (true, fakeOpened fakeDriver) ∧
      ∃ hidden, ((fakeOpened fakeDriver).devices 7).hidden = some hidden ∧
        hidden.buffer_size = clamp 256 64 4096 ∧
        ((256 : Int) < 64 → hidden.buffer_size = 64) ∧
        ((4096 : Int) < 256 → hidden.buffer_size = 4096) ∧
        ((64 : Int) ≤ 256 → (256 : Int) ≤ 4096 → hidden.buffer_size = 256) ∧
        ((fakeOpened fakeDriver).devices 7).sample_frames = hidden.buffer_size) ∧
    (∃ hidden, ((fakeOpened { fakeDriver with preferred_size := 32 }).devices 7).hidden
        = some hidden ∧
        hidden.buffer_size = clamp 32 64 4096 ∧
        ((32 : Int) < 64 → hidden.buffer_size = 64) ∧
        ((4096 : Int) < 32 → hidden.buffer_size = 4096) ∧
        ((64 : Int) ≤ 32 → (32 : Int) ≤ 4096 → hidden.buffer_size = 32) ∧
        ((fakeOpened { fakeDriver with preferred_size := 32 }).devices 7).sample_frames
          = hidden.buffer_size) ∧
    (∃ hidden, ((fakeOpened { fakeDriver with preferred_size := 8192 }).devices 7).hidden
        = some hidden ∧
        hidden.buffer_size = clamp 8192 64 4096 ∧
        ((8192 : Int) < 64 → hidden.buffer_size = 64) ∧
        ((4096 : Int) < 8192 → hidden.buffer_size = 4096) ∧
        ((64 : Int) ≤ 8192 → (8192 : Int) ≤ 4096 → hidden.buffer_size = 8192) ∧
        ((fakeOpened { fakeDriver with preferred_size := 8192 }).devices 7).sample_frames
          = hidden.buffer_size) :=
  ⟨⟨rfl, C1_buffer_size_clamped fakeDriver loadedState 7 _ rfl⟩,
   C1_buffer_size_clamped { fakeDriver with preferred_size := 32 } loadedState 7 _ rfl,
   C1_buffer_size_clamped { fakeDriver with preferred_size := 8192 } loadedState 7 _ rfl⟩

/-- C2: whenever ASIO_OpenDevice succeeds, the host spec's channel count on return is
min(c, o, 2) for the requested count c and the driver's output count o, and create-buffers
is the last driver call of the open, made once, with input_channels + used_outputs
channels. -/
theorem C2_channels_limited (env : Env) (s : State) (device : Nat) (s' : State)
    (h : ASIO_OpenDevice env s device = some (true, s')) :
    (s'.devices device).spec.channels
      = min (min (s.devices device).spec.channels env.output_channels) 2 ∧
    ∃ earlier infos bufferSize callbacks,
      s'.trace = s.trace ++ earlier ++
        [Event.createBuffers infos (env.input_channels + (s'.devices device).spec.channels)
          bufferSize callbacks] ∧
      ∀ e ∈ earlier, ∀ a b c d, e ≠ Event.createBuffers a b c d := by
  obtain ⟨infos, -, hs⟩ := open_true env s device s' h
  subst hs
  have hch : ((openedState env s device infos).devices device).spec.channels
      = limitChannels (s.devices device).spec.channels env.output_channels := by
    rw [openedState_device]
    rfl
  refine ⟨by rw [hch, limitChannels_eq_min], ?_⟩
  refine ⟨[Event.init, Event.getChannels, Event.getBufferSize] ++
      (negotiateSampleRate env s (s.devices device).spec.freq).2, infos,
    chooseBufferSize env.preferred_size, installedCallbacks, ?_, ?_⟩
  · rw [openedState_trace, hch]
    simp [openCalls, totalChannels]
  · intro e he a b c d hcb
    subst hcb
    simp only [List.mem_append, List.mem_cons, List.mem_singleton, List.not_mem_nil,
      or_false] at he
    rcases he with (he | he | he) | he
    · cases he
    · cases he
    · cases he
    · rcases negotiateSampleRate_calls env s _ _ he with h1 | h1 <;> cases h1

/-- C2, on the fake driver (no input, two outputs) and a host asking for stereo. -/
theorem C2_channels_limited_witness :
    ASIO_OpenDevice fakeDriver loadedState 7 = some (true, fakeOpened fakeDriver) ∧
    ((fakeOpened fakeDriver).devices 7).spec.channels = min (min 2 2) 2 ∧
    ∃ earlier infos bufferSize callbacks,
      (fakeOpened fakeDriver).trace = loadedState.trace ++ earlier ++
        [Event.createBuffers infos (0 + ((fakeOpened fakeDriver).devices 7).spec.channels)
          bufferSize callbacks] ∧
      ∀ e ∈ earlier, ∀ a b c d, e ≠ Event.createBuffers a b c d :=
  ⟨rfl, C2_channels_limited fakeDriver loadedState 7 (fakeOpened fakeDriver) rfl⟩

/-- C3: whenever ASIO_OpenDevice(device) returns true, CurrentDevice refers to that
device, its instance has buffers_created = true, driver_started = false and a null
current_buffer, and the device's sample_frames equals the instance's buffer_size. -/
theorem C3_open_postcondition (env : Env) (s : State) (device : Nat) (s' : State)
    (h : ASIO_OpenDevice env s device = some (true, s')) :
    s'.current_asio_device = some device ∧
    ∃ hidden, (s'.devices device).hidden = some hidden ∧
      hidden.buffers_created = true ∧ hidden.driver_started = false ∧
      hidden.current_buffer = 0 ∧
      (s'.devices device).sample_frames = hidden.buffer_size := by
  obtain ⟨infos, -, hs⟩ := open_true env s device s' h
  subst hs
  refine ⟨openedState_current env s device infos, openedHidden env s device infos, ?_, rfl, rfl,
    rfl, ?_⟩
  · rw [openedState_device]
  · rw [openedState_device]
    rfl

/-- C3, on the fake driver. -/
theorem C3_open_postcondition_witness :
    ASIO_OpenDevice fakeDriver loadedState 7 = some (true, fakeOpened fakeDriver) ∧
    (fakeOpened fakeDriver).current_asio_device = some 7 ∧
    ∃ hidden, ((fakeOpened fakeDriver).devices 7).hidden = some hidden ∧
      hidden.buffers_created = true ∧ hidden.driver_started = false ∧
      hidden.current_buffer = 0 ∧
      ((fakeOpened fakeDriver).devices 7).sample_frames = hidden.buffer_size :=
  ⟨rfl, C3_open_postcondition fakeDriver loadedState 7 (fakeOpened fakeDriver) rfl⟩

/-! ## Properties of a failing ASIO_OpenDevice -/

/-- A failing ASIO_OpenDevice went through one of the first eight exits. -/
theorem open_false (env : Env) (s : State) (device : Nat) (s' : State)
    (h : ASIO_OpenDevice env s device = some (false, s')) :
    ∃ infos e, e ≠ OpenExit.opened ∧ exitTaken env s device infos e ∧
      s' = exitState env s device infos e := by
  obtain ⟨infos, e, ht, hs, hr⟩ := open_exit env s device false s' h
  exact ⟨infos, e, by simpa using hr.symm, ht, hs⟩

/-- C4, counterexample: the driver refuses the requested rate 48000, reports 44100, and
create-buffers then fails; ASIO_OpenDevice returns false on a device whose hidden slot was
empty, yet the host spec's sample rate is 44100 on return. -/
theorem C4_failed_open_keeps_negotiated_rate :
    (loadedState.devices 7).hidden = none ∧
    (loadedState.devices 7).spec.freq = 48000 ∧
    ASIO_OpenDevice overrideThenFail loadedState 7
      = some (false, exitState overrideThenFail loadedState 7 fakeInfos OpenExit.create_failed) ∧
    ((exitState overrideThenFail loadedState 7 fakeInfos OpenExit.create_failed).devices 7).spec.freq
      = 44100 ∧
    ((exitState overrideThenFail loadedState 7 fakeInfos OpenExit.create_failed).devices 7).spec
      ≠ (loadedState.devices 7).spec :=
  ⟨rfl, rfl, rfl, rfl, by decide⟩

theorem released_device (s : State) (device : Nat) :
    (released s device).devices device = { s.devices device with hidden := none } := by
  simp [released, State.log, State.setHidden, State.setDevice]

theorem released_other (s : State) (device d : Nat) (hd : d ≠ device) :
    (released s device).devices d = s.devices d := by
  simp [released, State.log, State.setHidden, State.setDevice, Function.update, hd]

theorem released_current (s : State) (device : Nat) :
    (released s device).current_asio_device = s.current_asio_device := by
  simp [released, State.log, State.setHidden, State.setDevice]

theorem openAttached_device (s : State) (device : Nat) :
    (openAttached s device).devices device
      = { s.devices device with hidden := some (freshHidden device) } := by
  simp [openAttached, State.log, State.setHidden, State.setDevice]

theorem openNegotiated_device (env : Env) (s : State) (device : Nat) :
    (openNegotiated env s device).devices device
      = { spec := negotiatedSpec env s device,
          sample_frames := (s.devices device).sample_frames,
          hidden := some (freshHidden device) } := by
  simp [openNegotiated, openQueried, openAttached, State.call, State.log, State.setHidden,
    State.setDevice]

/-- C4, amended: a failing ASIO_OpenDevice on a device with an empty hidden slot leaves
the slot empty, CurrentDevice, sample_frames, the frame format and every other device
unchanged; the spec's rate and channel count are unchanged when the failure is the first
allocation, init, get-channels or get-buffer-size, and otherwise hold the negotiated rate
and the channel count min(c, o, 2). -/
theorem C4_failed_open_unwinds (env : Env) (s : State) (device : Nat) (s' : State)
    (h : ASIO_OpenDevice env s device = some (false, s'))
    (hempty : (s.devices device).hidden = none) :
    (s'.devices device).hidden = none ∧
    s'.current_asio_device = s.current_asio_device ∧
    (s'.devices device).sample_frames = (s.devices device).sample_frames ∧
    (s'.devices device).spec.format = (s.devices device).spec.format ∧
    (∀ d, d ≠ device → s'.devices d = s.devices d) ∧
    ((env.calloc_hidden = false ∨ s.asio_dll = 0 ∨ s.pASIOInit = 0 ∨ env.init_result ≠ 0 ∨
        env.channels_result ≠ 0 ∨ env.buffer_size_result ≠ 0) →
      (s'.devices device).spec = (s.devices device).spec) ∧
    (¬ (env.calloc_hidden = false ∨ s.asio_dll = 0 ∨ s.pASIOInit = 0 ∨ env.init_result ≠ 0 ∨
        env.channels_result ≠ 0 ∨ env.buffer_size_result ≠ 0) →
      (s'.devices device).spec.freq
          = (negotiateSampleRate env s (s.devices device).spec.freq).1 ∧
      (s'.devices device).spec.channels
          = min (min (s.devices device).spec.channels env.output_channels) 2) := by
  obtain ⟨infos, e, hne, ht, hs⟩ := open_false env s device s' h
  subst hs
  cases e with
  | opened => exact absurd rfl hne
  | no_memory =>
    replace ht : env.calloc_hidden = false := ht
    refine ⟨hempty, rfl, rfl, rfl, fun _ _ => rfl, fun _ => rfl, fun hn => ?_⟩
    exact absurd (Or.inl ht) hn
  | init_unavailable =>
    obtain ⟨h0, hl⟩ := ht
    simp only [exitState]
    refine ⟨by rw [released_device], by simp [released_current, openAttached, State.log,
      State.setHidden, State.setDevice], by rw [released_device, openAttached_device],
      by rw [released_device, openAttached_device], ?_, ?_, ?_⟩
    · intro d hd
      rw [released_other _ _ _ hd]
      simp [openAttached, State.log, State.setHidden, State.setDevice, Function.update, hd]
    · intro _
      rw [released_device, openAttached_device]
    · intro hn
      rcases hl with hl | hl
      · exact absurd (Or.inr (Or.inl hl)) hn
      · exact absurd (Or.inr (Or.inr (Or.inl hl))) hn
  | init_failed =>
    obtain ⟨h0, hd0, hp, hi⟩ := ht
    simp only [exitState]
    refine ⟨by rw [released_device], by simp [released_current, openAttached, State.call,
      State.log, State.setHidden, State.setDevice], ?_, ?_, ?_, ?_, ?_⟩
    · rw [released_device]
      simp [openAttached, State.call, State.log, State.setHidden, State.setDevice]
    · rw [released_device]
      simp [openAttached, State.call, State.log, State.setHidden, State.setDevice]
    · intro d hd
      rw [released_other _ _ _ hd]
      simp [openAttached, State.call, State.log, State.setHidden, State.setDevice,
        Function.update, hd]
    · intro _
      rw [released_device]
      simp [openAttached, State.call, State.log, State.setHidden, State.setDevice]
    · intro hn
      exact absurd hi (by tauto)
  | channels_failed =>
    obtain ⟨h0, hd0, hp, hi, hgc, hc⟩ := ht
    simp only [exitState]
    refine ⟨by rw [released_device], by simp [released_current, openAttached, State.call,
      State.log, State.setHidden, State.setDevice], ?_, ?_, ?_, ?_, ?_⟩
    · rw [released_device]
      simp [openAttached, State.call, State.log, State.setHidden, State.setDevice]
    · rw [released_device]
      simp [openAttached, State.call, State.log, State.setHidden, State.setDevice]
    · intro d hd
      rw [released_other _ _ _ hd]
      simp [openAttached, State.call, State.log, State.setHidden, State.setDevice,
        Function.update, hd]
    · intro _
      rw [released_device]
      simp [openAttached, State.call, State.log, State.setHidden, State.setDevice]
    · intro hn
      exact absurd hc (by tauto)
  | buffer_size_failed =>
    obtain ⟨h0, hd0, hp, hi, hgc, hc, hgb, hb⟩ := ht
    simp only [exitState]
    refine ⟨by rw [released_device], by simp [released_current, openQueried, openAttached,
      State.call, State.log, State.setHidden, State.setDevice], ?_, ?_, ?_, ?_, ?_⟩
    · rw [released_device]
      simp [openQueried, openAttached, State.call, State.log, State.setHidden, State.setDevice]
    · rw [released_device]
      simp [openQueried, openAttached, State.call, State.log, State.setHidden, State.setDevice]
    · intro d hd
      rw [released_other _ _ _ hd]
      simp [openQueried, openAttached, State.call, State.log, State.setHidden, State.setDevice,
        Function.update, hd]
    · intro _
      rw [released_device]
      simp [openQueried, openAttached, State.call, State.log, State.setHidden, State.setDevice]
    · intro hn
      exact absurd hb (by tauto)
  | no_memory_buffer_info =>
    obtain ⟨h0, hd0, hp, hi, hgc, hc, hgb, hb, -, h1⟩ := ht
    simp only [exitState]
    refine ⟨by rw [released_device], by simp [released_current, openNegotiated, openQueried,
      openAttached, State.call, State.log, State.setHidden, State.setDevice], ?_, ?_, ?_, ?_, ?_⟩
    · rw [released_device, openNegotiated_device]
    · rw [released_device, openNegotiated_device]
      rfl
    · intro d hd
      rw [released_other _ _ _ hd]
      simp [openNegotiated, openQueried, openAttached, State.call, State.log, State.setHidden,
        State.setDevice, Function.update, hd]
    · intro ha
      rcases ha with ha | ha | ha | ha | ha | ha
      · simp [h0] at ha
      · exact absurd ha hd0
      · exact absurd ha hp
      · exact absurd hi ha
      · exact absurd hc ha
      · exact absurd hb ha
    · intro _
      rw [released_device, openNegotiated_device]
      exact ⟨rfl, limitChannels_eq_min _ _⟩
  | no_memory_channel_info =>
    obtain ⟨h0, hd0, hp, hi, hgc, hc, hgb, hb, -, h1, h2⟩ := ht
    simp only [exitState]
    have hdev : ((((openNegotiated env s device).log
          (HeapEvent.calloc device Block.buffer_info)).log
          (HeapEvent.free device Block.buffer_info)).devices device)
        = (openNegotiated env s device).devices device := by
      simp [State.log]
    refine ⟨by rw [released_device], by simp [released_current, openNegotiated, openQueried,
      openAttached, State.call, State.log, State.setHidden, State.setDevice], ?_, ?_, ?_, ?_, ?_⟩
    · rw [released_device, hdev, openNegotiated_device]
    · rw [released_device, hdev, openNegotiated_device]
      rfl
    · intro d hd
      rw [released_other _ _ _ hd]
      simp [openNegotiated, openQueried, openAttached, State.call, State.log, State.setHidden,
        State.setDevice, Function.update, hd]
    · intro ha
      rcases ha with ha | ha | ha | ha | ha | ha
      · simp [h0] at ha
      · exact absurd ha hd0
      · exact absurd ha hp
      · exact absurd hi ha
      · exact absurd hc ha
      · exact absurd hb ha
    · intro _
      rw [released_device, hdev, openNegotiated_device]
      exact ⟨rfl, limitChannels_eq_min _ _⟩
  | create_failed =>
    obtain ⟨h0, hd0, hp, hi, hgc, hc, hgb, hb, -, h1, h2, hinf, hcb, hc2⟩ := ht
    simp only [exitState, createFailedState]
    have hdev : ∀ ev err, ((((({ (openAllocated env s device).call ev with
          error := err } : State).log
          (HeapEvent.free device Block.channel_info)).log
          (HeapEvent.free device Block.buffer_info)).devices device))
        = (openNegotiated env s device).devices device := by
      intro ev err
      simp [openAllocated, State.log, State.call]
    refine ⟨by rw [released_device], by simp [released_current, openAllocated, openNegotiated,
      openQueried, openAttached, State.call, State.log, State.setHidden, State.setDevice],
      ?_, ?_, ?_, ?_, ?_⟩
    · rw [released_device, hdev, openNegotiated_device]
    · rw [released_device, hdev, openNegotiated_device]
      rfl
    · intro d hd
      rw [released_other _ _ _ hd]
      simp [openAllocated, openNegotiated, openQueried, openAttached, State.call, State.log,
        State.setHidden, State.setDevice, Function.update, hd]
    · intro ha
      rcases ha with ha | ha | ha | ha | ha | ha
      · simp [h0] at ha
      · exact absurd ha hd0
      · exact absurd ha hp
      · exact absurd hi ha
      · exact absurd hc ha
      · exact absurd hb ha
    · intro _
      rw [released_device, hdev, openNegotiated_device]
      exact ⟨rfl, limitChannels_eq_min _ _⟩

/-- C4 amended, on the driver that overrides the rate and then fails create-buffers. -/
theorem C4_failed_open_unwinds_witness :
    ASIO_OpenDevice overrideThenFail loadedState 7
      = some (false, exitState overrideThenFail loadedState 7 fakeInfos OpenExit.create_failed) ∧
    (loadedState.devices 7).hidden = none ∧
    ((exitState overrideThenFail loadedState 7 fakeInfos OpenExit.create_failed).devices 7).hidden
      = none ∧
    (exitState overrideThenFail loadedState 7 fakeInfos OpenExit.create_failed).current_asio_device
      = loadedState.current_asio_device :=
  ⟨rfl, rfl,
   (C4_failed_open_unwinds overrideThenFail loadedState 7 _ rfl rfl).1,
   (C4_failed_open_unwinds overrideThenFail loadedState 7 _ rfl rfl).2.1⟩

theorem limitChannels_le_output (c o : Int) : limitChannels c o ≤ o := by
  rw [limitChannels_eq_min]
  omega

theorem limitChannels_le_two (c o : Int) : limitChannels c o ≤ 2 := by
  rw [limitChannels_eq_min]
  omega

theorem limitChannels_nonneg (c o : Int) (hc : 0 ≤ c) (ho : 0 ≤ o) : 0 ≤ limitChannels c o := by
  rw [limitChannels_eq_min]
  omega

/-- C5: when the driver's create-buffers is reached (entry table loaded, earlier steps
succeeding, channel counts non-negative and their sum within a long) and returns a
non-zero code, ASIO_OpenDevice returns false, the hidden slot is empty, the three blocks
allocated by the call are released again, the driver calls made do not include exit, and
CurrentDevice is as at entry. -/
theorem C5_create_buffers_failure (env : Env) (s : State) (device : Nat)
    (hloaded : s.asio_dll ≠ 0 ∧ s.pASIOInit ≠ 0 ∧ s.pASIOGetChannels ≠ 0 ∧
      s.pASIOGetBufferSize ≠ 0 ∧ s.pASIOCreateBuffers ≠ 0)
    (halloc : env.calloc_hidden = true ∧ env.calloc_buffer_info = true ∧
      env.calloc_channel_info = true)
    (hquery : env.init_result = 0 ∧ env.channels_result = 0 ∧ env.buffer_size_result = 0)
    (hin : 0 ≤ env.input_channels) (hout : 0 ≤ env.output_channels)
    (hch : 0 ≤ (s.devices device).spec.channels)
    (hfit : env.input_channels + 2 ≤ 2147483647)
    (hfail : env.create_result ≠ 0) :
    ∃ s', ASIO_OpenDevice env s device = some (false, s') ∧
      (s'.devices device).hidden = none ∧
      s'.heap = s.heap ++
        [HeapEvent.calloc device Block.hidden, HeapEvent.calloc device Block.buffer_info,
         HeapEvent.calloc device Block.channel_info, HeapEvent.free device Block.channel_info,
         HeapEvent.free device Block.buffer_info, HeapEvent.free device Block.hidden] ∧
      (∃ added infos n size callbacks,
        s'.trace = s.trace ++ added ++ [Event.createBuffers infos n size callbacks] ∧
        Event.exit ∉ added) ∧
      s'.current_asio_device = s.current_asio_device := by
  obtain ⟨hd, hp, hgc, hgb, hcb⟩ := hloaded
  obtain ⟨h0, h1, h2⟩ := halloc
  obtain ⟨hi, hc, hb⟩ := hquery
  have hinf := preparedDescriptors_eq env s device hin (limitChannels_nonneg _ _ hch hout)
  have hrange : inLong (totalChannels env s device) := by
    have h3 := limitChannels_nonneg _ _ hch hout
    have h4 := limitChannels_le_two (s.devices device).spec.channels env.output_channels
    unfold inLong totalChannels
    omega
  refine ⟨_, open_of_exit env s device _ OpenExit.create_failed
    ⟨h0, hd, hp, hi, hgc, hc, hgb, hb, hrange, h1, h2, hinf, hcb, hfail⟩, ?_, ?_, ?_, ?_⟩
  · simp only [exitState, createFailedState]
    rw [released_device]
  · simp [exitState, createFailedState, released, openAllocated, openNegotiated, openQueried,
      openAttached, State.call, State.log, State.setHidden, State.setDevice]
  · refine ⟨[Event.init, Event.getChannels, Event.getBufferSize] ++
      (negotiateSampleRate env s (s.devices device).spec.freq).2,
      (List.range env.input_channels.toNat).map inputDescriptor ++
        (List.range (limitChannels (s.devices device).spec.channels
          env.output_channels).toNat).map outputDescriptor,
      totalChannels env s device, chooseBufferSize env.preferred_size, installedCallbacks,
      ?_, ?_⟩
    · simp [exitState, createFailedState, released, openAllocated, openNegotiated,
        openQueried, openAttached, State.call, State.log, State.setHidden, State.setDevice]
    · intro hmem
      simp only [List.mem_append, List.mem_cons, List.mem_singleton, List.not_mem_nil,
        or_false] at hmem
      rcases hmem with (he | he | he) | he
      · cases he
      · cases he
      · cases he
      · rcases negotiateSampleRate_calls env s _ _ he with h3 | h3 <;> cases h3
  · simp [exitState, createFailedState, released, openAllocated, openNegotiated, openQueried,
      openAttached, State.call, State.log, State.setHidden, State.setDevice]

/-- C5, on the fake driver returning ASE_NoMemory (-994) from create-buffers. -/
theorem C5_create_buffers_failure_witness :
    noMemoryDriver.create_result = -994 ∧
    ∃ s', ASIO_OpenDevice noMemoryDriver loadedState 7 = some (false, s') ∧
      (s'.devices 7).hidden = none ∧
      s'.heap = loadedState.heap ++
        [HeapEvent.calloc 7 Block.hidden, HeapEvent.calloc 7 Block.buffer_info,
         HeapEvent.calloc 7 Block.channel_info, HeapEvent.free 7 Block.channel_info,
         HeapEvent.free 7 Block.buffer_info, HeapEvent.free 7 Block.hidden] ∧
      (∃ added infos n size callbacks,
        s'.trace = loadedState.trace ++ added ++ [Event.createBuffers infos n size callbacks] ∧
        Event.exit ∉ added) ∧
      s'.current_asio_device = loadedState.current_asio_device :=
  ⟨rfl, C5_create_buffers_failure noMemoryDriver loadedState 7 (by decide) (by decide)
    (by decide) (by decide) (by decide) (by decide) (by decide) (by decide)⟩

/-! ## ASIO_CloseDevice -/

/-- C6, counterexample: on an open, started device with the entry table loaded,
ASIO_CloseDevice calls stop first and dispose-buffers second, not dispose-buffers and
then stop. -/
theorem C6_close_stops_before_disposing :
    (∃ hidden, (fakeStarted.devices 7).hidden = some hidden ∧
      hidden.buffers_created = true ∧ hidden.driver_started = true) ∧
    fakeStarted.pASIOStop ≠ 0 ∧ fakeStarted.pASIODisposeBuffers ≠ 0 ∧
    (ASIO_CloseDevice fakeStarted 7).trace
      = fakeStarted.trace ++ [Event.stop, Event.disposeBuffers] ∧
    (ASIO_CloseDevice fakeStarted 7).trace
      ≠ fakeStarted.trace ++ [Event.disposeBuffers, Event.stop] :=
  ⟨⟨_, rfl, rfl, rfl⟩, by decide, by decide, rfl, by decide⟩

/-- C6, amended: with stop and dispose-buffers resolved, ASIO_CloseDevice on a device
with an instance calls stop exactly when driver_started was true at entry, dispose-buffers
exactly when buffers_created was true at entry, and stop before dispose-buffers; it makes
no other driver call. -/
theorem C6_close_calls (s : State) (device : Nat) (hidden : SDL_PrivateAudioData)
    (hh : (s.devices device).hidden = some hidden)
    (hstop : s.pASIOStop ≠ 0) (hdispose : s.pASIODisposeBuffers ≠ 0) :
    (ASIO_CloseDevice s device).trace
      = s.trace ++ (if hidden.driver_started = true then [Event.stop] else []) ++
          (if hidden.buffers_created = true then [Event.disposeBuffers] else []) := by
  unfold ASIO_CloseDevice
  rw [hh]
  cases hs : hidden.driver_started <;> cases hb : hidden.buffers_created <;>
    simp [State.call, State.log, State.setHidden, State.setDevice, hstop, hdispose, hs, hb,
      apply_ite State.trace]

/-- C6 amended, on the open and started device of the fake driver. -/
theorem C6_close_calls_witness :
    (fakeStarted.devices 7).hidden
      = some { openedHidden fakeDriver loadedState 7 fakeInfos with driver_started := true } ∧
    (ASIO_CloseDevice fakeStarted 7).trace
      = fakeStarted.trace ++ (if true = true then [Event.stop] else []) ++
          (if true = true then [Event.disposeBuffers] else []) :=
  ⟨rfl, C6_close_calls fakeStarted 7 _ rfl (by decide) (by decide)⟩

/-! ## The buffer-switch callback -/

theorem SDL_memset_zero_ok (mem : Nat → Nat) (dst : Nat) (len : Int) (hdst : dst ≠ 0)
    (hlen : 0 ≤ len) :
    SDL_memset mem dst 0 len
      = some (fun a => if dst ≤ a ∧ a < dst + len.toNat then 0 else mem a) := by
  unfold SDL_memset
  rw [if_neg (by omega)]
  by_cases h0 : len = 0
  · rw [if_pos h0]
    subst h0
    congr 1
    funext a
    have : ¬ (dst ≤ a ∧ a < dst + (0 : Int).toNat) := by
      simp
    rw [if_neg this]
  · rw [if_neg h0, if_neg hdst]

theorem checkedLong_of_inLong (x : Int) (h : inLong x) : checkedLong x = some x := by
  unfold checkedLong
  rw [if_pos h]

/-- What asio_buffer_switch does when its guard holds, the first output descriptor is
inside the array and holds a non-null pointer, and (for stereo) the second output
descriptor is inside the array. -/
theorem buffer_switch_publishes (s : State) (cur : Nat) (hidden : SDL_PrivateAudioData)
    (arr : List ASIOBufferInfo) (bi : ASIOBufferInfo) (buffer : Nat) (dbi dp : Int)
    (hcur : s.current_asio_device = some cur)
    (hh : (s.devices cur).hidden = some hidden)
    (hguard : (s.devices cur).spec.channels ≤ hidden.output_channels)
    (harr : hidden.buffer_info = some arr)
    (hbi : readAt arr hidden.input_channels = some bi)
    (hbuf : bi.getBuffer dbi = some buffer)
    (hnn : buffer ≠ 0)
    (hsz : 0 ≤ hidden.buffer_size * SDL_AUDIO_FRAMESIZE (s.devices cur).spec)
    (hfit : hidden.buffer_size * SDL_AUDIO_FRAMESIZE (s.devices cur).spec ≤ 2147483647)
    (hsecond : (s.devices cur).spec.channels = 2 → 2 ≤ hidden.output_channels →
      ∃ bi1, readAt arr (hidden.input_channels + 1) = some bi1) :
    ∃ s' arr', asio_buffer_switch s dbi dp = some s' ∧
      s'.devices cur = { s.devices cur with
        hidden := some { hidden with
          current_buffer := buffer,
          current_buffer_size := hidden.buffer_size * SDL_AUDIO_FRAMESIZE (s.devices cur).spec,
          buffer_info := some arr' } } ∧
      s'.mem = (fun a =>
        if buffer ≤ a ∧
            a < buffer + (hidden.buffer_size * SDL_AUDIO_FRAMESIZE (s.devices cur).spec).toNat
        then 0 else s.mem a) := by
  unfold asio_buffer_switch
  rw [hcur]
  simp only
  rw [hh]
  simp only [ge_iff_le]
  rw [if_pos hguard]
  have hlong : inLong (hidden.buffer_size * SDL_AUDIO_FRAMESIZE (s.devices cur).spec) :=
    ⟨by omega, hfit⟩
  simp only [harr, hbi, hbuf, Option.bind_eq_bind, Option.some_bind, Option.pure_def,
    checkedLong_of_inLong _ hlong, SDL_memset_zero_ok s.mem buffer _ hnn hsz]
  by_cases hst : (s.devices cur).spec.channels = 2 ∧ 2 ≤ hidden.output_channels
  · obtain ⟨bi1, hbi1⟩ := hsecond hst.1 hst.2
    rw [if_pos hst]
    have hdbi : dbi = 0 ∨ dbi = 1 := by
      unfold ASIOBufferInfo.getBuffer at hbuf
      by_cases h0 : dbi = 0
      · exact Or.inl h0
      · by_cases h1 : dbi = 1
        · exact Or.inr h1
        · simp [h0, h1] at hbuf
    have hidx : 0 ≤ hidden.input_channels + 1 ∧
        (hidden.input_channels + 1).toNat < arr.length := by
      unfold readAt at hbi1
      by_cases hn : 0 ≤ hidden.input_channels + 1
      · rw [if_pos hn] at hbi1
        refine ⟨hn, ?_⟩
        by_contra hlt
        rw [List.getElem?_eq_none (by omega)] at hbi1
        cases hbi1
      · rw [if_neg hn] at hbi1
        cases hbi1
    obtain ⟨bi1', hset⟩ : ∃ bi1', bi1.setBuffer dbi
        (Int.toNat (Int.ofNat buffer +
          Int.tdiv (hidden.buffer_size * SDL_AUDIO_FRAMESIZE (s.devices cur).spec) 2))
        = some bi1' := by
      unfold ASIOBufferInfo.setBuffer
      rcases hdbi with h0 | h1
      · exact ⟨_, if_pos h0⟩
      · subst h1
        exact ⟨_, rfl⟩
    simp only [hbi1, hset, Option.some_bind, writeAt, if_pos hidx]
    refine ⟨_, arr.set (hidden.input_channels + 1).toNat bi1', rfl, ?_, ?_⟩
    · simp [State.setHidden, State.setDevice]
    · simp [State.setHidden, State.setDevice]
  · rw [if_neg hst]
    refine ⟨_, arr, rfl, ?_, ?_⟩
    · simp [State.setHidden, State.setDevice, harr]
    · simp [State.setHidden, State.setDevice]

/-- C7: a driver reporting no output channel (and no input) and a host asking for stereo.
ASIO_OpenDevice succeeds, so CurrentDevice is set and its instance is present, with
used_outputs = 0, an empty descriptor array and a null current_buffer.  The guard of
asio_buffer_switch holds (0 >= 0), and the callback reads descriptor input_channels = 0
outside the array, for doubleBufferIndex 0 and for 1: the invocation has no defined
return, and nothing has made current_buffer non-null. -/
theorem C7_buffer_switch_undefined_without_output :
    ASIO_OpenDevice noOutputDriver loadedState 7 = some (true, noOutputOpened) ∧
    Reachable noOutputOpened ∧
    noOutputOpened.current_asio_device = some 7 ∧
    (noOutputOpened.devices 7).hidden.isSome = true ∧
    (noOutputOpened.devices 7).spec.channels = 0 ∧
    ((noOutputOpened.devices 7).hidden.map fun h => h.output_channels) = some 0 ∧
    ((noOutputOpened.devices 7).hidden.map fun h => h.current_buffer) = some 0 ∧
    (((noOutputOpened.devices 7).hidden.bind fun h => h.buffer_info).map List.length)
      = some 0 ∧
    bufferSwitchAccesses noOutputOpened = [0] ∧
    asio_buffer_switch noOutputOpened 0 0 = none ∧
    asio_buffer_switch noOutputOpened 1 0 = none :=
  ⟨rfl,
   Reachable.openDevice noOutputDriver loadedState 7 true noOutputOpened
     (Reachable.initial loadedState rfl (fun _ => rfl)) rfl rfl,
   rfl, rfl, rfl, rfl, rfl, rfl, rfl, rfl, rfl⟩

/-- What asio_buffer_switch does, in any state, with doubleBufferIndex 0 or 1 while
CurrentDevice is set and its instance present: if the host channel count exceeds the
instance's output_channels the callback returns with the state unchanged; otherwise, when
the first output descriptor lies inside the descriptor array (and the second one too when
the spec is stereo with two outputs), its buffer pointer for that index is non-null and the
byte size is not negative and fits an int, then on return current_buffer is that pointer,
hence non-null, and current_buffer_size equals buffer_size times the frame size in
bytes. -/
theorem buffer_switch_guarded (s : State) (cur : Nat) (hidden : SDL_PrivateAudioData)
    (dbi dp : Int)
    (hdbi : dbi = 0 ∨ dbi = 1)
    (hcur : s.current_asio_device = some cur)
    (hh : (s.devices cur).hidden = some hidden) :
    (hidden.output_channels < (s.devices cur).spec.channels →
      asio_buffer_switch s dbi dp = some s) ∧
    (∀ arr bi buffer,
      (s.devices cur).spec.channels ≤ hidden.output_channels →
      hidden.buffer_info = some arr →
      readAt arr hidden.input_channels = some bi →
      bi.getBuffer dbi = some buffer →
      buffer ≠ 0 →
      0 ≤ hidden.buffer_size * SDL_AUDIO_FRAMESIZE (s.devices cur).spec →
      hidden.buffer_size * SDL_AUDIO_FRAMESIZE (s.devices cur).spec ≤ 2147483647 →
      ((s.devices cur).spec.channels = 2 → 2 ≤ hidden.output_channels →
        ∃ bi1, readAt arr (hidden.input_channels + 1) = some bi1) →
      ∃ s' hidden', asio_buffer_switch s dbi dp = some s' ∧
        (s'.devices cur).hidden = some hidden' ∧
        hidden'.current_buffer = buffer ∧ hidden'.current_buffer ≠ 0 ∧
        hidden'.current_buffer_size
          = hidden'.buffer_size * SDL_AUDIO_FRAMESIZE (s'.devices cur).spec) := by
  constructor
  · intro hlt
    unfold asio_buffer_switch
    rw [hcur]
    simp only
    rw [hh]
    simp only [ge_iff_le]
    rw [if_neg (by omega)]
  · intro arr bi buffer hguard harr hbi hbuf hnn hsz hfit hsecond
    obtain ⟨s', arr', hrun, hdev, -⟩ := buffer_switch_publishes s cur hidden arr bi buffer dbi dp
      hcur hh hguard harr hbi hbuf hnn hsz hfit hsecond
    refine ⟨s', _, hrun, by rw [hdev], rfl, hnn, ?_⟩
    rw [hdev]

/-- On the open and started device of the fake driver, index 0: the buffer published is
the first output channel's, at address 65536. -/
theorem buffer_switch_guarded_on_fake :
    ∃ s' hidden', asio_buffer_switch fakeStarted 0 0 = some s' ∧
      (s'.devices 7).hidden = some hidden' ∧
      hidden'.current_buffer = 65536 ∧ hidden'.current_buffer ≠ 0 ∧
      hidden'.current_buffer_size
        = hidden'.buffer_size * SDL_AUDIO_FRAMESIZE (s'.devices 7).spec :=
  (buffer_switch_guarded fakeStarted 7
      { openedHidden fakeDriver loadedState 7 fakeInfos with driver_started := true } 0 0
      (Or.inl rfl) rfl rfl).2
    (driverFill fakeDriver.buffers fakeInfos)
    { isInput := 0, channelNum := 0, buffers := (65536, 131072) } 65536
    (by decide) rfl rfl rfl (by decide) (by decide) (by decide)
    (fun _ _ => ⟨{ isInput := 0, channelNum := 1, buffers := (196608, 262144) }, rfl⟩)

/-! ## ASIO_PlayDevice -/

theorem play_when_started (env : Env) (s : State) (device : Nat)
    (hidden : SDL_PrivateAudioData) (buffer : Nat) (size : Int)
    (hh : (s.devices device).hidden = some hidden) (hs : hidden.driver_started = true) :
    ASIO_PlayDevice env s device buffer size = (true, s) := by
  unfold ASIO_PlayDevice
  rw [hh]
  simp [hs]

theorem play_start_succeeds (env : Env) (s : State) (device : Nat)
    (hidden : SDL_PrivateAudioData) (buffer : Nat) (size : Int)
    (hh : (s.devices device).hidden = some hidden) (hs : hidden.driver_started = false)
    (hp : s.pASIOStart ≠ 0) (he : env.start_result = 0) :
    ASIO_PlayDevice env s device buffer size
      = (true, (s.call Event.start).setHidden device
          (some { hidden with driver_started := true })) := by
  unfold ASIO_PlayDevice
  rw [hh]
  simp [hs, hp, he, ASE_OK]

theorem play_start_fails (env : Env) (s : State) (device : Nat)
    (hidden : SDL_PrivateAudioData) (buffer : Nat) (size : Int)
    (hh : (s.devices device).hidden = some hidden) (hs : hidden.driver_started = false)
    (hp : s.pASIOStart ≠ 0) (he : env.start_result ≠ 0) :
    ASIO_PlayDevice env s device buffer size
      = (false, { s.call Event.start with
          error := some (SDLError.start_driver env.start_result) }) := by
  unfold ASIO_PlayDevice
  rw [hh]
  simp [hs, hp, he, ASE_OK]

theorem playAll_when_started (s : State) (device : Nat) (hidden : SDL_PrivateAudioData)
    (hh : (s.devices device).hidden = some hidden) (hs : hidden.driver_started = true)
    (calls : List (Env × Nat × Int)) :
    playAll s device calls = (List.replicate calls.length true, s) := by
  induction calls with
  | nil => rfl
  | cons call rest ih =>
    simp only [playAll, play_when_started call.1 s device hidden _ _ hh hs, ih,
      List.length_cons, List.replicate_succ]

theorem play_start_fails_facts (env : Env) (s : State) (device : Nat)
    (hidden : SDL_PrivateAudioData) (buffer : Nat) (size : Int)
    (hh : (s.devices device).hidden = some hidden) (hs : hidden.driver_started = false)
    (hp : s.pASIOStart ≠ 0) (he : env.start_result ≠ 0) :
    (ASIO_PlayDevice env s device buffer size).1 = false ∧
    (ASIO_PlayDevice env s device buffer size).2.trace = s.trace ++ [Event.start] ∧
    (ASIO_PlayDevice env s device buffer size).2.devices = s.devices ∧
    (ASIO_PlayDevice env s device buffer size).2.pASIOStart = s.pASIOStart := by
  rw [play_start_fails env s device hidden buffer size hh hs hp he]
  simp [State.call]

theorem playAll_while_failing (device : Nat) (hidden : SDL_PrivateAudioData)
    (calls : List (Env × Nat × Int)) (hfail : ∀ c ∈ calls, c.1.start_result ≠ 0) :
    ∀ s : State, (s.devices device).hidden = some hidden → hidden.driver_started = false →
      s.pASIOStart ≠ 0 →
      (playAll s device calls).1 = List.replicate calls.length false ∧
      (playAll s device calls).2.trace = s.trace ++ List.replicate calls.length Event.start ∧
      (playAll s device calls).2.devices = s.devices := by
  induction calls with
  | nil =>
    intro s _ _ _
    simp [playAll]
  | cons call rest ih =>
    intro s hh hs hp
    have hc : call.1.start_result ≠ 0 := hfail call (List.mem_cons_self _ _)
    obtain ⟨f1, f2, f3, f4⟩ :=
      play_start_fails_facts call.1 s device hidden call.2.1 call.2.2 hh hs hp hc
    obtain ⟨h1, h2, h3⟩ := ih (fun c hc => hfail c (List.mem_cons_of_mem _ hc))
      (ASIO_PlayDevice call.1 s device call.2.1 call.2.2).2
      (by rw [f3]; exact hh) hs (by rw [f4]; exact hp)
    simp only [playAll, List.length_cons, List.replicate_succ]
    refine ⟨by rw [h1, f1], ?_, by rw [h3, f3]⟩
    rw [h2, f2]
    simp

/-- C8: on a successfully opened device with the start entry resolved, for every sequence
of n >= 1 ASIO_PlayDevice calls: if the driver's start succeeds on the first call, every
call returns true, start is invoked exactly once and driver_started is true afterwards;
and as long as start returns a non-zero code, each call invokes it, returns false and
leaves driver_started false. -/
theorem C8_play_starts_once (env0 : Env) (s0 : State) (device : Nat) (s : State)
    (hopen : ASIO_OpenDevice env0 s0 device = some (true, s))
    (hstart : s.pASIOStart ≠ 0) :
    (∀ (call : Env × Nat × Int) (rest : List (Env × Nat × Int)),
      call.1.start_result = 0 →
      (playAll s device (call :: rest)).1 = List.replicate (rest.length + 1) true ∧
      (playAll s device (call :: rest)).2.trace = s.trace ++ [Event.start] ∧
      ∃ hidden, ((playAll s device (call :: rest)).2.devices device).hidden = some hidden ∧
        hidden.driver_started = true) ∧
    (∀ calls : List (Env × Nat × Int), (∀ c ∈ calls, c.1.start_result ≠ 0) →
      (playAll s device calls).1 = List.replicate calls.length false ∧
      (playAll s device calls).2.trace = s.trace ++ List.replicate calls.length Event.start ∧
      ∃ hidden, ((playAll s device calls).2.devices device).hidden = some hidden ∧
        hidden.driver_started = false) := by
  obtain ⟨infos, -, hs⟩ := open_true env0 s0 device s hopen
  have hh : (s.devices device).hidden = some (openedHidden env0 s0 device infos) := by
    rw [hs, openedState_device]
  have hns : (openedHidden env0 s0 device infos).driver_started = false := rfl
  constructor
  · intro call rest hok
    have hstep := play_start_succeeds call.1 s device _ call.2.1 call.2.2 hh hns hstart hok
    have hh' : (((s.call Event.start).setHidden device
        (some { openedHidden env0 s0 device infos with driver_started := true })).devices
          device).hidden
        = some { openedHidden env0 s0 device infos with driver_started := true } := by
      simp [State.call, State.setHidden, State.setDevice]
    have hrest := playAll_when_started _ device _ hh' rfl rest
    simp only [playAll, hstep, hrest, List.replicate_succ]
    refine ⟨trivial, ?_, _, hh', rfl⟩
    simp [State.call, State.setHidden, State.setDevice]
  · intro calls hfail
    obtain ⟨h1, h2, h3⟩ := playAll_while_failing device _ calls hfail s hh hns hstart
    exact ⟨h1, h2, _, by rw [h3]; exact hh, hns⟩

/-- C8, on the fake driver: three ASIO_PlayDevice calls after the open all return true
and add a single start to the driver calls. -/
theorem C8_play_starts_once_witness :
    (playAll (fakeOpened fakeDriver) 7 [(fakeDriver, 0, 0), (fakeDriver, 0, 0),
        (fakeDriver, 0, 0)]).1 = List.replicate 3 true ∧
    (playAll (fakeOpened fakeDriver) 7 [(fakeDriver, 0, 0), (fakeDriver, 0, 0),
        (fakeDriver, 0, 0)]).2.trace = (fakeOpened fakeDriver).trace ++ [Event.start] ∧
    ∃ hidden, ((playAll (fakeOpened fakeDriver) 7 [(fakeDriver, 0, 0), (fakeDriver, 0, 0),
        (fakeDriver, 0, 0)]).2.devices 7).hidden = some hidden ∧
      hidden.driver_started = true :=
  (C8_play_starts_once fakeDriver loadedState 7 (fakeOpened fakeDriver) rfl (by decide)).1
    (fakeDriver, 0, 0) [(fakeDriver, 0, 0), (fakeDriver, 0, 0)] rfl

/-! ## End to end: open, play, buffer switch, get buffer -/

theorem driverFill_getElem? (buffers : Nat → Nat → Nat) (infos : List ASIOBufferInfo)
    (k : Nat) :
    (driverFill buffers infos)[k]?
      = infos[k]?.map (fun b => { b with buffers := (buffers k 0, buffers k 1) }) := by
  unfold driverFill
  rw [List.getElem?_zipWith]
  by_cases hk : k < infos.length
  · rw [List.getElem?_range hk, List.getElem?_eq_getElem hk]
    rfl
  · rw [List.getElem?_eq_none (by simp; omega), List.getElem?_eq_none (by simpa using hk)]
    rfl

theorem play_frame (env : Env) (s : State) (device : Nat) (hidden : SDL_PrivateAudioData)
    (buffer : Nat) (size : Int) (hh : (s.devices device).hidden = some hidden) :
    ∃ b : Bool,
      (ASIO_PlayDevice env s device buffer size).2.devices device
        = { s.devices device with hidden := some { hidden with driver_started := b } } ∧
      (ASIO_PlayDevice env s device buffer size).2.current_asio_device
        = s.current_asio_device ∧
      (ASIO_PlayDevice env s device buffer size).2.mem = s.mem := by
  unfold ASIO_PlayDevice
  rw [hh]
  simp only
  have heta : s.devices device
      = { s.devices device with
          hidden := some { hidden with driver_started := hidden.driver_started } } := by
    show s.devices device = { s.devices device with hidden := some hidden }
    rw [← hh]
  split
  · split
    · exact ⟨hidden.driver_started, heta, rfl, rfl⟩
    · refine ⟨true, ?_, rfl, rfl⟩
      simp [State.call, State.setHidden, State.setDevice]
  · exact ⟨hidden.driver_started, heta, rfl, rfl⟩

theorem chooseBufferSize_bounds (p : Int) : 64 ≤ chooseBufferSize p ∧ chooseBufferSize p ≤ 4096 := by
  rw [chooseBufferSize_eq_clamp]
  unfold clamp
  omega

theorem frameSize_nonneg (spec : SDL_AudioSpec) (h : 0 ≤ spec.channels) :
    0 ≤ SDL_AUDIO_FRAMESIZE spec := by
  unfold SDL_AUDIO_FRAMESIZE
  exact Int.mul_nonneg (Int.ofNat_nonneg _) h

theorem frameSize_le (spec : SDL_AudioSpec) (h0 : 0 ≤ spec.channels) (h2 : spec.channels ≤ 2) :
    SDL_AUDIO_FRAMESIZE spec ≤ 62 := by
  unfold SDL_AUDIO_FRAMESIZE
  have hb : ((spec.format % 256 / 8 : Nat) : Int) ≤ 31 := by
    have : spec.format % 256 / 8 ≤ 31 := by omega
    exact_mod_cast this
  have hb0 : (0 : Int) ≤ ((spec.format % 256 / 8 : Nat) : Int) := Int.ofNat_nonneg _
  nlinarith

/-- The descriptor array of an opened device holds, at index input_channels + j for
j below the used output count, output descriptor j with the driver's two pointers. -/
theorem opened_output_descriptor (env : Env) (s : State) (device : Nat)
    (infos : List ASIOBufferInfo)
    (hinf : preparedDescriptors env s device = some infos)
    (hin : 0 ≤ env.input_channels)
    (hch : 0 ≤ limitChannels (s.devices device).spec.channels env.output_channels)
    (j : Nat)
    (hj : j < (limitChannels (s.devices device).spec.channels env.output_channels).toNat) :
    readAt (driverFill env.buffers infos) (env.input_channels + (j : Int))
      = some { isInput := ASIOFalse, channelNum := (j : Int),
               buffers := (env.buffers (env.input_channels.toNat + j) 0,
                           env.buffers (env.input_channels.toNat + j) 1) } := by
  rw [preparedDescriptors_eq env s device hin hch] at hinf
  have hinfos := (Option.some.inj hinf).symm
  have hidx : env.input_channels + (j : Int) = ((env.input_channels.toNat + j : Nat) : Int) := by
    rw [Nat.cast_add, Int.toNat_of_nonneg hin]
  rw [hidx, readAt_natCast, driverFill_getElem?, hinfos,
    List.getElem?_append_right (by simp)]
  simp [List.getElem?_range hj, outputDescriptor]

/-- C9: end to end.  For every driver reporting input_channels >= 0 and
output_channels >= 1 whose create-buffers succeeds and fills a non-null pointer for the
first output channel at index i, and every host spec with at least one channel: after a
successful ASIO_OpenDevice, one ASIO_PlayDevice and one asio_buffer_switch(i) with i in
{0, 1}, ASIO_GetDeviceBuf returns the first output channel's driver buffer for index i,
which is non-null, with the size clamp(P, 64, 4096) times the frame size in bytes, and
that many bytes of memory from the buffer's address on are zero. -/
theorem C9_end_to_end (env : Env) (s : State) (device : Nat) (s1 : State)
    (hopen : ASIO_OpenDevice env s device = some (true, s1))
    (hin : 0 ≤ env.input_channels) (hout : 1 ≤ env.output_channels)
    (hch : 1 ≤ (s.devices device).spec.channels)
    (i : Int) (hi : i = 0 ∨ i = 1)
    (hbuf : env.buffers env.input_channels.toNat i.toNat ≠ 0)
    (penv : Env) (pbuffer : Nat) (psize : Int) (directProcess : Int) :
    ∃ s3, asio_buffer_switch (ASIO_PlayDevice penv s1 device pbuffer psize).2 i directProcess
        = some s3 ∧
      (ASIO_GetDeviceBuf s3 device).1
        = (env.buffers env.input_channels.toNat i.toNat,
           clamp env.preferred_size 64 4096 * SDL_AUDIO_FRAMESIZE (s1.devices device).spec) ∧
      (ASIO_GetDeviceBuf s3 device).1.1 ≠ 0 ∧
      ∀ a, env.buffers env.input_channels.toNat i.toNat ≤ a →
        a < env.buffers env.input_channels.toNat i.toNat +
          (clamp env.preferred_size 64 4096
            * SDL_AUDIO_FRAMESIZE (s1.devices device).spec).toNat →
        s3.mem a = 0 := by
  obtain ⟨infos, ht, hs1⟩ := open_true env s device s1 hopen
  obtain ⟨-, -, -, -, -, -, -, -, -, -, -, hinf, -, -⟩ := ht
  have hlim : 1 ≤ limitChannels (s.devices device).spec.channels env.output_channels := by
    rw [limitChannels_eq_min]
    omega
  have hdev1 : s1.devices device =
      { spec := negotiatedSpec env s device,
        sample_frames := chooseBufferSize env.preferred_size,
        hidden := some (openedHidden env s device infos) } := by
    rw [hs1, openedState_device]
  have hcur1 : s1.current_asio_device = some device := by
    rw [hs1, openedState_current]
  obtain ⟨b, hdev2, hcur2, hmem2⟩ := play_frame penv s1 device
    (openedHidden env s device infos) pbuffer psize (by rw [hdev1])
  rw [hdev1] at hdev2
  have hspec2 : ((ASIO_PlayDevice penv s1 device pbuffer psize).2.devices device).spec
      = negotiatedSpec env s device := by
    rw [hdev2]
  have hchan : (negotiatedSpec env s device).channels
      = limitChannels (s.devices device).spec.channels env.output_channels := rfl
  have hbi := opened_output_descriptor env s device infos hinf hin (by omega) 0 (by omega)
  simp only [Nat.cast_zero, Int.add_zero, Nat.add_zero] at hbi
  have hbs := chooseBufferSize_bounds env.preferred_size
  have hfs : 0 ≤ SDL_AUDIO_FRAMESIZE (negotiatedSpec env s device) :=
    frameSize_nonneg _ (by rw [hchan]; omega)
  obtain ⟨s3, arr', hrun, hdev3, hmem3⟩ := buffer_switch_publishes
    (ASIO_PlayDevice penv s1 device pbuffer psize).2 device
    { openedHidden env s device infos with driver_started := b }
    (driverFill env.buffers infos) _ (env.buffers env.input_channels.toNat i.toNat)
    i directProcess (by rw [hcur2, hcur1]) (by rw [hdev2])
    (by rw [hspec2, hchan]; exact limitChannels_le_output _ _) rfl hbi
    (by
      rcases hi with h0 | h1
      · subst h0; rfl
      · subst h1; rfl)
    hbuf
    (by
      rw [hspec2]
      exact Int.mul_nonneg (by show 0 ≤ chooseBufferSize env.preferred_size; omega) hfs)
    (by
      rw [hspec2]
      have hfs2 : SDL_AUDIO_FRAMESIZE (negotiatedSpec env s device) ≤ 62 :=
        frameSize_le _ (by rw [hchan]; omega)
          (by rw [hchan]; exact limitChannels_le_two _ _)
      have hb1 : (openedHidden env s device infos).buffer_size ≤ 4096 := hbs.2
      have hb0 : 0 ≤ (openedHidden env s device infos).buffer_size := by
        show 0 ≤ chooseBufferSize env.preferred_size
        omega
      show (openedHidden env s device infos).buffer_size
        * SDL_AUDIO_FRAMESIZE (negotiatedSpec env s device) ≤ 2147483647
      nlinarith)
    (by
      intro h2 _
      rw [hspec2, hchan] at h2
      have := opened_output_descriptor env s device infos hinf hin (by omega) 1
        (by rw [h2]; decide)
      exact ⟨_, by simpa using this⟩)
  have hsize : (openedHidden env s device infos).buffer_size
      = clamp env.preferred_size 64 4096 := chooseBufferSize_eq_clamp _
  rw [hspec2] at hdev3 hmem3
  have hspec1 : (s1.devices device).spec = negotiatedSpec env s device := by rw [hdev1]
  rw [hspec1]
  have hget : (ASIO_GetDeviceBuf s3 device).1
      = (env.buffers env.input_channels.toNat i.toNat,
         clamp env.preferred_size 64 4096 * SDL_AUDIO_FRAMESIZE (negotiatedSpec env s device)) := by
    unfold ASIO_GetDeviceBuf
    rw [hdev3]
    simp only
    rw [if_neg hbuf, ← hsize]
  refine ⟨s3, hrun, hget, by rw [hget]; exact hbuf, ?_⟩
  intro a ha1 ha2
  rw [hmem3]
  simp only
  rw [if_pos ⟨ha1, by rw [hsize]; exact ha2⟩]

/-- C9, the literal scenario: no input, two outputs, preferred size 256, 16-bit stereo at
48000 Hz; after open, play and bufferSwitch(0), ASIO_GetDeviceBuf returns the first
output buffer (address 65536) with size 256 * 4 = 1024, and those 1024 bytes are zero. -/
theorem C9_end_to_end_witness :
    ∃ s3, asio_buffer_switch (ASIO_PlayDevice fakeDriver (fakeOpened fakeDriver) 7 0 0).2 0 0
        = some s3 ∧
      (ASIO_GetDeviceBuf s3 7).1 = (65536, 1024) ∧
      (ASIO_GetDeviceBuf s3 7).1.1 ≠ 0 ∧
      ∀ a, 65536 ≤ a → a < 65536 + 1024 → s3.mem a = 0 :=
  C9_end_to_end fakeDriver loadedState 7 (fakeOpened fakeDriver) rfl (by decide) (by decide)
    (by decide) 0 (Or.inl rfl) (by decide) fakeDriver 0 0 0

/-! ## Sample-rate negotiation -/

theorem opened_freq (env : Env) (s : State) (device : Nat) (infos : List ASIOBufferInfo) :
    ((openedState env s device infos).devices device).spec.freq
      = (negotiateSampleRate env s (s.devices device).spec.freq).1 := by
  rw [openedState_device]
  rfl

/-- C10: for every requested rate and every successful ASIO_OpenDevice: the host spec's
rate stays the requested one when set-sample-rate is unresolved or succeeds; it becomes
the rate reported by get-sample-rate when set-sample-rate fails and get-sample-rate is
resolved and succeeds; it stays the requested one when set-sample-rate fails and
get-sample-rate is unresolved or fails.  Whatever set-sample-rate and get-sample-rate
answer, the open still succeeds. -/
theorem C10_sample_rate_negotiation (env : Env) (s : State) (device : Nat) (s' : State)
    (h : ASIO_OpenDevice env s device = some (true, s')) :
    ((s.pASIOSetSampleRate = 0 ∨ env.set_rate_result = 0) →
      (s'.devices device).spec.freq = (s.devices device).spec.freq) ∧
    (s.pASIOSetSampleRate ≠ 0 → env.set_rate_result ≠ 0 →
      s.pASIOGetSampleRate ≠ 0 → env.get_rate_result = 0 →
      (s'.devices device).spec.freq = env.current_rate) ∧
    (s.pASIOSetSampleRate ≠ 0 → env.set_rate_result ≠ 0 →
      (s.pASIOGetSampleRate = 0 ∨ env.get_rate_result ≠ 0) →
      (s'.devices device).spec.freq = (s.devices device).spec.freq) ∧
    (∀ set_result get_result rate : Int, ∃ s'',
      ASIO_OpenDevice { env with set_rate_result := set_result, get_rate_result := get_result,
                                 current_rate := rate } s device = some (true, s'')) := by
  obtain ⟨infos, ht, hs⟩ := open_true env s device s' h
  subst hs
  refine ⟨?_, ?_, ?_, ?_⟩
  · intro h1
    rw [opened_freq]
    unfold negotiateSampleRate
    rcases h1 with h1 | h1
    · simp [h1]
    · simp [h1, ASE_OK]
      split <;> rfl
  · intro h1 h2 h3 h4
    rw [opened_freq]
    unfold negotiateSampleRate
    simp [h1, h2, h3, h4, ASE_OK]
  · intro h1 h2 h3
    rw [opened_freq]
    unfold negotiateSampleRate
    rcases h3 with h3 | h3
    · simp [h1, h2, h3, ASE_OK]
    · simp [h1, h2, h3, ASE_OK]
      split <;> rfl
  · intro set_result get_result rate
    exact ⟨_, open_of_exit _ s device infos OpenExit.opened ht⟩

/-- C10, on the fake driver whose set-sample-rate fails and whose get-sample-rate
reports 44100: the open succeeds and the host spec's rate is 44100 on return. -/
theorem C10_sample_rate_negotiation_witness :
    ASIO_OpenDevice rateOverrideDriver loadedState 7
      = some (true, fakeOpened rateOverrideDriver) ∧
    (loadedState.devices 7).spec.freq = 48000 ∧
    ((fakeOpened rateOverrideDriver).devices 7).spec.freq = 44100 :=
  ⟨rfl, rfl,
   (C10_sample_rate_negotiation rateOverrideDriver loadedState 7
      (fakeOpened rateOverrideDriver) rfl).2.1 (by decide) (by decide) (by decide) (by decide)⟩

/-! ## The dynamic loader -/

theorem unload_handle (s : State) : (ASIO_UnloadDriver s).asio_dll = 0 := by
  unfold ASIO_UnloadDriver
  by_cases h : s.asio_dll ≠ 0
  · simp [h, State.call]
  · simp only [h, if_false]
    simpa using h

theorem unload_table (s : State) : entryTable (ASIO_UnloadDriver s) = List.replicate 18 0 := by
  simp [ASIO_UnloadDriver, entryTable, List.replicate]

theorem unload_trace (s : State) :
    (ASIO_UnloadDriver s).trace
      = if s.asio_dll ≠ 0 then s.trace ++ [Event.freeLibrary s.asio_dll] else s.trace := by
  unfold ASIO_UnloadDriver
  by_cases h : s.asio_dll ≠ 0
  · simp [h, State.call]
  · simp [h]

/-- All eight required symbols resolve in the library with handle `h`. -/
theorem required_iff (ld : Loader) (h : Nat) :
    (∀ name ∈ requiredSymbols, ld.getProcAddress h name ≠ 0) ↔
      ¬ (ld.getProcAddress h "ASIOInit" = 0 ∨ ld.getProcAddress h "ASIOExit" = 0 ∨
         ld.getProcAddress h "ASIOStart" = 0 ∨ ld.getProcAddress h "ASIOStop" = 0 ∨
         ld.getProcAddress h "ASIOGetChannels" = 0 ∨
         ld.getProcAddress h "ASIOGetBufferSize" = 0 ∨
         ld.getProcAddress h "ASIOCreateBuffers" = 0 ∨
         ld.getProcAddress h "ASIODisposeBuffers" = 0) := by
  simp only [requiredSymbols, List.mem_cons, List.mem_singleton, List.not_mem_nil, or_false,
    forall_eq_or_imp, forall_eq, not_or]

/-- ASIO_LoadDriver when no candidate library opens. -/
theorem load_unavailable (ld : Loader) (s : State) (h0 : s.asio_dll = 0)
    (hlib : openedLibrary ld = 0) :
    (ASIO_LoadDriver ld s).1 = false ∧ (ASIO_LoadDriver ld s).2.asio_dll = 0 ∧
    entryTable (ASIO_LoadDriver ld s).2 = entryTable s := by
  have h1 : ld.loadLibrary "asio.dll" = 0 := by
    unfold openedLibrary at hlib
    by_contra hne
    rw [if_pos hne] at hlib
    exact hne hlib
  have h2 : ld.loadLibrary "asiodrvr.dll" = 0 := by
    unfold openedLibrary at hlib
    rw [if_neg (by simp [h1])] at hlib
    exact hlib
  unfold ASIO_LoadDriver
  simp [h0, h1, h2, State.call, entryTable]

/-- ASIO_LoadDriver when a library opens but a required symbol is missing. -/
theorem load_incomplete (ld : Loader) (s : State) (h0 : s.asio_dll = 0)
    (hlib : openedLibrary ld ≠ 0)
    (hmiss : ¬ ∀ name ∈ requiredSymbols, ld.getProcAddress (openedLibrary ld) name ≠ 0) :
    (ASIO_LoadDriver ld s).1 = false ∧ (ASIO_LoadDriver ld s).2.asio_dll = 0 ∧
    entryTable (ASIO_LoadDriver ld s).2 = List.replicate 18 0 := by
  rw [required_iff, not_not] at hmiss
  unfold ASIO_LoadDriver
  unfold openedLibrary at hlib hmiss
  by_cases h1 : ld.loadLibrary "asio.dll" = 0
  · rw [if_neg (by simp [h1])] at hlib hmiss
    simp only [h0, h1, State.call, ne_eq, not_true_eq_false, if_false, if_true, hlib, hmiss]
    exact ⟨trivial, unload_handle _, unload_table _⟩
  · rw [if_pos h1] at hlib hmiss
    simp only [h0, h1, State.call, ne_eq, not_true_eq_false, if_false, if_true, hmiss]
    exact ⟨trivial, unload_handle _, unload_table _⟩

/-- ASIO_LoadDriver when a library opens and exports the eight required symbols. -/
theorem load_complete (ld : Loader) (s : State) (h0 : s.asio_dll = 0)
    (hlib : openedLibrary ld ≠ 0)
    (hreq : ∀ name ∈ requiredSymbols, ld.getProcAddress (openedLibrary ld) name ≠ 0) :
    (ASIO_LoadDriver ld s).1 = true ∧
    (ASIO_LoadDriver ld s).2.asio_dll = openedLibrary ld ∧
    entryTable (ASIO_LoadDriver ld s).2 = resolvedTable ld (openedLibrary ld) s := by
  rw [required_iff] at hreq
  unfold ASIO_LoadDriver
  by_cases h1 : ld.loadLibrary "asio.dll" = 0
  · have hl : openedLibrary ld = ld.loadLibrary "asiodrvr.dll" := by
      unfold openedLibrary
      rw [if_neg (by simp [h1])]
    rw [hl] at hlib hreq ⊢
    simp only [h0, h1, State.call, ne_eq, not_true_eq_false, if_false, if_true, hlib, hreq,
      entryTable, resolvedTable]
    exact ⟨trivial, trivial, trivial⟩
  · have hl : openedLibrary ld = ld.loadLibrary "asio.dll" := by
      unfold openedLibrary
      rw [if_pos h1]
    rw [hl] at hlib hreq ⊢
    simp only [h0, h1, State.call, ne_eq, not_true_eq_false, if_false, if_true, hreq,
      entryTable, resolvedTable]
    exact ⟨trivial, trivial, trivial⟩

/-- ASIO_LoadDriver touches neither the devices nor CurrentDevice. -/
theorem load_frame (ld : Loader) (s : State) :
    (ASIO_LoadDriver ld s).2.devices = s.devices ∧
    (ASIO_LoadDriver ld s).2.current_asio_device = s.current_asio_device := by
  unfold ASIO_LoadDriver
  simp only [State.call]
  split_ifs <;>
    simp [ASIO_UnloadDriver, State.call, apply_ite State.devices,
      apply_ite State.current_asio_device]

/-- ASIO_UnloadDriver touches neither the devices nor CurrentDevice. -/
theorem unload_frame (s : State) :
    (ASIO_UnloadDriver s).devices = s.devices ∧
    (ASIO_UnloadDriver s).current_asio_device = s.current_asio_device := by
  unfold ASIO_UnloadDriver
  by_cases h : s.asio_dll ≠ 0
  · simp [h, State.call]
  · simp [h]

/-- From a state without library handle, ASIO_LoadDriver returns true exactly when a
candidate library opens and exports the eight required symbols. -/
theorem load_true_iff (ld : Loader) (s : State) (h0 : s.asio_dll = 0) :
    (ASIO_LoadDriver ld s).1 = true ↔
      (openedLibrary ld ≠ 0 ∧
        ∀ name ∈ requiredSymbols, ld.getProcAddress (openedLibrary ld) name ≠ 0) := by
  by_cases hlib : openedLibrary ld = 0
  · have hf := (load_unavailable ld s h0 hlib).1
    constructor
    · intro ht
      rw [hf] at ht
      cases ht
    · intro hc
      exact absurd hlib hc.1
  · by_cases hreq : ∀ name ∈ requiredSymbols, ld.getProcAddress (openedLibrary ld) name ≠ 0
    · exact ⟨fun _ => ⟨hlib, hreq⟩, fun _ => (load_complete ld s h0 hlib hreq).1⟩
    · have hf := (load_incomplete ld s h0 hlib hreq).1
      constructor
      · intro ht
        rw [hf] at ht
        cases ht
      · intro hc
        exact absurd hc.2 hreq

/-- C11: starting from the unloaded state, ASIO_LoadDriver returns true exactly when one
of the candidate libraries (asio.dll, then asiodrvr.dll) opens and all eight required
symbols resolve in it; whenever it returns false the library handle is null and every
entry-table slot is null on return. -/
theorem C11_load_result (ld : Loader) (s : State) (hun : Unloaded s) :
    ((ASIO_LoadDriver ld s).1 = true ↔
      (openedLibrary ld ≠ 0 ∧
        ∀ name ∈ requiredSymbols, ld.getProcAddress (openedLibrary ld) name ≠ 0)) ∧
    ((ASIO_LoadDriver ld s).1 = false →
      (ASIO_LoadDriver ld s).2.asio_dll = 0 ∧
      entryTable (ASIO_LoadDriver ld s).2 = List.replicate 18 0) := by
  refine ⟨load_true_iff ld s hun.1, ?_⟩
  intro hf
  by_cases hlib : openedLibrary ld = 0
  · obtain ⟨-, h2, h3⟩ := load_unavailable ld s hun.1 hlib
    exact ⟨h2, by rw [h3]; exact hun.2⟩
  · by_cases hreq : ∀ name ∈ requiredSymbols, ld.getProcAddress (openedLibrary ld) name ≠ 0
    · have ht := (load_complete ld s hun.1 hlib hreq).1
      rw [ht] at hf
      cases hf
    · obtain ⟨-, h2, h3⟩ := load_incomplete ld s hun.1 hlib hreq
      exact ⟨h2, h3⟩

/-- C11, on the program's start state: with a library exporting every symbol the load
returns true; with a library lacking ASIOStop it returns false and leaves the handle and
all 18 slots null. -/
theorem C11_load_result_witness :
    Unloaded startState ∧
    (ASIO_LoadDriver fullLoader startState).1 = true ∧
    (ASIO_LoadDriver noStopLoader startState).1 = false ∧
    (ASIO_LoadDriver noStopLoader startState).2.asio_dll = 0 ∧
    entryTable (ASIO_LoadDriver noStopLoader startState).2 = List.replicate 18 0 :=
  ⟨by decide,
   (C11_load_result fullLoader startState (by decide)).1.2 (by decide),
   rfl,
   ((C11_load_result noStopLoader startState (by decide)).2 rfl).1,
   ((C11_load_result noStopLoader startState (by decide)).2 rfl).2⟩

/-- C12: from every state, after ASIO_UnloadDriver the library handle is null and each of
the 18 entry-table slots is null; running it a second time yields the same state, and in
particular adds no FreeLibrary call. -/
theorem C12_unload_resets (s : State) :
    (ASIO_UnloadDriver s).asio_dll = 0 ∧
    entryTable (ASIO_UnloadDriver s) = List.replicate 18 0 ∧
    ASIO_UnloadDriver (ASIO_UnloadDriver s) = ASIO_UnloadDriver s ∧
    (ASIO_UnloadDriver (ASIO_UnloadDriver s)).trace = (ASIO_UnloadDriver s).trace := by
  have hidem : ASIO_UnloadDriver (ASIO_UnloadDriver s) = ASIO_UnloadDriver s := by
    unfold ASIO_UnloadDriver
    by_cases h : s.asio_dll ≠ 0
    · simp [h, State.call]
    · have h0 : s.asio_dll = 0 := by simpa using h
      simp [h0]
  exact ⟨unload_handle s, unload_table s, hidem, by rw [hidem]⟩

/-- C13, at the failing input: the library exports all 18 symbols (every GetProcAddress
answers 4096), ASIO_LoadDriver succeeds from the unloaded state, and the slots of
get-clock-sources, set-clock-source and get-sample-position are still null, so the entry
table differs from what the loader returns for the 18 symbols. -/
theorem C13_clock_entries_left_null :
    Unloaded startState ∧
    (ASIO_LoadDriver fullLoader startState).1 = true ∧
    (ASIO_LoadDriver fullLoader startState).2.asio_dll = 1 ∧
    fullLoader.getProcAddress 1 "ASIOGetClockSources" = 4096 ∧
    (ASIO_LoadDriver fullLoader startState).2.pASIOGetClockSources = 0 ∧
    fullLoader.getProcAddress 1 "ASIOSetClockSource" = 4096 ∧
    (ASIO_LoadDriver fullLoader startState).2.pASIOSetClockSource = 0 ∧
    fullLoader.getProcAddress 1 "ASIOGetSamplePosition" = 4096 ∧
    (ASIO_LoadDriver fullLoader startState).2.pASIOGetSamplePosition = 0 ∧
    entryTable (ASIO_LoadDriver fullLoader startState).2
      = [4096, 4096, 4096, 4096, 4096, 4096, 4096, 4096, 4096, 0, 0, 0,
         4096, 4096, 4096, 4096, 4096, 4096] ∧
    entryTable (ASIO_LoadDriver fullLoader startState).2
      ≠ entrySymbols.map (fullLoader.getProcAddress 1) :=
  ⟨by decide, rfl, rfl, rfl, rfl, rfl, rfl, rfl, rfl, rfl, by decide⟩

/-- C15: ASIO_GetDeviceBuf(device) returns (null, 0) when the device has no instance or
the instance's current_buffer is null, in particular right after a successful
ASIO_OpenDevice; otherwise it returns exactly (current_buffer, current_buffer_size); and
it leaves the state as it was. -/
theorem C15_get_device_buf (s : State) (device : Nat) :
    (ASIO_GetDeviceBuf s device).2 = s ∧
    ((s.devices device).hidden = none → (ASIO_GetDeviceBuf s device).1 = (0, 0)) ∧
    (∀ hidden, (s.devices device).hidden = some hidden → hidden.current_buffer = 0 →
      (ASIO_GetDeviceBuf s device).1 = (0, 0)) ∧
    (∀ hidden, (s.devices device).hidden = some hidden → hidden.current_buffer ≠ 0 →
      (ASIO_GetDeviceBuf s device).1 = (hidden.current_buffer, hidden.current_buffer_size)) ∧
    (∀ env s0, ASIO_OpenDevice env s0 device = some (true, s) →
      (ASIO_GetDeviceBuf s device).1 = (0, 0)) := by
  have hcase : ∀ hidden, (s.devices device).hidden = some hidden → hidden.current_buffer = 0 →
      (ASIO_GetDeviceBuf s device).1 = (0, 0) := by
    intro hidden hh h0
    unfold ASIO_GetDeviceBuf
    rw [hh]
    simp [h0]
  refine ⟨?_, ?_, hcase, ?_, ?_⟩
  · unfold ASIO_GetDeviceBuf
    cases hh : (s.devices device).hidden with
    | none => rfl
    | some hidden =>
      simp only
      split <;> rfl
  · intro hh
    unfold ASIO_GetDeviceBuf
    rw [hh]
  · intro hidden hh hne
    unfold ASIO_GetDeviceBuf
    rw [hh]
    simp [hne]
  · intro env s0 hopen
    obtain ⟨infos, -, hs⟩ := open_true env s0 device s hopen
    exact hcase (openedHidden env s0 device infos) (by rw [hs, openedState_device]) rfl

/-- C15, on the fake driver: right after the open the answer is (null, 0), as it is for a
device without instance; after play and bufferSwitch(0) it is the published buffer
(address 65536) and its size 256 * 4 = 1024, and the state is as it was. -/
theorem C15_get_device_buf_witness :
    (ASIO_GetDeviceBuf (fakeOpened fakeDriver) 7).1 = (0, 0) ∧
    (ASIO_GetDeviceBuf startState 7).1 = (0, 0) ∧
    asio_buffer_switch fakeStarted 0 0 = some fakeSwitched ∧
    (ASIO_GetDeviceBuf fakeSwitched 7).1 = (65536, 1024) ∧
    (ASIO_GetDeviceBuf fakeSwitched 7).2 = fakeSwitched :=
  ⟨(C15_get_device_buf (fakeOpened fakeDriver) 7).2.2.2.2 fakeDriver loadedState rfl,
   (C15_get_device_buf startState 7).2.1 rfl,
   rfl,
   (C15_get_device_buf fakeSwitched 7).2.2.2.1 _ rfl (by decide),
   (C15_get_device_buf fakeSwitched 7).1⟩

/-- C16: asio_message returns 2 for selector 2 and 0 for every other selector (1, 3, 4,
5, 6 and any other value), whatever the value, message and opt arguments; being a function
of its arguments alone it reads and writes no state. -/
theorem C16_asio_message (selector value : Int) (message opt : Nat) :
    asio_message selector value message opt = (if selector = 2 then 2 else 0) ∧
    asio_message 2 value message opt = 2 ∧
    asio_message 1 value message opt = 0 ∧
    asio_message 3 value message opt = 0 ∧
    asio_message 4 value message opt = 0 ∧
    asio_message 5 value message opt = 0 ∧
    asio_message 6 value message opt = 0 := by
  refine ⟨?_, rfl, rfl, rfl, rfl, rfl, rfl⟩
  unfold asio_message
  split_ifs <;> first | rfl | omega

/-! ## The buffer-size interval -/

/-- C18, counterexample: the fake driver with preferred size P = 32.  ASIO_OpenDevice
succeeds and the instance's buffer_size is 64, which is not in
[max(64, P), min(P, 4096)] = [64, 32]: that interval is empty. -/
theorem C18_interval_empty_below_minimum :
    ASIO_OpenDevice smallPreferredDriver loadedState 7
      = some (true, fakeOpened smallPreferredDriver) ∧
    smallPreferredDriver.preferred_size = 32 ∧
    (((fakeOpened smallPreferredDriver).devices 7).hidden.map fun h => h.buffer_size)
      = some 64 ∧
    ¬ (max 64 smallPreferredDriver.preferred_size ≤ (64 : Int) ∧
        (64 : Int) ≤ min smallPreferredDriver.preferred_size 4096) :=
  ⟨rfl, rfl, rfl, by decide⟩

/-- C18, amended: whenever ASIO_OpenDevice succeeds with driver-reported preferred size
P, the instance's buffer_size lies in the closed interval [64, 4096]; it equals P when
64 <= P <= 4096, and exactly in that case it lies in [max(64, P), min(P, 4096)]. -/
theorem C18_buffer_size_interval (env : Env) (s : State) (device : Nat) (s' : State)
    (h : ASIO_OpenDevice env s device = some (true, s')) :
    ∃ hidden, (s'.devices device).hidden = some hidden ∧
      64 ≤ hidden.buffer_size ∧ hidden.buffer_size ≤ 4096 ∧
      (64 ≤ env.preferred_size → env.preferred_size ≤ 4096 →
        hidden.buffer_size = env.preferred_size) ∧
      ((max 64 env.preferred_size ≤ hidden.buffer_size ∧
          hidden.buffer_size ≤ min env.preferred_size 4096) ↔
        (64 ≤ env.preferred_size ∧ env.preferred_size ≤ 4096)) := by
  obtain ⟨infos, -, hs⟩ := open_true env s device s' h
  subst hs
  have hb : (openedHidden env s device infos).buffer_size
      = chooseBufferSize env.preferred_size := rfl
  have hc := chooseBufferSize_eq_clamp env.preferred_size
  unfold clamp at hc
  refine ⟨openedHidden env s device infos, ?_, ?_, ?_, ?_, ?_⟩
  · rw [openedState_device]
  · rw [hb, hc]; omega
  · rw [hb, hc]; omega
  · intro h1 h2
    rw [hb, hc]; omega
  · rw [hb, hc]; omega

/-- C18, on the fake driver: P = 256 gives buffer_size 256, inside [256, 256]; P = 32
gives a buffer_size in [64, 4096] although [64, 32] is empty. -/
theorem C18_buffer_size_interval_witness :
    (ASIO_OpenDevice fakeDriver loadedState 7 = some (true, fakeOpened fakeDriver) ∧
      ∃ hidden, ((fakeOpened fakeDriver).devices 7).hidden = some hidden ∧
        64 ≤ hidden.buffer_size ∧ hidden.buffer_size ≤ 4096 ∧
        ((64 : Int) ≤ 256 → (256 : Int) ≤ 4096 → hidden.buffer_size = 256) ∧
        ((max 64 256 ≤ hidden.buffer_size ∧ hidden.buffer_size ≤ min 256 4096) ↔
          ((64 : Int) ≤ 256 ∧ (256 : Int) ≤ 4096))) ∧
    (∃ hidden, ((fakeOpened smallPreferredDriver).devices 7).hidden = some hidden ∧
        64 ≤ hidden.buffer_size ∧ hidden.buffer_size ≤ 4096 ∧
        ((64 : Int) ≤ 32 → (32 : Int) ≤ 4096 → hidden.buffer_size = 32) ∧
        ((max 64 32 ≤ hidden.buffer_size ∧ hidden.buffer_size ≤ min 32 4096) ↔
          ((64 : Int) ≤ 32 ∧ (32 : Int) ≤ 4096))) :=
  ⟨⟨rfl, C18_buffer_size_interval fakeDriver loadedState 7 _ rfl⟩,
   C18_buffer_size_interval smallPreferredDriver loadedState 7 _ rfl⟩

/-! ## The descriptor array handed to create-buffers -/

/-- The entries of the array the two loops leave. -/
theorem descriptors_getElem? (n m : Nat) :
    (∀ i : Nat, i < n →
      ((List.range n).map inputDescriptor ++ (List.range m).map outputDescriptor)[i]?
        = some (inputDescriptor i)) ∧
    (∀ j : Nat, j < m →
      ((List.range n).map inputDescriptor ++ (List.range m).map outputDescriptor)[n + j]?
        = some (outputDescriptor j)) := by
  constructor
  · intro i hi
    rw [List.getElem?_append_left (by simpa using hi)]
    simp [hi]
  · intro j hj
    rw [List.getElem?_append_right (by simp)]
    simp [hj]

/-- C19: in every successful ASIO_OpenDevice (driver-reported channel counts and the
requested channel count not negative), the descriptor array handed to create-buffers, the
open's only create-buffers call, has length input_channels + used_outputs and, as the call
is made, entry i is marked input with channel number i for every i in [0, input_channels),
entry input_channels + j is marked output with channel number j for every j in
[0, used_outputs), and both buffer-pointer slots of every entry are null. -/
theorem C19_descriptors_at_create (env : Env) (s : State) (device : Nat) (s' : State)
    (hin : 0 ≤ env.input_channels) (hout : 0 ≤ env.output_channels)
    (hc : 0 ≤ (s.devices device).spec.channels)
    (h : ASIO_OpenDevice env s device = some (true, s')) :
    ∃ earlier infos bufferSize callbacks,
      s'.trace = s.trace ++ earlier ++
        [Event.createBuffers infos (env.input_channels + (s'.devices device).spec.channels)
          bufferSize callbacks] ∧
      (∀ e ∈ earlier, ∀ a b c d, e ≠ Event.createBuffers a b c d) ∧
      (infos.length : Int) = env.input_channels + (s'.devices device).spec.channels ∧
      (∀ i : Nat, (i : Int) < env.input_channels →
        infos[i]? = some { isInput := ASIOTrue, channelNum := (i : Int), buffers := (0, 0) }) ∧
      (∀ j : Nat, (j : Int) < (s'.devices device).spec.channels →
        infos[env.input_channels.toNat + j]?
          = some { isInput := ASIOFalse, channelNum := (j : Int), buffers := (0, 0) }) ∧
      ∀ b ∈ infos, b.buffers = (0, 0) := by
  obtain ⟨infos, ht, hs⟩ := open_true env s device s' h
  subst hs
  have hch : ((openedState env s device infos).devices device).spec.channels
      = limitChannels (s.devices device).spec.channels env.output_channels := by
    rw [openedState_device]
    rfl
  have hused : 0 ≤ limitChannels (s.devices device).spec.channels env.output_channels :=
    limitChannels_nonneg _ _ hc hout
  have hprep : preparedDescriptors env s device = some infos := ht.2.2.2.2.2.2.2.2.2.2.2.1
  rw [preparedDescriptors_eq env s device hin hused] at hprep
  have hinfos := (Option.some.inj hprep).symm
  have hget := descriptors_getElem? env.input_channels.toNat
    (limitChannels (s.devices device).spec.channels env.output_channels).toNat
  refine ⟨[Event.init, Event.getChannels, Event.getBufferSize] ++
      (negotiateSampleRate env s (s.devices device).spec.freq).2, infos,
    chooseBufferSize env.preferred_size, installedCallbacks, ?_, ?_, ?_, ?_, ?_, ?_⟩
  · rw [openedState_trace, hch]
    simp [openCalls, totalChannels]
  · intro e he a b c d hcb
    subst hcb
    simp only [List.mem_append, List.mem_cons, List.mem_singleton, List.not_mem_nil,
      or_false] at he
    rcases he with (he | he | he) | he
    · cases he
    · cases he
    · cases he
    · rcases negotiateSampleRate_calls env s _ _ he with h1 | h1 <;> cases h1
  · rw [hch, hinfos]
    simp only [List.length_append, List.length_map, List.length_range, Nat.cast_add]
    rw [Int.toNat_of_nonneg hin, Int.toNat_of_nonneg hused]
  · intro i hi
    rw [hinfos]
    exact hget.1 i (by omega)
  · intro j hj
    rw [hch] at hj
    rw [hinfos]
    exact hget.2 j (by omega)
  · intro b hb
    rw [hinfos] at hb
    simp only [List.mem_append, List.mem_map, List.mem_range] at hb
    rcases hb with ⟨i, -, rfl⟩ | ⟨i, -, rfl⟩ <;> rfl

/-- C19, on the duplex driver (one input, two outputs) and a host asking for stereo: the
array is input 0, output 0, output 1. -/
theorem C19_descriptors_at_create_witness :
    (0 : Int) ≤ duplexDriver.input_channels ∧ (0 : Int) ≤ duplexDriver.output_channels ∧
    (0 : Int) ≤ (loadedState.devices 7).spec.channels ∧
    ASIO_OpenDevice duplexDriver loadedState 7
      = some (true, openedState duplexDriver loadedState 7 duplexInfos) ∧
    ∃ earlier infos bufferSize callbacks,
      (openedState duplexDriver loadedState 7 duplexInfos).trace = loadedState.trace ++ earlier ++
        [Event.createBuffers infos (duplexDriver.input_channels +
            ((openedState duplexDriver loadedState 7 duplexInfos).devices 7).spec.channels)
          bufferSize callbacks] ∧
      (∀ e ∈ earlier, ∀ a b c d, e ≠ Event.createBuffers a b c d) ∧
      (infos.length : Int) = duplexDriver.input_channels +
        ((openedState duplexDriver loadedState 7 duplexInfos).devices 7).spec.channels ∧
      (∀ i : Nat, (i : Int) < duplexDriver.input_channels →
        infos[i]? = some { isInput := ASIOTrue, channelNum := (i : Int), buffers := (0, 0) }) ∧
      (∀ j : Nat,
        (j : Int) < ((openedState duplexDriver loadedState 7 duplexInfos).devices 7).spec.channels →
        infos[duplexDriver.input_channels.toNat + j]?
          = some { isInput := ASIOFalse, channelNum := (j : Int), buffers := (0, 0) }) ∧
      ∀ b ∈ infos, b.buffers = (0, 0) :=
  ⟨by decide, by decide, by decide, rfl,
   C19_descriptors_at_create duplexDriver loadedState 7 _ (by decide) (by decide) (by decide) rfl⟩

/-! ## Index safety of the buffer-switch callback -/

theorem driverFill_length (buffers : Nat → Nat → Nat) (infos : List ASIOBufferInfo) :
    (driverFill buffers infos).length = infos.length := by
  simp [driverFill]

/-- An access of asio_buffer_switch outside the descriptor array leaves the callback
without a defined result: the first access. -/
theorem buffer_switch_first_access (s : State) (cur : Nat) (hidden : SDL_PrivateAudioData)
    (arr : List ASIOBufferInfo) (dbi dp : Int)
    (hc : s.current_asio_device = some cur) (hh : (s.devices cur).hidden = some hidden)
    (hg : hidden.output_channels ≥ (s.devices cur).spec.channels)
    (ha : hidden.buffer_info = some arr)
    (hout : ¬ (0 ≤ hidden.input_channels ∧ hidden.input_channels < arr.length)) :
    asio_buffer_switch s dbi dp = none := by
  have hr : readAt arr hidden.input_channels = none := by
    unfold readAt
    split
    · rw [List.getElem?_eq_none]
      omega
    · rfl
  unfold asio_buffer_switch
  simp only [hc, hh]
  rw [if_pos hg, ha]
  simp [hr]

/-- After a successful ASIO_OpenDevice with non-negative channel counts, the callback's
guard holds, the descriptor array has input_channels + used_outputs entries, and the
callback's accesses all lie inside it exactly when at least one output channel is used. -/
theorem opened_switch_accesses (env : Env) (s : State) (device : Nat) (s' : State)
    (hin : 0 ≤ env.input_channels) (hout : 0 ≤ env.output_channels)
    (hc : 0 ≤ (s.devices device).spec.channels)
    (h : ASIO_OpenDevice env s device = some (true, s')) :
    ∃ hidden arr, s'.current_asio_device = some device ∧
      (s'.devices device).hidden = some hidden ∧ hidden.buffer_info = some arr ∧
      hidden.input_channels = env.input_channels ∧
      hidden.output_channels ≥ (s'.devices device).spec.channels ∧
      (arr.length : Int) = env.input_channels + (s'.devices device).spec.channels ∧
      bufferSwitchAccesses s' ≠ [] ∧
      ((∀ i ∈ bufferSwitchAccesses s', 0 ≤ i ∧ i < arr.length) ↔
        1 ≤ (s'.devices device).spec.channels) := by
  obtain ⟨infos, ht, hs⟩ := open_true env s device s' h
  subst hs
  have hused : 0 ≤ limitChannels (s.devices device).spec.channels env.output_channels :=
    limitChannels_nonneg _ _ hc hout
  have hle := limitChannels_le_output (s.devices device).spec.channels env.output_channels
  have hle2 := limitChannels_le_two (s.devices device).spec.channels env.output_channels
  have hprep : preparedDescriptors env s device = some infos := ht.2.2.2.2.2.2.2.2.2.2.2.1
  rw [preparedDescriptors_eq env s device hin hused] at hprep
  have hinfos := (Option.some.inj hprep).symm
  have hlen : ((driverFill env.buffers infos).length : Int)
      = env.input_channels + limitChannels (s.devices device).spec.channels
          env.output_channels := by
    rw [driverFill_length, hinfos]
    simp only [List.length_append, List.length_map, List.length_range, Nat.cast_add]
    rw [Int.toNat_of_nonneg hin, Int.toNat_of_nonneg hused]
  have hacc : bufferSwitchAccesses (openedState env s device infos)
      = env.input_channels ::
          (if limitChannels (s.devices device).spec.channels env.output_channels = 2 ∧
              env.output_channels ≥ 2 then [env.input_channels + 1] else []) := by
    unfold bufferSwitchAccesses
    simp only [openedState_current, openedState_device]
    exact if_pos hle
  refine ⟨openedHidden env s device infos, driverFill env.buffers infos,
    openedState_current env s device infos, by rw [openedState_device], rfl, rfl, ?_, ?_, ?_, ?_⟩
  · rw [openedState_device]
    exact hle
  · rw [openedState_device]
    exact hlen
  · rw [hacc]
    exact List.cons_ne_nil _ _
  · rw [hacc, openedState_device]
    show _ ↔ 1 ≤ limitChannels (s.devices device).spec.channels env.output_channels
    constructor
    · intro hall
      have := hall env.input_channels (List.mem_cons_self _ _)
      omega
    · intro h1 i hi
      rw [List.mem_cons] at hi
      rcases hi with rfl | hi
      · omega
      · split at hi
        · rename_i hst
          rw [List.mem_singleton] at hi
          subst hi
          omega
        · cases hi

/-- C20: an input-only driver (two inputs, no output) and a host asking for stereo.
ASIO_OpenDevice succeeds with used_outputs = 0 and a descriptor array of length
2 = input_channels + used_outputs; the guard of asio_buffer_switch holds (0 >= 0), so the
callback accesses index input_channels = 2, which is not below the array's length, for
doubleBufferIndex 0 and for 1: an out-of-bounds read, with no defined result. -/
theorem C20_buffer_switch_reads_past_array :
    (0 : Int) ≤ inputOnlyDriver.input_channels ∧ (0 : Int) ≤ inputOnlyDriver.output_channels ∧
    (0 : Int) ≤ (loadedState.devices 7).spec.channels ∧
    ASIO_OpenDevice inputOnlyDriver loadedState 7 = some (true, inputOnlyOpened) ∧
    inputOnlyOpened.current_asio_device = some 7 ∧
    (inputOnlyOpened.devices 7).spec.channels = 0 ∧
    (((inputOnlyOpened.devices 7).hidden.bind fun h => h.buffer_info).map List.length)
      = some 2 ∧
    bufferSwitchAccesses inputOnlyOpened = [2] ∧
    ¬ (∀ i ∈ bufferSwitchAccesses inputOnlyOpened, 0 ≤ i ∧ i < 2) ∧
    asio_buffer_switch inputOnlyOpened 0 0 = none ∧
    asio_buffer_switch inputOnlyOpened 1 0 = none :=
  ⟨by decide, by decide, by decide, rfl, rfl, rfl, rfl, rfl, by decide, rfl, rfl⟩

/-! ## ASIO_CloseDevice and CurrentDevice -/

theorem exitState_other (env : Env) (s : State) (device : Nat) (infos : List ASIOBufferInfo)
    (e : OpenExit) (d : Nat) (hd : d ≠ device) :
    (exitState env s device infos e).devices d = s.devices d := by
  cases e <;>
    simp [exitState, openedState, publishedState, createFailedState, released, openAllocated,
      openNegotiated, openQueried, openAttached, State.call, State.log, State.setHidden,
      State.setDevice, Function.update, hd]

theorem exitState_current (env : Env) (s : State) (device : Nat) (infos : List ASIOBufferInfo)
    (e : OpenExit) (he : e ≠ OpenExit.opened) :
    (exitState env s device infos e).current_asio_device = s.current_asio_device := by
  cases e <;>
    first
    | exact absurd rfl he
    | simp [exitState, createFailedState, released, openAllocated,
        openNegotiated, openQueried, openAttached, State.call, State.log, State.setHidden,
        State.setDevice]

theorem exitState_hidden (env : Env) (s : State) (device : Nat) (infos : List ASIOBufferInfo)
    (e : OpenExit) (he : e ≠ OpenExit.opened) (hempty : (s.devices device).hidden = none) :
    ((exitState env s device infos e).devices device).hidden = none := by
  cases e with
  | opened => exact absurd rfl he
  | no_memory => exact hempty
  | _ => simp only [exitState, createFailedState, released_device]

/-- ASIO_CloseDevice leaves the device's hidden slot empty, in every state. -/
theorem close_hidden (s : State) (device : Nat) :
    ((ASIO_CloseDevice s device).devices device).hidden = none := by
  unfold ASIO_CloseDevice
  cases hh : (s.devices device).hidden with
  | none => simpa using hh
  | some hidden =>
    simp [State.call, State.log, State.setHidden, State.setDevice, apply_ite State.devices,
      apply_ite State.current_asio_device]

/-- ASIO_CloseDevice touches no other device. -/
theorem close_other (s : State) (device d : Nat) (hd : d ≠ device) :
    (ASIO_CloseDevice s device).devices d = s.devices d := by
  unfold ASIO_CloseDevice
  cases hh : (s.devices device).hidden with
  | none => rfl
  | some hidden =>
    simp [State.call, State.log, State.setHidden, State.setDevice, apply_ite State.devices,
      apply_ite State.current_asio_device, Function.update, hd]

/-- CurrentDevice after ASIO_CloseDevice: unchanged when the device has no instance;
otherwise cleared when it referred to the device and unchanged when it did not. -/
theorem close_current (s : State) (device : Nat) :
    (ASIO_CloseDevice s device).current_asio_device
      = if (s.devices device).hidden ≠ none ∧ s.current_asio_device = some device then none
        else s.current_asio_device := by
  unfold ASIO_CloseDevice
  cases hh : (s.devices device).hidden with
  | none => simp
  | some hidden =>
    simp [State.call, State.log, State.setHidden, State.setDevice, apply_ite State.devices,
      apply_ite State.current_asio_device]

theorem getDeviceBuf_state (s : State) (device : Nat) : (ASIO_GetDeviceBuf s device).2 = s := by
  unfold ASIO_GetDeviceBuf
  cases hh : (s.devices device).hidden with
  | none => rfl
  | some hidden =>
    simp only
    split <;> rfl

theorem initializeDriver_frame (env : Env) (s : State) :
    (ASIO_InitializeDriver env s).2.devices = s.devices ∧
    (ASIO_InitializeDriver env s).2.current_asio_device = s.current_asio_device := by
  unfold ASIO_InitializeDriver
  simp only [State.call]
  split_ifs <;> exact ⟨rfl, rfl⟩

theorem shutdown_frame (s : State) :
    (ASIO_ShutdownDriver s).devices = s.devices ∧
    (ASIO_ShutdownDriver s).current_asio_device = s.current_asio_device := by
  unfold ASIO_ShutdownDriver
  split <;> exact ⟨rfl, rfl⟩

theorem deinitialize_frame (s : State) :
    ( ASIO_Deinitialize s).devices = s.devices ∧
    ( ASIO_Deinitialize s).current_asio_device = s.current_asio_device := by
  unfold ASIO_Deinitialize
  rw [(unload_frame _).1, (unload_frame _).2]
  exact shutdown_frame s

/-- ASIO_PlayDevice neither creates nor removes an instance and leaves CurrentDevice. -/
theorem play_keeps_instances (env : Env) (s : State) (device : Nat) (buffer : Nat)
    (size : Int) :
    (ASIO_PlayDevice env s device buffer size).2.current_asio_device
      = s.current_asio_device ∧
    ∀ d, ((ASIO_PlayDevice env s device buffer size).2.devices d).hidden = none ↔
      (s.devices d).hidden = none := by
  unfold ASIO_PlayDevice
  cases hh : (s.devices device).hidden with
  | none => exact ⟨rfl, fun _ => Iff.rfl⟩
  | some hidden =>
    simp only
    split
    · split
      · exact ⟨rfl, fun _ => Iff.rfl⟩
      · refine ⟨rfl, fun d => ?_⟩
        by_cases hd : d = device
        · subst hd
          simp [State.call, State.setHidden, State.setDevice, hh]
        · simp [State.call, State.setHidden, State.setDevice, Function.update, hd]
    · exact ⟨rfl, fun _ => Iff.rfl⟩

/-- A returning asio_buffer_switch neither creates nor removes an instance and leaves
CurrentDevice. -/
theorem buffer_switch_keeps_instances (s s' : State) (dbi dp : Int)
    (h : asio_buffer_switch s dbi dp = some s') :
    s'.current_asio_device = s.current_asio_device ∧
    ∀ d, (s'.devices d).hidden = none ↔ (s.devices d).hidden = none := by
  unfold asio_buffer_switch at h
  cases hc : s.current_asio_device with
  | none =>
    rw [hc] at h
    simp only [Option.some.injEq] at h
    subst h
    exact ⟨hc, fun _ => Iff.rfl⟩
  | some cur =>
    rw [hc] at h
    simp only at h
    cases hh : (s.devices cur).hidden with
    | none =>
      rw [hh] at h
      simp only [Option.some.injEq] at h
      subst h
      exact ⟨hc, fun _ => Iff.rfl⟩
    | some hidden =>
      rw [hh] at h
      simp only at h
      have key : ∀ (t : State) (hid : SDL_PrivateAudioData),
          t.current_asio_device = some cur → t.devices = s.devices →
          (t.setHidden cur (some hid)).current_asio_device = some cur ∧
          ∀ d, ((t.setHidden cur (some hid)).devices d).hidden = none ↔
            (s.devices d).hidden = none := by
        intro t hid htc htd
        refine ⟨by simp [State.setHidden, State.setDevice, htc], fun d => ?_⟩
        by_cases hd : d = cur
        · subst hd
          simp [State.setHidden, State.setDevice, hh]
        · simp [State.setHidden, State.setDevice, Function.update, hd, htd]
      split at h
      · simp only [Option.bind_eq_bind, Option.bind_eq_some, Option.pure_def] at h
        obtain ⟨arr, -, bi, -, buffer, -, size, -, mem, -, h⟩ := h
        split at h
        · simp only [Option.bind_eq_bind, Option.bind_eq_some, Option.pure_def] at h
          obtain ⟨bi1, -, bi1', -, arr', -, h⟩ := h
          simp only [Option.some.injEq] at h
          subst h
          exact key _ _ rfl rfl
        · simp only [Option.some.injEq] at h
          subst h
          exact key _ _ rfl rfl
      · simp only [Option.some.injEq] at h
        subst h
        exact ⟨hc, fun _ => Iff.rfl⟩

/-- In every reachable state CurrentDevice, when set, refers to a device with an
instance. -/
theorem reachable_current_open (s : State) (hr : Reachable s) :
    ∀ d, s.current_asio_device = some d → (s.devices d).hidden ≠ none := by
  induction hr with
  | initial s hcur hclosed =>
    intro d hd
    rw [hcur] at hd
    cases hd
  | loadDriver ld s hr ih =>
    intro d hd
    rw [(load_frame ld s).2] at hd
    rw [(load_frame ld s).1]
    exact ih d hd
  | unloadDriver s hr ih =>
    intro d hd
    rw [(unload_frame s).2] at hd
    rw [(unload_frame s).1]
    exact ih d hd
  | initializeDriver env s hr ih =>
    intro d hd
    rw [(initializeDriver_frame env s).2] at hd
    rw [(initializeDriver_frame env s).1]
    exact ih d hd
  | shutdownDriver s hr ih =>
    intro d hd
    rw [(shutdown_frame s).2] at hd
    rw [(shutdown_frame s).1]
    exact ih d hd
  | deinitialize s hr ih =>
    intro d hd
    rw [(deinitialize_frame s).2] at hd
    rw [(deinitialize_frame s).1]
    exact ih d hd
  | openDevice env s device r s' hr hclosed hopen ih =>
    intro d hd
    cases r with
    | true =>
      obtain ⟨infos, -, hs⟩ := open_true env s device s' hopen
      subst hs
      rw [openedState_current] at hd
      cases hd
      rw [openedState_device]
      simp
    | false =>
      obtain ⟨infos, e, hne, -, hs⟩ := open_false env s device s' hopen
      subst hs
      rw [exitState_current env s device infos e hne] at hd
      have hdd : d ≠ device := by
        rintro rfl
        exact ih d hd hclosed
      rw [exitState_other env s device infos e d hdd]
      exact ih d hd
  | closeDevice s device hr ih =>
    intro d hd
    rw [close_current] at hd
    by_cases hdd : d = device
    · subst hdd
      split at hd
      · cases hd
      · rename_i hn
        exact absurd ⟨ih d hd, hd⟩ hn
    · rw [close_other s device d hdd]
      split at hd
      · cases hd
      · exact ih d hd
  | getDeviceBuf s device hr ih =>
    rw [getDeviceBuf_state]
    exact ih
  | playDevice env s device buffer size hr ih =>
    intro d hd
    rw [(play_keeps_instances env s device buffer size).1] at hd
    rw [Ne, (play_keeps_instances env s device buffer size).2 d]
    exact ih d hd
  | bufferSwitch s dbi dp s' hr hcb ih =>
    intro d hd
    rw [(buffer_switch_keeps_instances s s' dbi dp hcb).1] at hd
    rw [Ne, (buffer_switch_keeps_instances s s' dbi dp hcb).2 d]
    exact ih d hd
  | bufferSwitchTimeInfo s params dbi dp s' hr hcb ih =>
    intro d hd
    rw [(buffer_switch_keeps_instances s s' dbi dp hcb).1] at hd
    rw [Ne, (buffer_switch_keeps_instances s s' dbi dp hcb).2 d]
    exact ih d hd
  | sampleRateChanged s sRate hr ih => exact ih

/-- Opening device 7 on the fake driver and playing once is a reachable state. -/
theorem fakeStarted_reachable : Reachable fakeStarted :=
  Reachable.playDevice fakeDriver (fakeOpened fakeDriver) 7 0 0
    (Reachable.openDevice fakeDriver loadedState 7 true (fakeOpened fakeDriver)
      (Reachable.initial loadedState rfl (fun _ => rfl)) rfl rfl)

/-- Outside the host's protocol: a second ASIO_OpenDevice on the open device 7 that fails
at create-buffers empties the hidden slot and keeps CurrentDevice, and the ASIO_CloseDevice
that follows returns at once, with CurrentDevice still referring to device 7. -/
theorem close_after_failed_reopen :
    ((fakeOpened fakeDriver).devices 7).hidden ≠ none ∧
    ASIO_OpenDevice noMemoryDriver (fakeOpened fakeDriver) 7 = some (false, failedReopen) ∧
    failedReopen.current_asio_device = some 7 ∧
    (failedReopen.devices 7).hidden = none ∧
    (ASIO_CloseDevice failedReopen 7).current_asio_device = some 7 :=
  ⟨by simp [fakeOpened, openedState_device],
   open_of_exit noMemoryDriver (fakeOpened fakeDriver) 7 fakeInfos OpenExit.create_failed
     ⟨rfl, by decide, by decide, rfl, by decide, rfl, by decide, rfl, by decide, rfl, rfl, rfl,
      by decide, by decide⟩,
   rfl, rfl, rfl⟩

/-- C17: for every ASIO_CloseDevice(d) call in a reachable state (the host opens only
devices that are not open), on return d's hidden slot is empty, CurrentDevice is null if
it referred to d at entry, and CurrentDevice is unchanged if it referred to another device
or was null; no other device is touched. -/
theorem C17_close_device (s : State) (d : Nat) (hr : Reachable s) :
    ((ASIO_CloseDevice s d).devices d).hidden = none ∧
    (s.current_asio_device = some d → (ASIO_CloseDevice s d).current_asio_device = none) ∧
    (∀ other, other ≠ d → s.current_asio_device = some other →
      (ASIO_CloseDevice s d).current_asio_device = some other) ∧
    (s.current_asio_device = none → (ASIO_CloseDevice s d).current_asio_device = none) ∧
    (∀ other, other ≠ d → (ASIO_CloseDevice s d).devices other = s.devices other) := by
  refine ⟨close_hidden s d, ?_, ?_, ?_, fun other ho => close_other s d other ho⟩
  · intro hc
    rw [close_current, if_pos ⟨reachable_current_open s hr d hc, hc⟩]
  · intro other ho hc
    rw [close_current, if_neg, hc]
    rintro ⟨-, h2⟩
    rw [hc] at h2
    exact ho (Option.some.inj h2)
  · intro hc
    rw [close_current, if_neg, hc]
    rintro ⟨-, h2⟩
    rw [hc] at h2
    cases h2

/-- C17, on the open and started device 7 of the fake driver: closing device 7 empties its
hidden slot and clears CurrentDevice; closing device 3 leaves CurrentDevice on device 7;
and closing device 7 a second time leaves CurrentDevice null. -/
theorem C17_close_device_witness :
    Reachable fakeStarted ∧ fakeStarted.current_asio_device = some 7 ∧
    ((ASIO_CloseDevice fakeStarted 7).devices 7).hidden = none ∧
    (ASIO_CloseDevice fakeStarted 7).current_asio_device = none ∧
    (ASIO_CloseDevice fakeStarted 3).current_asio_device = some 7 ∧
    (ASIO_CloseDevice (ASIO_CloseDevice fakeStarted 7) 7).current_asio_device = none :=
  ⟨fakeStarted_reachable, rfl,
   (C17_close_device fakeStarted 7 fakeStarted_reachable).1,
   (C17_close_device fakeStarted 7 fakeStarted_reachable).2.1 rfl,
   (C17_close_device fakeStarted 3 fakeStarted_reachable).2.2.1 7 (by decide) rfl,
   (C17_close_device (ASIO_CloseDevice fakeStarted 7) 7
      (Reachable.closeDevice fakeStarted 7 fakeStarted_reachable)).2.2.2.1 rfl⟩

/-! ## The lifecycle invariant -/

/-- A failing ASIO_OpenDevice either changes nothing (the instance could not be
allocated) or leaves the device's hidden slot empty. -/
theorem exitState_failed (env : Env) (s : State) (device : Nat) (infos : List ASIOBufferInfo)
    (e : OpenExit) (he : e ≠ OpenExit.opened) :
    exitState env s device infos e = s ∨
      ((exitState env s device infos e).devices device).hidden = none := by
  cases e with
  | opened => exact absurd rfl he
  | no_memory => exact Or.inl rfl
  | _ => exact Or.inr (by simp only [exitState, createFailedState, released_device])

theorem open_lifecycle (env : Env) (s : State) (device : Nat) (r : Bool) (s' : State)
    (started : Nat → Bool) (hinv : Lifecycle s started)
    (hopen : ASIO_OpenDevice env s device = some (r, s')) :
    Lifecycle s' (startSucceeded started s (Op.openDevice env device)) := by
  simp only [startSucceeded]
  rw [hopen]
  cases r with
  | true =>
    obtain ⟨infos, -, hs⟩ := open_true env s device s' hopen
    subst hs
    simp only [Option.map_some', if_true]
    intro d h hd
    by_cases hdd : d = device
    · subst hdd
      rw [openedState_device] at hd
      simp only [Option.some.injEq] at hd
      subst hd
      refine ⟨rfl, rfl, rfl, fun hst => ?_⟩
      cases hst
    · rw [openedState_other env s device infos d hdd] at hd
      rw [Function.update_noteq hdd]
      exact hinv d h hd
  | false =>
    obtain ⟨infos, e, hne, -, hs⟩ := open_false env s device s' hopen
    subst hs
    simp only [Option.map_some', Option.some.injEq, Bool.false_eq_true, if_false]
    intro d h hd
    rcases exitState_failed env s device infos e hne with hsame | hnone
    · rw [hsame] at hd
      exact hinv d h hd
    · by_cases hdd : d = device
      · subst hdd
        rw [hnone] at hd
        cases hd
      · rw [exitState_other env s device infos e d hdd] at hd
        exact hinv d h hd

theorem play_lifecycle (env : Env) (s : State) (device : Nat) (buffer : Nat) (size : Int)
    (started : Nat → Bool) (hinv : Lifecycle s started) :
    Lifecycle (ASIO_PlayDevice env s device buffer size).2
      (startSucceeded started s (Op.playDevice env device buffer size)) := by
  simp only [startSucceeded]
  have hidle : ASIO_PlayDevice env s device buffer size = (false, s) ∨
      ASIO_PlayDevice env s device buffer size = (true, s) →
      Lifecycle (ASIO_PlayDevice env s device buffer size).2
        (if (ASIO_PlayDevice env s device buffer size).2.trace = s.trace ++ [Event.start] ∧
            env.start_result = ASE_OK then Function.update started device true
          else started) := by
    intro hp
    have h2 : (ASIO_PlayDevice env s device buffer size).2 = s := by
      rcases hp with hp | hp <;> rw [hp]
    rw [h2]
    simp only [List.self_eq_append_right, List.cons_ne_nil, false_and, if_false]
    exact hinv
  cases hh : (s.devices device).hidden with
  | none =>
    apply hidle
    left
    unfold ASIO_PlayDevice
    rw [hh]
  | some hidden =>
    cases hs : hidden.driver_started with
    | true => exact hidle (Or.inr (play_when_started env s device hidden buffer size hh hs))
    | false =>
      by_cases hp : s.pASIOStart = 0
      · apply hidle
        right
        unfold ASIO_PlayDevice
        rw [hh]
        simp [hs, hp]
      · by_cases hres : env.start_result = 0
        · rw [play_start_succeeds env s device hidden buffer size hh hs hp hres]
          have htr : ((s.call Event.start).setHidden device
              (some { hidden with driver_started := true })).trace
                = s.trace ++ [Event.start] := by
            simp [State.call, State.setHidden, State.setDevice]
          rw [if_pos ⟨htr, hres⟩]
          intro d h hd
          by_cases hdd : d = device
          · subst hdd
            simp only [State.call, State.setHidden, State.setDevice, Function.update_same,
              Option.some.injEq] at hd
            subst hd
            obtain ⟨h1, h2, h3, -⟩ := hinv d hidden hh
            exact ⟨h1, h2, h3, fun _ => Function.update_same _ _ _⟩
          · simp only [State.call, State.setHidden, State.setDevice,
              Function.update_noteq hdd] at hd
            rw [Function.update_noteq hdd]
            exact hinv d h hd
        · rw [play_start_fails env s device hidden buffer size hh hs hp hres]
          have hres' : ¬ env.start_result = ASE_OK := hres
          simp only [hres', and_false, if_false]
          intro d h hd
          exact hinv d h hd

/-- A returning asio_buffer_switch keeps, in every instance, buffers_created,
driver_started and the channel-info array, and leaves the descriptor array allocated. -/
theorem buffer_switch_instance (s s' : State) (dbi dp : Int)
    (h : asio_buffer_switch s dbi dp = some s') :
    ∀ d h', (s'.devices d).hidden = some h' →
      ∃ h0, (s.devices d).hidden = some h0 ∧ h'.buffers_created = h0.buffers_created ∧
        h'.driver_started = h0.driver_started ∧ h'.channel_info = h0.channel_info ∧
        (h0.buffer_info.isSome = true → h'.buffer_info.isSome = true) := by
  have hsame : ∀ d h', (s.devices d).hidden = some h' →
      ∃ h0, (s.devices d).hidden = some h0 ∧ h'.buffers_created = h0.buffers_created ∧
        h'.driver_started = h0.driver_started ∧ h'.channel_info = h0.channel_info ∧
        (h0.buffer_info.isSome = true → h'.buffer_info.isSome = true) :=
    fun d h' hd => ⟨h', hd, rfl, rfl, rfl, fun hb => hb⟩
  unfold asio_buffer_switch at h
  cases hc : s.current_asio_device with
  | none =>
    rw [hc] at h
    simp only [Option.some.injEq] at h
    subst h
    exact hsame
  | some cur =>
    rw [hc] at h
    simp only at h
    cases hh : (s.devices cur).hidden with
    | none =>
      rw [hh] at h
      simp only [Option.some.injEq] at h
      subst h
      exact hsame
    | some hidden =>
      rw [hh] at h
      simp only at h
      have key : ∀ (t : State) (hid : SDL_PrivateAudioData), t.devices = s.devices →
          hid.buffers_created = hidden.buffers_created →
          hid.driver_started = hidden.driver_started →
          hid.channel_info = hidden.channel_info →
          (hidden.buffer_info.isSome = true → hid.buffer_info.isSome = true) →
          ∀ d h', ((t.setHidden cur (some hid)).devices d).hidden = some h' →
            ∃ h0, (s.devices d).hidden = some h0 ∧
              h'.buffers_created = h0.buffers_created ∧
              h'.driver_started = h0.driver_started ∧ h'.channel_info = h0.channel_info ∧
              (h0.buffer_info.isSome = true → h'.buffer_info.isSome = true) := by
        intro t hid htd h1 h2 h3 h4 d h' hd
        by_cases hdd : d = cur
        · subst hdd
          simp only [State.setHidden, State.setDevice, Function.update_same,
            Option.some.injEq] at hd
          subst hd
          exact ⟨hidden, hh, h1, h2, h3, h4⟩
        · simp only [State.setHidden, State.setDevice, Function.update_noteq hdd, htd] at hd
          exact hsame d h' hd
      split at h
      · simp only [Option.bind_eq_bind, Option.bind_eq_some, Option.pure_def] at h
        obtain ⟨arr, -, bi, -, buffer, -, size, -, mem, -, h⟩ := h
        split at h
        · simp only [Option.bind_eq_bind, Option.bind_eq_some, Option.pure_def] at h
          obtain ⟨bi1, -, bi1', -, arr', -, h⟩ := h
          simp only [Option.some.injEq] at h
          subst h
          exact key _ _ rfl rfl rfl rfl (fun _ => rfl)
        · simp only [Option.some.injEq] at h
          subst h
          exact key _ _ rfl rfl rfl rfl (fun hb => hb)
      · simp only [Option.some.injEq] at h
        subst h
        exact hsame

theorem buffer_switch_lifecycle (s s' : State) (dbi dp : Int) (started : Nat → Bool)
    (hinv : Lifecycle s started) (h : asio_buffer_switch s dbi dp = some s') :
    Lifecycle s' started := by
  intro d h' hd
  obtain ⟨h0, hd0, h1, h2, h3, h4⟩ := buffer_switch_instance s s' dbi dp h d h' hd
  obtain ⟨i1, i2, i3, i4⟩ := hinv d h0 hd0
  exact ⟨by rw [h1, i1], h4 i2, by rw [h3, i3], fun hst => i4 (by rw [← h2, hst])⟩

theorem close_lifecycle (s : State) (device : Nat) (started : Nat → Bool)
    (hinv : Lifecycle s started) : Lifecycle (ASIO_CloseDevice s device) started := by
  intro d h hd
  by_cases hdd : d = device
  · subst hdd
    rw [close_hidden] at hd
    cases hd
  · rw [close_other s device d hdd] at hd
    exact hinv d h hd

/-- Every step with a defined result keeps the lifecycle invariant. -/
theorem step_lifecycle (s s' : State) (started : Nat → Bool) (op : Op)
    (hinv : Lifecycle s started) (hstep : step s op = some s') :
    Lifecycle s' (startSucceeded started s op) := by
  cases op with
  | openDevice env device =>
    simp only [step, Option.map_eq_some'] at hstep
    obtain ⟨⟨r, s1⟩, hopen, hs⟩ := hstep
    simp only at hs
    subst hs
    exact open_lifecycle env s device r s1 started hinv hopen
  | playDevice env device buffer size =>
    simp only [step, Option.some.injEq] at hstep
    subst hstep
    exact play_lifecycle env s device buffer size started hinv
  | getDeviceBuf device =>
    simp only [step, Option.some.injEq, getDeviceBuf_state] at hstep
    subst hstep
    exact hinv
  | bufferSwitch dbi dp =>
    exact buffer_switch_lifecycle s s' dbi dp started hinv hstep
  | closeDevice device =>
    simp only [step, Option.some.injEq] at hstep
    subst hstep
    exact close_lifecycle s device started hinv

/-- Every interleaving with a defined result keeps the lifecycle invariant. -/
theorem run_lifecycle (ops : List Op) (s : State) (started : Nat → Bool) (s' : State)
    (started' : Nat → Bool) (hinv : Lifecycle s started)
    (hrun : run s started ops = some (s', started')) : Lifecycle s' started' := by
  induction ops generalizing s started with
  | nil =>
    simp only [run, Option.some.injEq, Prod.mk.injEq] at hrun
    obtain ⟨h1, h2⟩ := hrun
    subst h1
    subst h2
    exact hinv
  | cons op ops ih =>
    simp only [run] at hrun
    cases hstep : step s op with
    | none =>
      rw [hstep] at hrun
      cases hrun
    | some s1 =>
      rw [hstep] at hrun
      exact ih s1 _ (step_lifecycle s s1 started op hinv hstep) hrun

/-- With no device open, the lifecycle invariant holds. -/
theorem lifecycle_initial (s : State) (started : Nat → Bool)
    (hclosed : ∀ d, (s.devices d).hidden = none) : Lifecycle s started := by
  intro d h hd
  rw [hclosed d] at hd
  cases hd

/-- C21: in every state reached from a state with no device open by any interleaving of
ASIO_OpenDevice, ASIO_PlayDevice, ASIO_GetDeviceBuf, asio_buffer_switch and
ASIO_CloseDevice, every device whose hidden slot is non-empty has buffers_created = true
and both descriptor arrays allocated, and has driver_started = true only if the driver's
start has returned success for it since it was opened; so the device is in exactly one of
CLOSED, OPEN-stopped and OPEN-started. -/
theorem C21_lifecycle_invariant (s0 : State) (ops : List Op) (s : State)
    (started : Nat → Bool) (hclosed : ∀ d, (s0.devices d).hidden = none)
    (hrun : run s0 (fun _ => false) ops = some (s, started)) (d : Nat) :
    (∀ h, (s.devices d).hidden = some h →
      h.buffers_created = true ∧ h.buffer_info.isSome = true ∧
      h.channel_info.isSome = true ∧ (h.driver_started = true → started d = true)) ∧
    ∃! p, inPhase (s.devices d) (started d) p := by
  have hinv : Lifecycle s started :=
    run_lifecycle ops s0 (fun _ => false) s started
      (lifecycle_initial s0 (fun _ => false) hclosed) hrun
  refine ⟨fun h hd => hinv d h hd, ?_⟩
  cases hd : (s.devices d).hidden with
  | none =>
    refine ⟨Phase.closed, by simp [inPhase, hd], fun p hp => ?_⟩
    cases p <;> simp [inPhase, hd] at hp ⊢
  | some h =>
    obtain ⟨h1, h2, h3, h4⟩ := hinv d h hd
    cases hst : h.driver_started with
    | false =>
      refine ⟨Phase.open_stopped, by simp [inPhase, hd, h1, h2, h3, hst], fun p hp => ?_⟩
      cases p <;> simp [inPhase, hd, hst] at hp ⊢
    | true =>
      refine ⟨Phase.open_started, by simp [inPhase, hd, h1, h2, h3, hst, h4 hst],
        fun p hp => ?_⟩
      cases p <;> simp [inPhase, hd, hst] at hp ⊢

/-- C21, on the fake driver from the loaded state with no device open: after open, play,
buffer switch, get-buffer and a second play, device 7 is OPEN-started and device 3 is
CLOSED; after open and a play whose start fails, device 7 is OPEN-stopped. -/
theorem C21_lifecycle_invariant_witness :
    (∀ d, (loadedState.devices d).hidden = none) ∧
    run loadedState (fun _ => false) lifecycleOps = some lifecycleEnd ∧
    run loadedState (fun _ => false) failedStartOps = some failedStartEnd ∧
    ((∀ h, (lifecycleEnd.1.devices 7).hidden = some h →
        h.buffers_created = true ∧ h.buffer_info.isSome = true ∧
        h.channel_info.isSome = true ∧
        (h.driver_started = true → lifecycleEnd.2 7 = true)) ∧
      ∃! p, inPhase (lifecycleEnd.1.devices 7) (lifecycleEnd.2 7) p) ∧
    ((∀ h, (failedStartEnd.1.devices 7).hidden = some h →
        h.buffers_created = true ∧ h.buffer_info.isSome = true ∧
        h.channel_info.isSome = true ∧
        (h.driver_started = true → failedStartEnd.2 7 = true)) ∧
      ∃! p, inPhase (failedStartEnd.1.devices 7) (failedStartEnd.2 7) p) ∧
    inPhase (lifecycleEnd.1.devices 7) (lifecycleEnd.2 7) Phase.open_started ∧
    inPhase (lifecycleEnd.1.devices 3) (lifecycleEnd.2 3) Phase.closed ∧
    inPhase (failedStartEnd.1.devices 7) (failedStartEnd.2 7) Phase.open_stopped :=
  ⟨fun _ => rfl, rfl, rfl,
   C21_lifecycle_invariant loadedState lifecycleOps lifecycleEnd.1 lifecycleEnd.2
     (fun _ => rfl) rfl 7,
   C21_lifecycle_invariant loadedState failedStartOps failedStartEnd.1 failedStartEnd.2
     (fun _ => rfl) rfl 7,
   by decide, by decide, by decide⟩

/-! ## The guard of the buffer-switch callback in reachable states -/

/-- ASIO_PlayDevice keeps every device's spec and every instance's output_channels. -/
theorem play_channels (env : Env) (s : State) (device : Nat) (buffer : Nat) (size : Int)
    (d : Nat) (h' : SDL_PrivateAudioData)
    (hd : ((ASIO_PlayDevice env s device buffer size).2.devices d).hidden = some h') :
    ((ASIO_PlayDevice env s device buffer size).2.devices d).spec = (s.devices d).spec ∧
    ∃ h0, (s.devices d).hidden = some h0 ∧ h'.output_channels = h0.output_channels := by
  have hidle : (ASIO_PlayDevice env s device buffer size).2.devices = s.devices →
      ((ASIO_PlayDevice env s device buffer size).2.devices d).spec = (s.devices d).spec ∧
      ∃ h0, (s.devices d).hidden = some h0 ∧ h'.output_channels = h0.output_channels := by
    intro hp
    rw [hp] at hd ⊢
    exact ⟨rfl, h', hd, rfl⟩
  cases hh : (s.devices device).hidden with
  | none =>
    apply hidle
    unfold ASIO_PlayDevice
    rw [hh]
  | some hidden =>
    cases hs : hidden.driver_started with
    | true =>
      apply hidle
      rw [play_when_started env s device hidden buffer size hh hs]
    | false =>
      by_cases hp : s.pASIOStart = 0
      · apply hidle
        unfold ASIO_PlayDevice
        rw [hh]
        simp [hs, hp]
      · by_cases hres : env.start_result = 0
        · rw [play_start_succeeds env s device hidden buffer size hh hs hp hres] at hd ⊢
          by_cases hdd : d = device
          · subst hdd
            simp only [State.call, State.setHidden, State.setDevice, Function.update_same,
              Option.some.injEq] at hd ⊢
            subst hd
            exact ⟨trivial, hidden, hh, rfl⟩
          · simp only [State.call, State.setHidden, State.setDevice,
              Function.update_noteq hdd] at hd ⊢
            exact ⟨trivial, h', hd, rfl⟩
        · apply hidle
          rw [play_start_fails env s device hidden buffer size hh hs hp hres]
          rfl

/-- A returning asio_buffer_switch keeps every device's spec and every instance's
output_channels. -/
theorem buffer_switch_channels (s s' : State) (dbi dp : Int)
    (h : asio_buffer_switch s dbi dp = some s') (d : Nat) (h' : SDL_PrivateAudioData)
    (hd : (s'.devices d).hidden = some h') :
    (s'.devices d).spec = (s.devices d).spec ∧
    ∃ h0, (s.devices d).hidden = some h0 ∧ h'.output_channels = h0.output_channels := by
  unfold asio_buffer_switch at h
  cases hc : s.current_asio_device with
  | none =>
    rw [hc] at h
    simp only [Option.some.injEq] at h
    subst h
    exact ⟨rfl, h', hd, rfl⟩
  | some cur =>
    rw [hc] at h
    simp only at h
    cases hh : (s.devices cur).hidden with
    | none =>
      rw [hh] at h
      simp only [Option.some.injEq] at h
      subst h
      exact ⟨rfl, h', hd, rfl⟩
    | some hidden =>
      rw [hh] at h
      simp only at h
      have key : ∀ (t : State) (hid : SDL_PrivateAudioData), t.devices = s.devices →
          hid.output_channels = hidden.output_channels →
          ((t.setHidden cur (some hid)).devices d).hidden = some h' →
          ((t.setHidden cur (some hid)).devices d).spec = (s.devices d).spec ∧
          ∃ h0, (s.devices d).hidden = some h0 ∧
            h'.output_channels = h0.output_channels := by
        intro t hid htd h1 hd'
        by_cases hdd : d = cur
        · subst hdd
          simp only [State.setHidden, State.setDevice, Function.update_same,
            Option.some.injEq, htd] at hd' ⊢
          subst hd'
          exact ⟨trivial, hidden, hh, h1⟩
        · simp only [State.setHidden, State.setDevice, Function.update_noteq hdd,
            htd] at hd' ⊢
          exact ⟨trivial, h', hd', rfl⟩
      split at h
      · simp only [Option.bind_eq_bind, Option.bind_eq_some, Option.pure_def] at h
        obtain ⟨arr, -, bi, -, buffer, -, size, -, mem, -, h⟩ := h
        split at h
        · simp only [Option.bind_eq_bind, Option.bind_eq_some, Option.pure_def] at h
          obtain ⟨bi1, -, bi1', -, arr', -, h⟩ := h
          simp only [Option.some.injEq] at h
          subst h
          exact key _ _ rfl rfl hd
        · simp only [Option.some.injEq] at h
          subst h
          exact key _ _ rfl rfl hd
      · simp only [Option.some.injEq] at h
        subst h
        exact ⟨rfl, h', hd, rfl⟩

/-- In every reachable state the guard of asio_buffer_switch holds for every device with
an instance: the spec's channel count, lowered by ASIO_OpenDevice to at most the driver's
output count, does not exceed the instance's output_channels.  The callback's early
return on a failing guard is therefore never taken in a reachable state. -/
theorem reachable_guard (s : State) (hr : Reachable s) :
    ∀ d h, (s.devices d).hidden = some h → (s.devices d).spec.channels ≤ h.output_channels := by
  induction hr with
  | initial s hcur hclosed =>
    intro d h hd
    rw [hclosed d] at hd
    cases hd
  | loadDriver ld s hr ih =>
    intro d h hd
    rw [(load_frame ld s).1] at hd ⊢
    exact ih d h hd
  | unloadDriver s hr ih =>
    intro d h hd
    rw [(unload_frame s).1] at hd ⊢
    exact ih d h hd
  | initializeDriver env s hr ih =>
    intro d h hd
    rw [(initializeDriver_frame env s).1] at hd ⊢
    exact ih d h hd
  | shutdownDriver s hr ih =>
    intro d h hd
    rw [(shutdown_frame s).1] at hd ⊢
    exact ih d h hd
  | deinitialize s hr ih =>
    intro d h hd
    rw [(deinitialize_frame s).1] at hd ⊢
    exact ih d h hd
  | openDevice env s device r s' hr hclosed hopen ih =>
    intro d h hd
    cases r with
    | true =>
      obtain ⟨infos, -, hs⟩ := open_true env s device s' hopen
      subst hs
      by_cases hdd : d = device
      · subst hdd
        rw [openedState_device] at hd ⊢
        simp only [Option.some.injEq] at hd
        subst hd
        exact limitChannels_le_output _ _
      · rw [openedState_other env s device infos d hdd] at hd ⊢
        exact ih d h hd
    | false =>
      obtain ⟨infos, e, hne, -, hs⟩ := open_false env s device s' hopen
      subst hs
      by_cases hdd : d = device
      · subst hdd
        rw [exitState_hidden env s d infos e hne hclosed] at hd
        cases hd
      · rw [exitState_other env s device infos e d hdd] at hd ⊢
        exact ih d h hd
  | closeDevice s device hr ih =>
    intro d h hd
    by_cases hdd : d = device
    · subst hdd
      rw [close_hidden] at hd
      cases hd
    · rw [close_other s device d hdd] at hd ⊢
      exact ih d h hd
  | getDeviceBuf s device hr ih =>
    rw [getDeviceBuf_state]
    exact ih
  | playDevice env s device buffer size hr ih =>
    intro d h hd
    obtain ⟨hspec, h0, hd0, hout⟩ := play_channels env s device buffer size d h hd
    rw [hspec, hout]
    exact ih d h0 hd0
  | bufferSwitch s dbi dp s' hr hcb ih =>
    intro d h hd
    obtain ⟨hspec, h0, hd0, hout⟩ := buffer_switch_channels s s' dbi dp hcb d h hd
    rw [hspec, hout]
    exact ih d h0 hd0
  | bufferSwitchTimeInfo s params dbi dp s' hr hcb ih =>
    intro d h hd
    obtain ⟨hspec, h0, hd0, hout⟩ := buffer_switch_channels s s' dbi dp hcb d h hd
    rw [hspec, hout]
    exact ih d h0 hd0
  | sampleRateChanged s sRate hr ih => exact ih

/-- On the single-output driver with a host asking for stereo, ASIO_OpenDevice lowers the
spec's channel count to 1, so the guard of asio_buffer_switch holds (1 >= 1). -/
theorem monoOpened_guard :
    (loadedState.devices 7).spec.channels = 2 ∧
    ASIO_OpenDevice monoDriver loadedState 7 = some (true, monoOpened) ∧
    (monoOpened.devices 7).spec.channels = 1 ∧
    ((monoOpened.devices 7).hidden.map fun h => h.output_channels) = some 1 :=
  ⟨rfl, rfl, rfl, rfl⟩

end SDLAsio
